import Mathlib

/-!
# OsmAnd core: symbol placement stage of the atlas map renderer

A shallow embedding of `src/Map/AtlasMapRendererSymbolsStage.cpp`, and of
`RouteSegmentResult::getPreAttachedRoutes` of `native/src/routeSegmentResult.cpp`.

* Objects reached through `std::shared_ptr` are records carrying an `id`
  (their address); pointer comparison is comparison of `id`.
* `std::weak_ptr<MapSymbolsGroup>` is a handle resolved through `Stage.lock`.
* `QLinkedList` nodes are pairs of a node identity and a value, so that an
  iterator kept in a `PlottedSymbolRef` designates one node.
* `QHash` is an association list; the pass over it is proved not to depend on
  the order of its entries.
* Floating point geometry (projection to the screen, oriented boxes) is a
  field of `Stage`.
* Floating point numbers of the on-path placement are rationals and their
  arithmetic is exact; `glm::distance`, `glm::normalize` and the projections are
  fields of `InternalState`.
* A loop is a function that recurses on the number of turns left; the repeat-fit
  loop takes a fuel that is proved never to run out.
* An `int` is an integer reduced to 32 bits in two's complement after each
  operation; a read outside of a vector is `none`.
-/

namespace OsmAnd

/-! ## Data model -/

/-- Integer point (`PointI`). -/
structure PointI where
  x : Int
  y : Int
deriving DecidableEq, Repr

/-- Modelled from the spec: `MapSymbol::ContentClass` is declared in MapSymbol.h,
which is not among the sources. Spec §3: "content class (Icon | Caption | Other,
used by group rules)". -/
inductive ContentClass where
  | Icon
  | Caption
  | Other
deriving DecidableEq, Repr

/-- Modelled from the spec: the two intersection-test opt-out flags of
`MapSymbol::intersectionModeFlags` that the stage reads (MapSymbol.h is not
among the sources). -/
inductive IntersectionModeFlag where
  | IgnoredByIntersectionTest
  | TransparentForIntersectionLookup
deriving DecidableEq, Repr

/-- Modelled from the spec: the closed family of classes derived from `MapSymbol`
that the stage casts to (spec §3: placement kind Billboard | OnPath | OnSurface,
content kind Raster | Vector; `OnPathMapSymbol` is a `RasterMapSymbol`, as its
use as argument of the `RasterMapSymbol` filters shows). -/
inductive MapSymbolClass where
  | BillboardRaster
  | BillboardVector
  | OnSurfaceRaster
  | OnSurfaceVector
  | OnPath
deriving DecidableEq, Repr

/-- Outcome of `std::dynamic_pointer_cast<const RasterMapSymbol>`. -/
def MapSymbolClass.isRaster : MapSymbolClass → Bool
  | .BillboardRaster => true
  | .OnSurfaceRaster => true
  | .OnPath => true
  | _ => false

/-- Outcome of `std::dynamic_pointer_cast<const VectorMapSymbol>`. -/
def MapSymbolClass.isVector : MapSymbolClass → Bool
  | .BillboardVector => true
  | .OnSurfaceVector => true
  | _ => false

/-- Test of one flag of a bit mask (`Bitmask::isSet`, `mask & flag`). -/
def isSet {F : Type} [DecidableEq F] (mask : List F) (flag : F) : Bool :=
  mask.contains flag

/-- The fields of a map symbol that the stage reads. `id` is the address of the
object, `group` the weak reference to the owning group and `groupPtr` the raw
pointer to it. `content`, `minDistance` and `size` are fields of
`RasterMapSymbol` (`none` is a null content), `path` is the field of
`OnPathMapSymbol` (its vertices in 31-bit coordinates). -/
structure MapSymbol where
  id : Nat
  cls : MapSymbolClass
  group : Nat
  groupPtr : Nat
  contentClass : ContentClass
  intersectionModeFlags : List IntersectionModeFlag
  isHidden : Bool
  content : Option String
  minDistance : PointI
  size : PointI := { x := 0, y := 0 }
  path : List PointI := []
deriving DecidableEq, Repr

/-- Modelled from the spec: `MapSymbolsGroup::PresentationModeFlag` (MapSymbolsGroup.h
is not among the sources); the four flags are the ones named in the stage. -/
inductive PresentationModeFlag where
  | ShowAnything
  | ShowAllOrNothing
  | ShowAllCaptionsOrNoCaptions
  | ShowNoneIfIconIsNotShown
deriving DecidableEq, Repr

/-- A symbols group: its presentation mode (a flag set) and its symbols in order. -/
structure MapSymbolsGroup where
  presentationMode : List PresentationModeFlag
  symbols : List MapSymbol
deriving DecidableEq, Repr

/-- Modelled from the spec: `MapSymbolsGroup::getFirstSymbolWithContentClass`
(MapSymbolsGroup.h/.cpp are not among the sources): the first symbol of the group,
in group order, whose content class is the given one, or null. -/
def MapSymbolsGroup.getFirstSymbolWithContentClass (g : MapSymbolsGroup)
    (c : ContentClass) : Option MapSymbol :=
  g.symbols.find? (fun s => s.contentClass == c)

/-- Modelled from the spec: `MapSymbolsGroup::numberOfSymbolsWithContentClass`
(not among the sources): how many symbols of the group have the given content
class. -/
def MapSymbolsGroup.numberOfSymbolsWithContentClass (g : MapSymbolsGroup)
    (c : ContentClass) : Nat :=
  (g.symbols.filter (fun s => s.contentClass == c)).length

/-- The dynamic type of a renderable. -/
inductive RenderableKind where
  | Billboard
  | OnPath
  | OnSurface
deriving DecidableEq, Repr

/-- A `RenderableSymbol`: its dynamic type, the map symbol it renders and, for an
on-path renderable, the 2D/3D mode. `tag` stands for the remaining payload
(GPU resource, world position, directions), which only the geometry of the
`Stage` reads. -/
structure RenderableSymbol where
  kind : RenderableKind
  mapSymbol : MapSymbol
  is2D : Bool
  tag : Nat
deriving DecidableEq, Repr

/-- The debug settings that change what is plotted (the others only add debug
drawings). -/
structure DebugSettings where
  skipSymbolsIntersectionCheck : Bool
  skipSymbolsMinDistanceToSameContentFromOtherSymbolCheck : Bool
  allSymbolsTransparentForIntersectionLookup : Bool
  excludeOnPathSymbolsFromProcessing : Bool := false
  excludeBillboardSymbolsFromProcessing : Bool := false
  excludeOnSurfaceSymbolsFromProcessing : Bool := false
deriving DecidableEq, Repr

/-! ## Intersection index -/

/-- Modelled from the spec: the geometry of the boxes kept in the intersection
index (Area.h, OOBB.h and QuadTree.h are not among the sources). Spec §4.1:
"Overlap is true occupied-bounds intersection for axis-aligned boxes, and
separating-axis intersection for oriented boxes. A box may be enlarged by a
margin before either call". -/
structure BoxGeometry (B : Type) where
  intersects : B → B → Bool
  getEnlargedBy : B → PointI → B

/-- Modelled from the spec: `IntersectionsQuadTree` (QuadTree.h is not among the
sources). Spec §3: "a spatial partition of the viewport holding committed
(bbox/oobb, Symbol) entries. Entries are append-only within a frame". The
spatial partition only speeds the queries up; the entries are kept in the order
of their commit. -/
structure IntersectionsQuadTree (B : Type) where
  entries : List (MapSymbol × B)

/-- Modelled from the spec: `QuadTree::test` (not among the sources). Spec §4.1:
"check whether any already-committed box whose associated symbol satisfies
predicate overlaps box", a read-only query. -/
def IntersectionsQuadTree.test {B : Type} (geo : BoxGeometry B)
    (tree : IntersectionsQuadTree B) (box : B)
    (predicate : MapSymbol → B → Bool) : Bool :=
  tree.entries.any (fun e => predicate e.1 e.2 && geo.intersects box e.2)

/-- Modelled from the spec: `QuadTree::insert` (not among the sources). Spec §4.1:
"it commits and returns success". The exclusion test that the spec describes
before the commit is made in this stage by
`applyIntersectionWithOtherSymbolsFiltering`, which runs before `plotSymbol`
calls `insert`. -/
def IntersectionsQuadTree.insert {B : Type} (tree : IntersectionsQuadTree B)
    (symbol : MapSymbol) (box : B) : Bool × IntersectionsQuadTree B :=
  (true, { entries := tree.entries ++ [(symbol, box)] })

/-- The renderer state and configuration that a pass reads. `boundsInWindow` is
the box that `plotBillboardRasterSymbol` computes for a billboard renderable
(`glm::project` and `AreaI::fromCenterAndSize`), `calculateOnPath2dOOBB` and
`calculateOnPath3dOOBB` are the two oriented boxes of an on-path renderable: all
three are floating point computations. `lock` resolves a weak group reference
at the time of the group-consistency pass (`none`: the group was destroyed). -/
structure Stage (B : Type) where
  debugSettings : DebugSettings
  geometry : BoxGeometry B
  boundsInWindow : RenderableSymbol → B
  calculateOnPath2dOOBB : RenderableSymbol → B
  calculateOnPath3dOOBB : RenderableSymbol → B
  lock : Nat → Option MapSymbolsGroup

/-! ## Plotting -/

/-- Source function `applyIntersectionWithOtherSymbolsFiltering` (both overloads: they differ in
the box type only). -/
def applyIntersectionWithOtherSymbolsFiltering {B : Type} (stage : Stage B)
    (box : B) (symbol : MapSymbol) (intersections : IntersectionsQuadTree B) : Bool :=
  if isSet symbol.intersectionModeFlags .IgnoredByIntersectionTest then true
  else if stage.debugSettings.skipSymbolsIntersectionCheck then true
  else
    let symbolGroupPtr := symbol.groupPtr
    let intersects := intersections.test stage.geometry box
      (fun otherSymbol _ => otherSymbol.groupPtr != symbolGroupPtr)
    if intersects then false else true

/-- Source function `applyMinDistanceToSameContentFromOtherSymbolFiltering` (both
overloads). The content of a raster symbol is compared as a value; a null content
is `none`. -/
def applyMinDistanceToSameContentFromOtherSymbolFiltering {B : Type} (stage : Stage B)
    (box : B) (symbol : MapSymbol) (intersections : IntersectionsQuadTree B) : Bool :=
  if (decide (symbol.minDistance.x ≤ 0) && decide (symbol.minDistance.y ≤ 0))
      || symbol.content.isNone then true
  else if stage.debugSettings.skipSymbolsMinDistanceToSameContentFromOtherSymbolCheck then true
  else
    let symbolGroupPtr := symbol.groupPtr
    let symbolContent := symbol.content
    let hasSimilarContent := intersections.test stage.geometry
      (stage.geometry.getEnlargedBy box symbol.minDistance)
      (fun otherSymbol _ =>
        if !otherSymbol.cls.isRaster then false
        else (otherSymbol.groupPtr != symbolGroupPtr) && (otherSymbol.content == symbolContent))
    if hasSimilarContent then false else true

/-- Source function `plotSymbol` (both overloads): the result and the index after
the call. -/
def plotSymbol {B : Type} (stage : Stage B) (box : B) (symbol : MapSymbol)
    (intersections : IntersectionsQuadTree B) : Bool × IntersectionsQuadTree B :=
  if !isSet symbol.intersectionModeFlags .TransparentForIntersectionLookup
      && !stage.debugSettings.allSymbolsTransparentForIntersectionLookup then
    match intersections.insert symbol box with
    | (false, tree) => (false, tree)
    | (true, tree) => (true, tree)
  else (true, intersections)

/-- Source function `plotBillboardRasterSymbol`. -/
def plotBillboardRasterSymbol {B : Type} (stage : Stage B) (renderable : RenderableSymbol)
    (intersections : IntersectionsQuadTree B) : Bool × IntersectionsQuadTree B :=
  let symbol := renderable.mapSymbol
  let boundsInWindow := stage.boundsInWindow renderable
  if !applyIntersectionWithOtherSymbolsFiltering stage boundsInWindow symbol intersections then
    (false, intersections)
  else if !applyMinDistanceToSameContentFromOtherSymbolFiltering stage boundsInWindow symbol
      intersections then
    (false, intersections)
  else plotSymbol stage boundsInWindow symbol intersections

/-- Source function `plotBillboardVectorSymbol`: `assert(false); return false;`. -/
def plotBillboardVectorSymbol {B : Type} (_stage : Stage B) (_renderable : RenderableSymbol)
    (intersections : IntersectionsQuadTree B) : Bool × IntersectionsQuadTree B :=
  (false, intersections)

/-- Source function `plotBillboardSymbol`. -/
def plotBillboardSymbol {B : Type} (stage : Stage B) (renderable : RenderableSymbol)
    (intersections : IntersectionsQuadTree B) : Bool × IntersectionsQuadTree B :=
  if renderable.mapSymbol.cls.isRaster then plotBillboardRasterSymbol stage renderable intersections
  else if renderable.mapSymbol.cls.isVector then
    plotBillboardVectorSymbol stage renderable intersections
  else (false, intersections)

/-- Source function `plotOnPathSymbol`: the two branches differ in the oriented box
only. -/
def plotOnPathSymbol {B : Type} (stage : Stage B) (renderable : RenderableSymbol)
    (intersections : IntersectionsQuadTree B) : Bool × IntersectionsQuadTree B :=
  let symbol := renderable.mapSymbol
  let oobb :=
    if renderable.is2D then stage.calculateOnPath2dOOBB renderable
    else stage.calculateOnPath3dOOBB renderable
  if !applyIntersectionWithOtherSymbolsFiltering stage oobb symbol intersections then
    (false, intersections)
  else if !applyMinDistanceToSameContentFromOtherSymbolFiltering stage oobb symbol
      intersections then
    (false, intersections)
  else
    match plotSymbol stage oobb symbol intersections with
    | (false, tree) => (false, tree)
    | (true, tree) => (true, tree)

/-- Source function `plotOnSurfaceRasterSymbol`: reads the symbol and its group
pointer, then
`return true;`. -/
def plotOnSurfaceRasterSymbol {B : Type} (_stage : Stage B) (_renderable : RenderableSymbol)
    (intersections : IntersectionsQuadTree B) : Bool × IntersectionsQuadTree B :=
  (true, intersections)

/-- Source function `plotOnSurfaceVectorSymbol`: reads the symbol and its group
pointer, then
`return true;`. -/
def plotOnSurfaceVectorSymbol {B : Type} (_stage : Stage B) (_renderable : RenderableSymbol)
    (intersections : IntersectionsQuadTree B) : Bool × IntersectionsQuadTree B :=
  (true, intersections)

/-- Source function `plotOnSurfaceSymbol`. -/
def plotOnSurfaceSymbol {B : Type} (stage : Stage B) (renderable : RenderableSymbol)
    (intersections : IntersectionsQuadTree B) : Bool × IntersectionsQuadTree B :=
  if renderable.mapSymbol.cls.isRaster then plotOnSurfaceRasterSymbol stage renderable intersections
  else if renderable.mapSymbol.cls.isVector then
    plotOnSurfaceVectorSymbol stage renderable intersections
  else (false, intersections)

/-- The dispatch on the dynamic type of the renderable in the plotting loop of
`obtainRenderableSymbols`. -/
def plotRenderable {B : Type} (stage : Stage B) (renderable : RenderableSymbol)
    (intersections : IntersectionsQuadTree B) : Bool × IntersectionsQuadTree B :=
  match renderable.kind with
  | .Billboard => plotBillboardSymbol stage renderable intersections
  | .OnPath => plotOnPathSymbol stage renderable intersections
  | .OnSurface => plotOnSurfaceSymbol stage renderable intersections

/-! ## The pass of `obtainRenderableSymbols` -/

/-- Local type `PlottedSymbolRef`: an iterator into the list of plotted renderables and the
map symbol of the renderable it points to. -/
structure PlottedSymbolRef where
  iterator : Nat
  mapSymbol : MapSymbol
deriving DecidableEq, Repr

/-- Local type `PlottedSymbols` (a `QLinkedList`): nodes, each with its identity. -/
abbrev PlottedSymbols := List (Nat × RenderableSymbol)

/-- Call `plottedSymbols.erase(iterator)`: unlink the node the iterator points to. -/
def PlottedSymbols.erase (plottedSymbols : PlottedSymbols) (iterator : Nat) : PlottedSymbols :=
  plottedSymbols.filter (fun node => node.1 != iterator)

/-- The loop `for (plottedGroupSymbol : refs) plottedSymbols.erase(plottedGroupSymbol.iterator)`. -/
def eraseAll (plottedSymbols : PlottedSymbols) (refs : List PlottedSymbolRef) : PlottedSymbols :=
  refs.foldl (fun acc ref => PlottedSymbols.erase acc ref.iterator) plottedSymbols

/-- Call `plottedMapSymbolsByGroup[groupPtr].push_back(ref)` on a `QHash` kept as an
association list: the entry of the key is created when absent. -/
def hashPushBack (hash : List (Nat × List PlottedSymbolRef)) (groupPtr : Nat)
    (ref : PlottedSymbolRef) : List (Nat × List PlottedSymbolRef) :=
  match hash with
  | [] => [(groupPtr, [ref])]
  | (key, refs) :: rest =>
    if key = groupPtr then (key, refs ++ [ref]) :: rest
    else (key, refs) :: hashPushBack rest groupPtr ref

/-- The locals of `obtainRenderableSymbols` that the plotting loop updates. -/
structure PlotState (B : Type) where
  intersections : IntersectionsQuadTree B
  plottedSymbols : PlottedSymbols
  plottedMapSymbolsByGroup : List (Nat × List PlottedSymbolRef)

/-- The locals before the first layer: an empty index, nothing plotted. -/
def PlotState.init (B : Type) : PlotState B :=
  { intersections := { entries := [] }, plottedSymbols := [], plottedMapSymbolsByGroup := [] }

/-- One turn of the plotting loop (lines 73-102): plot the renderable and, when
it was plotted, append it to `plottedSymbols` and file a reference to the new
node under the group pointer of its symbol. The new node is identified by its
position, which no earlier node has. -/
def plotStep {B : Type} (stage : Stage B) (st : PlotState B) (renderable : RenderableSymbol) :
    PlotState B :=
  match plotRenderable stage renderable st.intersections with
  | (true, tree) =>
    let itPlottedSymbol := st.plottedSymbols.length
    { intersections := tree
      plottedSymbols := st.plottedSymbols ++ [(itPlottedSymbol, renderable)]
      plottedMapSymbolsByGroup :=
        hashPushBack st.plottedMapSymbolsByGroup renderable.mapSymbol.groupPtr
          { iterator := itPlottedSymbol, mapSymbol := renderable.mapSymbol } }
  | (false, tree) => { st with intersections := tree }

/-- The plotting loop over one layer: `sortedRenderables` is given by its values
in iteration order (near to far) and is walked from the back. -/
def plotLayer {B : Type} (stage : Stage B) (st : PlotState B)
    (sortedRenderables : List RenderableSymbol) : PlotState B :=
  sortedRenderables.reverse.foldl (plotStep stage) st

/-- The loop over the published layers (lines 56-104), each given by the values
of its `sortedRenderables`. -/
def plotLayers {B : Type} (stage : Stage B) (layers : List (List RenderableSymbol)) :
    PlotState B :=
  layers.foldl (plotLayer stage) (PlotState.init B)

/-- The body of the loop over `plottedMapSymbolsByGroup` (lines 110-198) for the
entry `plottedGroupSymbols`: the list of plotted renderables after it. An entry
is created by its first `push_back` and is never empty. The entries that the
source removes from the hash itself are not read again. -/
def applyPresentationRules {B : Type} (stage : Stage B)
    (plottedGroupSymbols : List PlottedSymbolRef) (plottedSymbols : PlottedSymbols) :
    PlottedSymbols :=
  match plottedGroupSymbols.head? with
  | none => plottedSymbols
  | some first =>
    match stage.lock first.mapSymbol.group with
    | none => eraseAll plottedSymbols plottedGroupSymbols
    | some mapSymbolGroup =>
      if isSet mapSymbolGroup.presentationMode .ShowAnything then plottedSymbols
      else if isSet mapSymbolGroup.presentationMode .ShowAllOrNothing
          && mapSymbolGroup.symbols.length != plottedGroupSymbols.length then
        eraseAll plottedSymbols plottedGroupSymbols
      else if isSet mapSymbolGroup.presentationMode .ShowNoneIfIconIsNotShown
          && (match mapSymbolGroup.getFirstSymbolWithContentClass .Icon with
              | some symbolWithIconContentClass =>
                !plottedGroupSymbols.any (fun ref => ref.mapSymbol.id == symbolWithIconContentClass.id)
              | none => false) then
        eraseAll plottedSymbols plottedGroupSymbols
      else if isSet mapSymbolGroup.presentationMode .ShowAllCaptionsOrNoCaptions
          && decide (mapSymbolGroup.numberOfSymbolsWithContentClass .Caption > 0)
          && mapSymbolGroup.numberOfSymbolsWithContentClass .Caption
              != (plottedGroupSymbols.filter
                    (fun ref => ref.mapSymbol.contentClass == .Caption)).length then
        eraseAll plottedSymbols
          (plottedGroupSymbols.filter (fun ref => ref.mapSymbol.contentClass == .Caption))
      else plottedSymbols

/-- The loop "Remove those plotted symbols that do not conform to presentation
rules" (lines 107-199) over the entries of the hash. -/
def groupConsistencyPass {B : Type} (stage : Stage B)
    (plottedMapSymbolsByGroup : List (Nat × List PlottedSymbolRef))
    (plottedSymbols : PlottedSymbols) : PlottedSymbols :=
  plottedMapSymbolsByGroup.foldl (fun acc entry => applyPresentationRules stage entry.2 acc)
    plottedSymbols

/-- Source function `obtainRenderableSymbols`: the content of `outRenderableSymbols`
after the call
(cleared, then the values of the nodes left in `plottedSymbols`). -/
def obtainRenderableSymbols {B : Type} (stage : Stage B) (layers : List (List RenderableSymbol))
    (_outRenderableSymbols : List RenderableSymbol) : List RenderableSymbol :=
  let st := plotLayers stage layers
  let plottedSymbols := groupConsistencyPass stage st.plottedMapSymbolsByGroup st.plottedSymbols
  [] ++ plottedSymbols.map (fun node => node.2)

/-! ## Read-outs used to state the properties -/

/-- The renderables that the plotting loop plotted, in the order of plotting. -/
def plottedRenderables {B : Type} (stage : Stage B) (layers : List (List RenderableSymbol)) :
    List RenderableSymbol :=
  (plotLayers stage layers).plottedSymbols.map (fun node => node.2)

/-- The renderables of a list whose symbol has the given group pointer. -/
def ofGroup (renderables : List RenderableSymbol) (groupPtr : Nat) : List RenderableSymbol :=
  renderables.filter (fun r => r.mapSymbol.groupPtr == groupPtr)

/-- The group of a hash entry as the pass resolves it: the weak reference of the
symbol of the first plotted renderable of the entry, locked. -/
def resolveGroup {B : Type} (stage : Stage B) (plottedOfGroup : List RenderableSymbol) :
    Option MapSymbolsGroup :=
  match plottedOfGroup.head? with
  | none => none
  | some first => stage.lock first.mapSymbol.group

/-- Whether a renderable is of the Caption content class. -/
def isCaption (r : RenderableSymbol) : Bool :=
  r.mapSymbol.contentClass == .Caption

/-- What the group-consistency pass decides for the plotted renderables of one
live group. -/
inductive Verdict where
  | keep
  | discardGroup
  | discardCaptions
deriving DecidableEq, Repr

/-- Rule 3 of spec §4.2 fires: "`ShowAllOrNothing` and plotted-count ≠ group's total
symbol count". `plotted` are the plotted renderables of the group. -/
def allOrNothingFires (g : MapSymbolsGroup) (plotted : List RenderableSymbol) : Bool :=
  isSet g.presentationMode .ShowAllOrNothing && plotted.length != g.symbols.length

/-- Rule 4 of spec §4.2 fires: "`ShowNoneIfIconMissing` and the group contains an
Icon-class symbol", and that symbol is not among the plotted ones. -/
def iconRuleFires (g : MapSymbolsGroup) (plotted : List RenderableSymbol) : Bool :=
  isSet g.presentationMode .ShowNoneIfIconIsNotShown
    && (match g.getFirstSymbolWithContentClass .Icon with
        | some icon => !plotted.any (fun r => r.mapSymbol.id == icon.id)
        | none => false)

/-- Rule 5 of spec §4.2 fires: "`ShowAllCaptionsOrNone` and the group has N>0
Caption-class symbols, and the plotted count of Caption-class symbols ≠ N". -/
def captionsRuleFires (g : MapSymbolsGroup) (plotted : List RenderableSymbol) : Bool :=
  isSet g.presentationMode .ShowAllCaptionsOrNoCaptions
    && decide (0 < g.numberOfSymbolsWithContentClass .Caption)
    && (plotted.filter isCaption).length != g.numberOfSymbolsWithContentClass .Caption

/-- The rules 2 to 5 of spec §4.2, "Group consistency pass", for one live group,
read from the spec, in the order listed. `plotted` are the plotted renderables
of the group. -/
def ruleVerdict (g : MapSymbolsGroup) (plotted : List RenderableSymbol) : Verdict :=
  if isSet g.presentationMode .ShowAnything then .keep
  else if allOrNothingFires g plotted then .discardGroup
  else if iconRuleFires g plotted then .discardGroup
  else if captionsRuleFires g plotted then .discardCaptions
  else .keep

/-- Whether the rules of spec §4.2 (rule 1, the stale group, included) discard the
plotted renderable `r`, given all plotted renderables. -/
def discardedByRules {B : Type} (stage : Stage B) (plotted : List RenderableSymbol)
    (r : RenderableSymbol) : Bool :=
  match resolveGroup stage (ofGroup plotted r.mapSymbol.groupPtr) with
  | none => true
  | some g =>
    match ruleVerdict g (ofGroup plotted r.mapSymbol.groupPtr) with
    | .keep => false
    | .discardGroup => true
    | .discardCaptions => isCaption r

/-- The reference that the plotting loop files for a node. -/
def refOfNode (node : Nat × RenderableSymbol) : PlottedSymbolRef :=
  { iterator := node.1, mapSymbol := node.2.mapSymbol }

/-- The references to the nodes whose symbol has the given group pointer, in the
order of the nodes. -/
def groupRefs (plottedSymbols : PlottedSymbols) (groupPtr : Nat) : List PlottedSymbolRef :=
  (plottedSymbols.filter (fun node => node.2.mapSymbol.groupPtr == groupPtr)).map refOfNode

/-- The iterators that `applyPresentationRules` erases for a hash entry. -/
def erasedBy {B : Type} (stage : Stage B) (refs : List PlottedSymbolRef) : List Nat :=
  match refs.head? with
  | none => []
  | some first =>
    match stage.lock first.mapSymbol.group with
    | none => refs.map (fun ref => ref.iterator)
    | some g =>
      if isSet g.presentationMode .ShowAnything then []
      else if isSet g.presentationMode .ShowAllOrNothing
          && g.symbols.length != refs.length then
        refs.map (fun ref => ref.iterator)
      else if isSet g.presentationMode .ShowNoneIfIconIsNotShown
          && (match g.getFirstSymbolWithContentClass .Icon with
              | some icon => !refs.any (fun ref => ref.mapSymbol.id == icon.id)
              | none => false) then
        refs.map (fun ref => ref.iterator)
      else if isSet g.presentationMode .ShowAllCaptionsOrNoCaptions
          && decide (g.numberOfSymbolsWithContentClass .Caption > 0)
          && g.numberOfSymbolsWithContentClass .Caption
              != (refs.filter (fun ref => ref.mapSymbol.contentClass == .Caption)).length then
        (refs.filter (fun ref => ref.mapSymbol.contentClass == .Caption)).map
          (fun ref => ref.iterator)
      else []

/-- The state that the plotting loop maintains between `plottedSymbols` and
`plottedMapSymbolsByGroup`: nodes are numbered by position, the keys of the hash
are distinct, every entry holds the references to the nodes of its key, and
every node is filed. -/
structure Filed (plottedSymbols : PlottedSymbols)
    (hash : List (Nat × List PlottedSymbolRef)) : Prop where
  ids : plottedSymbols.map Prod.fst = List.range plottedSymbols.length
  keys : (hash.map Prod.fst).Nodup
  refs : ∀ e ∈ hash, e.2 = groupRefs plottedSymbols e.1
  filed : ∀ node ∈ plottedSymbols, node.2.mapSymbol.groupPtr ∈ hash.map Prod.fst

/-! ## On-path placement -/

/-- Two-dimensional vector `glm::vec2`. Rational coordinates stand for the floats:
the arithmetic of the embedding is exact. -/
structure Vec2 where
  x : ℚ
  y : ℚ
deriving DecidableEq, Repr

/-- Difference of two vectors. -/
def Vec2.sub (a b : Vec2) : Vec2 :=
  { x := a.x - b.x, y := a.y - b.y }

/-- Sum of two vectors. -/
def Vec2.add (a b : Vec2) : Vec2 :=
  { x := a.x + b.x, y := a.y + b.y }

/-- The fields of `internalState` and `currentState` that the producers read, and
the floating point primitives applied to them: `distance` is `glm::distance` of
two points of a path, `distanceToCamera p` is
`glm::distance(worldCameraPosition, vec3(p.x, 0, p.y))`, `normalize` is
`glm::normalize`, `convert31ToWorld` is the conversion of one point of
`convertPoints31ToWorld` and `projectToScreen` the `glm::project` of one point
of `projectFromWorldToScreen`. -/
structure InternalState where
  pixelInWorldProjectionScale : ℚ
  distance : Vec2 → Vec2 → ℚ
  distanceToCamera : Vec2 → ℚ
  normalize : Vec2 → Vec2
  convert31ToWorld : PointI → Vec2
  projectToScreen : Vec2 → Vec2

/-- Source function `convertPoints31ToWorld`, on the whole path. -/
def convertPoints31ToWorld (internalState : InternalState) (points31 : List PointI) :
    List Vec2 :=
  points31.map internalState.convert31ToWorld

/-- Source function `projectFromWorldToScreen`, on the whole path. -/
def projectFromWorldToScreen (internalState : InternalState) (pointsInWorld : List Vec2) :
    List Vec2 :=
  pointsInWorld.map internalState.projectToScreen

/-- Element `path[i]` of a `QVector`; the indices that the source uses are in range. -/
def pointAt (path : List Vec2) (i : Nat) : Vec2 :=
  path.getD i { x := 0, y := 0 }

/-- The constant `inclineThresholdSinSq` of `isInclineAllowedFor2D`. -/
def inclineThresholdSinSq : ℚ := 669872981 / 10000000000

/-- Source function `isInclineAllowedFor2D`. For a segment of length zero the
quotient is 0/0: a NaN in the source, which is not greater than the threshold,
and 0 here. -/
def isInclineAllowedFor2D (pointOnScreen0 pointOnScreen1 : Vec2) : Bool :=
  let vSegment := pointOnScreen1.sub pointOnScreen0
  let d := vSegment.y
  let inclineSinSq := d * d / (vSegment.x * vSegment.x + vSegment.y * vSegment.y)
  !(decide (|inclineSinSq| > inclineThresholdSinSq))

/-- The three output parameters of `tryToFindSpaceOnPath`, set when it returns
true. -/
structure SpaceOnPath where
  outEndPointIndex : Nat
  outLastOccupiedLengthIsIn2D : Bool
  outLastOccupiedLength : ℚ
deriving DecidableEq, Repr

/-- The loop of lines 586-602 of `tryToFindSpaceOnPath`, "Recalculate entire length
of segment [startPointIdx, testPointIdx - 1] as 3D": `count` turns are left, the
next one is for `idx`. The result is the return of the function, when the loop
returns, or `entireSegmentLength` after the loop. -/
def recalculateEntireLengthAs3D (internalState : InternalState) (pathInWorld : List Vec2)
    (alreadyOccupiedLength requestedLength : ℚ) :
    Nat → Nat → ℚ → SpaceOnPath ⊕ ℚ
  | 0, _, entireSegmentLength => .inr entireSegmentLength
  | count + 1, idx, entireSegmentLength =>
    let currentSegmentLength :=
      internalState.distance (pointAt pathInWorld (idx - 1)) (pointAt pathInWorld idx)
    let entireSegmentLength := entireSegmentLength + currentSegmentLength
    if entireSegmentLength - alreadyOccupiedLength ≥ requestedLength then
      .inl { outEndPointIndex := idx
             outLastOccupiedLengthIsIn2D := false
             outLastOccupiedLength := currentSegmentLength
               - (entireSegmentLength - alreadyOccupiedLength - requestedLength) }
    else
      recalculateEntireLengthAs3D internalState pathInWorld alreadyOccupiedLength requestedLength
        count (idx + 1) entireSegmentLength

/-- The first part of the body of the loop of `tryToFindSpaceOnPath` (lines 563-604):
the check of the segment [testPointIndex - 1, testPointIndex] while the mode is
2D, and the switch to 3D when it fails. The result is the return of the function,
when the switch returns, or the values of `isRenderableAs2D`, `requestedLength`,
`entireSegmentLength` and `alreadyOccupiedLength` after it. -/
def checkSegmentFor2D (internalState : InternalState) (pathInWorld pathOnScreen : List Vec2)
    (startPointIndex testPointIndex : Nat) (isRenderableAs2D : Bool)
    (requestedLength entireSegmentLength alreadyOccupiedLength : ℚ) :
    SpaceOnPath ⊕ (Bool × ℚ × ℚ × ℚ) :=
  if isRenderableAs2D then
    if isInclineAllowedFor2D (pointAt pathOnScreen (testPointIndex - 1))
        (pointAt pathOnScreen testPointIndex) then
      .inr (true, requestedLength, entireSegmentLength, alreadyOccupiedLength)
    else
      let alreadyOccupiedLength :=
        if alreadyOccupiedLength > 0 then
          let firstLength := internalState.distance (pointAt pathOnScreen startPointIndex)
            (pointAt pathOnScreen (startPointIndex + 1))
          let alreadyOccupiedPortion := alreadyOccupiedLength / firstLength
          internalState.distance (pointAt pathInWorld startPointIndex)
            (pointAt pathInWorld (startPointIndex + 1)) * alreadyOccupiedPortion
        else alreadyOccupiedLength
      let requestedLength := requestedLength * internalState.pixelInWorldProjectionScale
      match recalculateEntireLengthAs3D internalState pathInWorld alreadyOccupiedLength
          requestedLength (testPointIndex - (startPointIndex + 1)) (startPointIndex + 1) 0 with
      | .inl found => .inl found
      | .inr entireSegmentLength =>
        .inr (false, requestedLength, entireSegmentLength, alreadyOccupiedLength)
  else .inr (false, requestedLength, entireSegmentLength, alreadyOccupiedLength)

/-- The loop `while (testPointIndex < pathSize)` of `tryToFindSpaceOnPath`:
`remaining` is `pathSize - testPointIndex`, the number of turns left before the
path is exhausted. `none` is the return of false. -/
def walkPath (internalState : InternalState) (pathInWorld pathOnScreen : List Vec2)
    (startPointIndex : Nat) :
    Nat → Nat → Bool → ℚ → ℚ → ℚ → Option SpaceOnPath
  | 0, _, _, _, _, _ => none
  | remaining + 1, testPointIndex, isRenderableAs2D, requestedLength, entireSegmentLength,
      alreadyOccupiedLength =>
    match checkSegmentFor2D internalState pathInWorld pathOnScreen startPointIndex testPointIndex
        isRenderableAs2D requestedLength entireSegmentLength alreadyOccupiedLength with
    | .inl found => some found
    | .inr (isRenderableAs2D, requestedLength, entireSegmentLength, alreadyOccupiedLength) =>
      let currentSegmentLength :=
        internalState.distance
          (pointAt (if isRenderableAs2D then pathOnScreen else pathInWorld) (testPointIndex - 1))
          (pointAt (if isRenderableAs2D then pathOnScreen else pathInWorld) testPointIndex)
      let entireSegmentLength := entireSegmentLength + currentSegmentLength
      if entireSegmentLength - alreadyOccupiedLength ≥ requestedLength then
        some { outEndPointIndex := testPointIndex
               outLastOccupiedLengthIsIn2D := isRenderableAs2D
               outLastOccupiedLength := currentSegmentLength
                 - (entireSegmentLength - alreadyOccupiedLength - requestedLength) }
      else
        walkPath internalState pathInWorld pathOnScreen startPointIndex remaining
          (testPointIndex + 1) isRenderableAs2D requestedLength entireSegmentLength
          alreadyOccupiedLength

/-- Source function `tryToFindSpaceOnPath`: `some` of the output parameters when it
returns true, `none` when it returns false. -/
def tryToFindSpaceOnPath (internalState : InternalState) (pathSize : Nat)
    (pathInWorld pathOnScreen : List Vec2) (requestedLengthInPixels : ℚ)
    (startPointIndex : Nat) (alreadyOccupiedLengthIsIn2D : Bool) (alreadyOccupiedLength_ : ℚ) :
    Option SpaceOnPath :=
  let testPointIndex := startPointIndex + 1
  let isRenderableAs2D := alreadyOccupiedLengthIsIn2D
  let requestedLength := requestedLengthInPixels
    * (if isRenderableAs2D then 1 else internalState.pixelInWorldProjectionScale)
  walkPath internalState pathInWorld pathOnScreen startPointIndex (pathSize - testPointIndex)
    testPointIndex isRenderableAs2D requestedLength 0 alreadyOccupiedLength_

/-- The vector that `computeSubpathDirection` accumulates before it normalises it:
`count` turns of its loop are left, the next one is for `idx`. -/
def accumulateSubpathDirection (path : List Vec2) : Nat → Nat → Vec2 → Vec2
  | 0, _, subpathDirection => subpathDirection
  | count + 1, idx, subpathDirection =>
    accumulateSubpathDirection path count (idx + 1)
      (subpathDirection.add ((pointAt path idx).sub (pointAt path (idx - 1))))

/-- Source function `computeSubpathDirection`. The local `subpathDirection` is declared
without an initialiser and is taken to start as the zero vector, which is what
the default constructor of `glm::vec2` leaves. -/
def computeSubpathDirection (internalState : InternalState) (path : List Vec2)
    (startPointIndex endPointIndex : Nat) : Vec2 :=
  internalState.normalize
    (accumulateSubpathDirection path (endPointIndex + 1 - (startPointIndex + 1))
      (startPointIndex + 1) { x := 0, y := 0 })

/-- Source function `computeDistanceBetweenCameraToPath`: the loop runs over
`constOf(pathInWorld)`; the two indices are not read. -/
def computeDistanceBetweenCameraToPath (internalState : InternalState)
    (pathInWorld : List Vec2) (_startPointIndex _endPointIndex : Nat) : ℚ :=
  pathInWorld.foldl
    (fun distanceToCamera pointInWorld =>
      let distance := internalState.distanceToCamera pointInWorld
      if distance > distanceToCamera then distance else distanceToCamera)
    0

/-! ## GPU resources -/

/-- Modelled from the spec: `MapRendererResourceState` (MapRendererResource.h is not
among the sources). Spec §4.6: "Requested, Uploaded, InUse are the only states
this engine touches; any other holder state causes that holder to be skipped".
`IsBeingUsed` is the name of the in-use state in the stage. -/
inductive MapRendererResourceState where
  | Requested
  | Uploaded
  | IsBeingUsed
  | Other
deriving DecidableEq, Repr

/-- Outcome of the two dynamic casts of `captureGpuResource`, to
`MapRendererTiledSymbolsResource` and to `MapRendererKeyedSymbolsResource`. -/
inductive MapRendererResourceClass where
  | Tiled
  | Keyed
  | Other
deriving DecidableEq, Repr

/-- A resource in GPU (`GPUAPI::ResourceInGPU`): its address and whether it is a
`GPUAPI::TextureInGPU`. -/
structure ResourceInGPU where
  id : Nat
  isTexture : Bool
deriving DecidableEq, Repr

/-- A resource holder (`MapRendererBaseResource`): its state, its class, and the
GPU resource it holds for each map symbol, by the address of the symbol. -/
structure MapRendererResource where
  state : MapRendererResourceState
  cls : MapRendererResourceClass
  gpuResources : List (Nat × ResourceInGPU)
deriving DecidableEq, Repr

/-- Modelled from the spec: `setStateIf(testState, newState)` (not among the
sources). Spec §4.6: "an exclusive-claim compare-and-swap on a small per-holder
state machine". -/
def MapRendererResource.setStateIf (resource : MapRendererResource)
    (testState newState : MapRendererResourceState) : Bool × MapRendererResource :=
  if resource.state = testState then (true, { resource with state := newState })
  else (false, resource)

/-- Modelled from the spec: `setState(newState)` (not among the sources). -/
def MapRendererResource.setState (resource : MapRendererResource)
    (newState : MapRendererResourceState) : MapRendererResource :=
  { resource with state := newState }

/-- Modelled from the spec: `getGpuResourceFor(mapSymbol)` of the tiled and keyed
symbols resources (not among the sources): "fetch the specific sub-resource for
this symbol" (spec §4.6), null when the holder has none. -/
def MapRendererResource.getGpuResourceFor (resource : MapRendererResource)
    (mapSymbol : MapSymbol) : Option ResourceInGPU :=
  (resource.gpuResources.find? (fun entry => entry.1 == mapSymbol.id)).map Prod.snd

/-- The result of `captureGpuResource` and its effects: the holders after the
call, and the states written to the holders, in the order of the writes, each
with the position of the holder in the list. -/
structure Captured where
  gpuResource : Option ResourceInGPU
  resources : List MapRendererResource
  writes : List (Nat × MapRendererResourceState)
deriving DecidableEq, Repr

/-- The loop of `captureGpuResource` from the holder at position `index` on. -/
def captureFrom (mapSymbol : MapSymbol) : Nat → List MapRendererResource → Captured
  | _, [] => { gpuResource := none, resources := [], writes := [] }
  | index, resource :: rest =>
    match resource.setStateIf .Uploaded .IsBeingUsed with
    | (true, claimed) =>
      let gpuResource :=
        match claimed.cls with
        | .Tiled => claimed.getGpuResourceFor mapSymbol
        | .Keyed => claimed.getGpuResourceFor mapSymbol
        | .Other => none
      let released := claimed.setState .Uploaded
      if gpuResource.isSome then
        { gpuResource := gpuResource
          resources := released :: rest
          writes := [(index, .IsBeingUsed), (index, .Uploaded)] }
      else
        let next := captureFrom mapSymbol (index + 1) rest
        { gpuResource := next.gpuResource
          resources := released :: next.resources
          writes := (index, .IsBeingUsed) :: (index, .Uploaded) :: next.writes }
    | (false, unclaimed) =>
      let next := captureFrom mapSymbol (index + 1) rest
      { gpuResource := next.gpuResource
        resources := unclaimed :: next.resources
        writes := next.writes }

/-- Source function `captureGpuResource`, single-threaded. -/
def captureGpuResource (resources : List MapRendererResource) (mapSymbol : MapSymbol) :
    Captured :=
  captureFrom mapSymbol 0 resources

/-! ## The producer of on-path renderables -/

/-- A `RenderableOnPathSymbol` as the repeat-fit loop fills it (lines 396-411), with
the span of the subpath it was fitted to. -/
structure RenderableOnPathSymbol where
  mapSymbol : MapSymbol
  gpuResource : ResourceInGPU
  is2D : Bool
  distanceToCamera : ℚ
  directionInWorld : Vec2
  directionOnScreen : Vec2
  subpathStartIndex : Nat
  subpathEndIndex : Nat
  offsetFromStart : ℚ
deriving DecidableEq, Repr

/-- The loop of lines 267-279 over the symbols of the group: `totalWidth` and
`widthBeforeCurrentSymbol` after it. Symbols are compared by address. -/
def onPathWidths (mapSymbolsGroup : MapSymbolsGroup) (currentSymbol : MapSymbol) : ℚ × ℚ :=
  mapSymbolsGroup.symbols.foldl
    (fun widths otherSymbol_ =>
      if otherSymbol_.cls != .OnPath then widths
      else
        let widthBeforeCurrentSymbol :=
          if otherSymbol_.id == currentSymbol.id then widths.1 else widths.2
        (widths.1 + (otherSymbol_.size.x : ℚ), widthBeforeCurrentSymbol))
    (0, 0)

/-- The repeat-fit loop `for (;;)` of lines 354-473: the renderables it fills, one
for each instance fitted (each one increments `symbolInstancesFitted`). `fuel`
bounds the number of turns; every turn but the last moves the origin forward
along the path, so that `pathSize` turns are never exceeded. -/
def fitInstances (internalState : InternalState) (currentSymbol : MapSymbol)
    (gpuResource : ResourceInGPU) (pathInWorld pathOnScreen : List Vec2) (totalWidth : ℚ) :
    Nat → Nat → Bool → ℚ → List RenderableOnPathSymbol
  | 0, _, _, _ => []
  | fuel + 1, nextOriginPointIndex, nextOriginOccupiedLengthIsIn2D, nextOriginOccupiedLength =>
    let subpathStartIndex := nextOriginPointIndex
    match tryToFindSpaceOnPath internalState currentSymbol.path.length pathInWorld pathOnScreen
        (currentSymbol.size.x : ℚ) nextOriginPointIndex nextOriginOccupiedLengthIsIn2D
        nextOriginOccupiedLength with
    | none => []
    | some fitted =>
      let subpathEndIndex := fitted.outEndPointIndex
      let renderable : RenderableOnPathSymbol :=
        { mapSymbol := currentSymbol
          gpuResource := gpuResource
          is2D := fitted.outLastOccupiedLengthIsIn2D
          distanceToCamera :=
            computeDistanceBetweenCameraToPath internalState pathInWorld subpathStartIndex
              subpathEndIndex
          directionInWorld :=
            computeSubpathDirection internalState pathInWorld subpathStartIndex subpathEndIndex
          directionOnScreen :=
            computeSubpathDirection internalState pathOnScreen subpathStartIndex subpathEndIndex
          subpathStartIndex := subpathStartIndex
          subpathEndIndex := subpathEndIndex
          offsetFromStart := fitted.outLastOccupiedLength }
      match tryToFindSpaceOnPath internalState currentSymbol.path.length pathInWorld pathOnScreen
          (totalWidth - (currentSymbol.size.x : ℚ)) fitted.outEndPointIndex
          fitted.outLastOccupiedLengthIsIn2D fitted.outLastOccupiedLength with
      | none => [renderable]
      | some gap =>
        renderable :: fitInstances internalState currentSymbol gpuResource pathInWorld
          pathOnScreen totalWidth fuel gap.outEndPointIndex gap.outLastOccupiedLengthIsIn2D
          gap.outLastOccupiedLength

/-- What `obtainRenderablesFromOnPathSymbols` has done so far: the list `output`,
the renderables that the repeat-fit loops have filled, and the symbols (by
address) for which `captureGpuResource` was called. -/
structure OnPathPass where
  output : List RenderableOnPathSymbol
  fitted : List RenderableOnPathSymbol
  captures : List Nat
deriving DecidableEq, Repr

/-- The body of the loop of `obtainRenderablesFromOnPathSymbols` (lines 228-473) for
one entry of the input, a symbol with its resource holders. `lock` resolves the
weak group reference of the symbol at this time. The statements that append the
renderable to `output` stand in a comment of the source (lines 412-419):
`output` is not written. Debug drawings are left out; with assertions compiled in,
the path of fewer than 2 points aborts instead of being skipped. -/
def onPathSymbolStep (internalState : InternalState) (lock : Nat → Option MapSymbolsGroup)
    (pass : OnPathPass) (symbolEntry : MapSymbol × List MapRendererResource) : OnPathPass :=
  let currentSymbol := symbolEntry.1
  if currentSymbol.isHidden then pass
  else if currentSymbol.cls != .OnPath then pass
  else if currentSymbol.path.length < 2 then pass
  else
    match lock currentSymbol.group with
    | none => pass
    | some mapSymbolsGroup =>
      let totalWidth := (onPathWidths mapSymbolsGroup currentSymbol).1
      let widthBeforeCurrentSymbol := (onPathWidths mapSymbolsGroup currentSymbol).2
      let pathInWorld := convertPoints31ToWorld internalState currentSymbol.path
      let pathOnScreen := projectFromWorldToScreen internalState pathInWorld
      let origin : Option SpaceOnPath :=
        if widthBeforeCurrentSymbol > 0 then
          tryToFindSpaceOnPath internalState currentSymbol.path.length pathInWorld pathOnScreen
            widthBeforeCurrentSymbol 0 true 0
        else
          some { outEndPointIndex := 0, outLastOccupiedLengthIsIn2D := true
                 outLastOccupiedLength := 0 }
      match origin with
      | none => pass
      | some origin =>
        let captured := captureGpuResource symbolEntry.2 currentSymbol
        match captured.gpuResource.filter (fun resource => resource.isTexture) with
        | none => { pass with captures := pass.captures ++ [currentSymbol.id] }
        | some gpuResource =>
          { pass with
            captures := pass.captures ++ [currentSymbol.id]
            fitted := pass.fitted
              ++ fitInstances internalState currentSymbol gpuResource pathInWorld pathOnScreen
                  totalWidth currentSymbol.path.length origin.outEndPointIndex
                  origin.outLastOccupiedLengthIsIn2D origin.outLastOccupiedLength }

/-- Source function `obtainRenderablesFromOnPathSymbols`: the input is given by its
entries in iteration order. -/
def obtainRenderablesFromOnPathSymbols (internalState : InternalState)
    (lock : Nat → Option MapSymbolsGroup) (input : List (MapSymbol × List MapRendererResource))
    (output : List RenderableOnPathSymbol) : OnPathPass :=
  input.foldl (onPathSymbolStep internalState lock)
    { output := output, fitted := [], captures := [] }

/-! ## The sorted renderables of a layer -/

/-- Qt's `QMultiMap<float, V>::insert` on a map kept as the list of its items in
iteration order (ascending keys): the new item goes before the items whose key
is not smaller. Rational keys stand for the floats. -/
def multiMapInsert {V : Type} (map : List (ℚ × V)) (key : ℚ) (value : V) : List (ℚ × V) :=
  match map with
  | [] => [(key, value)]
  | (k, v) :: rest =>
    if k < key then (k, v) :: multiMapInsert rest key value
    else (key, value) :: (k, v) :: rest

/-- The upcast of an on-path renderable to `RenderableSymbol`; the address of the
GPU resource stands for its payload. -/
def RenderableOnPathSymbol.toRenderableSymbol (renderable : RenderableOnPathSymbol) :
    RenderableSymbol :=
  { kind := .OnPath, mapSymbol := renderable.mapSymbol, is2D := renderable.is2D
    tag := renderable.gpuResource.id }

/-- Source function `sortRenderablesFromOnPathSymbols`. -/
def sortRenderablesFromOnPathSymbols (entries : List RenderableOnPathSymbol)
    (output : List (ℚ × RenderableSymbol)) : List (ℚ × RenderableSymbol) :=
  entries.foldl
    (fun output renderable =>
      multiMapInsert output renderable.distanceToCamera renderable.toRenderableSymbol)
    output

/-- Source function `processOnPathSymbols`. -/
def processOnPathSymbols (internalState : InternalState) (lock : Nat → Option MapSymbolsGroup)
    (input : List (MapSymbol × List MapRendererResource))
    (output : List (ℚ × RenderableSymbol)) : List (ℚ × RenderableSymbol) :=
  let renderables := (obtainRenderablesFromOnPathSymbols internalState lock input []).output
  sortRenderablesFromOnPathSymbols renderables output

/-- The inserts `output.insert(distanceToCamera, renderable)` of
`obtainAndSortRenderablesFromBillboardSymbols` and of
`obtainAndSortRenderablesFromOnSurfaceSymbols`, given by the renderables that the
producer made, with their keys, in the order it made them. -/
def insertRenderables (renderables : List (ℚ × RenderableSymbol))
    (output : List (ℚ × RenderableSymbol)) : List (ℚ × RenderableSymbol) :=
  renderables.foldl (fun output entry => multiMapInsert output entry.1 entry.2) output

/-- The map `sortedRenderables` of one layer after the three producers ran (lines
59-65): the on-path producer on the published symbols, then the billboard and
the on-surface producers, each given by the renderables it made. -/
def sortedRenderablesOfLayer (debugSettings : DebugSettings) (internalState : InternalState)
    (lock : Nat → Option MapSymbolsGroup)
    (publishedMapSymbols : List (MapSymbol × List MapRendererResource))
    (billboards onSurface : List (ℚ × RenderableSymbol)) : List (ℚ × RenderableSymbol) :=
  let sortedRenderables : List (ℚ × RenderableSymbol) := []
  let sortedRenderables :=
    if !debugSettings.excludeOnPathSymbolsFromProcessing then
      processOnPathSymbols internalState lock publishedMapSymbols sortedRenderables
    else sortedRenderables
  let sortedRenderables :=
    if !debugSettings.excludeBillboardSymbolsFromProcessing then
      insertRenderables billboards sortedRenderables
    else sortedRenderables
  if !debugSettings.excludeOnSurfaceSymbolsFromProcessing then
    insertRenderables onSurface sortedRenderables
  else sortedRenderables

/-- The order in which the plotting loop of a layer visits the items of
`sortedRenderables`: from the back (lines 69-73). -/
def plotOrder (sortedRenderables : List (ℚ × RenderableSymbol)) : List (ℚ × RenderableSymbol) :=
  sortedRenderables.reverse

/-- The length `currentSegmentLength` of the segment [testPointIndex - 1,
testPointIndex] in `tryToFindSpaceOnPath`: on the screen in 2D mode, in the world
in 3D mode. -/
def segmentLength (internalState : InternalState) (pathInWorld pathOnScreen : List Vec2)
    (isRenderableAs2D : Bool) (testPointIndex : Nat) : ℚ :=
  internalState.distance
    (pointAt (if isRenderableAs2D then pathOnScreen else pathInWorld) (testPointIndex - 1))
    (pointAt (if isRenderableAs2D then pathOnScreen else pathInWorld) testPointIndex)

/-- The length on the screen of the path from vertex `startPointIndex` to vertex
`k`: the sum of the lengths of the segments [i - 1, i], startPointIndex < i ≤ k. -/
def lengthOnScreen (internalState : InternalState) (pathOnScreen : List Vec2)
    (startPointIndex k : Nat) : ℚ :=
  ((List.range' (startPointIndex + 1) (k - startPointIndex)).map
    (fun i => internalState.distance (pointAt pathOnScreen (i - 1)) (pointAt pathOnScreen i))).sum

/-- The GPU resource that a claimed holder gives for a symbol in
`captureGpuResource`: the one of a tiled or keyed symbols resource, null for a
holder of another class. -/
def fetchedFrom (resource : MapRendererResource) (mapSymbol : MapSymbol) :
    Option ResourceInGPU :=
  match resource.cls with
  | .Tiled => resource.getGpuResourceFor mapSymbol
  | .Keyed => resource.getGpuResourceFor mapSymbol
  | .Other => none

/-- The two writes of a claim and its release on the holder at position `index`. -/
def claimAndRelease (index : Nat) : List (Nat × MapRendererResourceState) :=
  [(index, .IsBeingUsed), (index, .Uploaded)]

/-! ## Route segment results -/

/-- The value that an arithmetic operation on `int` leaves: the result is reduced to
32 bits in two's complement. -/
def wrapInt32 (n : Int) : Int :=
  (n + 2147483648) % 4294967296 - 2147483648

/-- A `RouteSegmentResult`, by the two members that `getPreAttachedRoutes` reads, as
routeSegmentResult.cpp uses them (the header that declares them is not among the
sources): `startPointIndex`, an `int`, and `preAttachedRoutes`, a vector of vectors
of `RouteSegmentResult`. `tag` stands for the other members. -/
inductive RouteSegmentResult where
  | mk (tag : Nat) (startPointIndex : Int)
      (preAttachedRoutes : List (List RouteSegmentResult))

/-- Member `startPointIndex`. -/
def RouteSegmentResult.startPointIndex : RouteSegmentResult → Int
  | .mk _ startPointIndex _ => startPointIndex

/-- Member `preAttachedRoutes`. -/
def RouteSegmentResult.preAttachedRoutes :
    RouteSegmentResult → List (List RouteSegmentResult)
  | .mk _ _ preAttachedRoutes => preAttachedRoutes

/-- Source function `RouteSegmentResult::getPreAttachedRoutes`. `none` stands for a read
outside of `preAttachedRoutes`, which the language leaves undefined. The
subtraction and `abs` are taken on 32 bits (`abs` of the least `int` is that
value again); for the comparison with `size()` and for `operator[]` the `int` is
converted to the unsigned 64 bits of `size_t`. -/
def RouteSegmentResult.getPreAttachedRoutes (self : RouteSegmentResult) (routeInd : Int) :
    Option (List RouteSegmentResult) :=
  let st := wrapInt32 |wrapInt32 (routeInd - self.startPointIndex)|
  if !self.preAttachedRoutes.isEmpty
      && decide ((st % 18446744073709551616).toNat < self.preAttachedRoutes.length) then
    self.preAttachedRoutes[(st % 18446744073709551616).toNat]?
  else some []

/-- The statements of lines 98-101 of `obtainRenderableSymbols` for a renderable that was
plotted: a node is appended to `plottedSymbols` and a reference to it is filed
under the group pointer of its symbol. -/
def fileRenderable (filed : PlottedSymbols × List (Nat × List PlottedSymbolRef))
    (renderable : RenderableSymbol) : PlottedSymbols × List (Nat × List PlottedSymbolRef) :=
  let itPlottedSymbol := filed.1.length
  (filed.1 ++ [(itPlottedSymbol, renderable)],
    hashPushBack filed.2 renderable.mapSymbol.groupPtr
      { iterator := itPlottedSymbol, mapSymbol := renderable.mapSymbol })

/-- The group-consistency pass of `obtainRenderableSymbols` (lines 106-205) on a sequence
of plotted renderables: they are filed as the plotting loop files them, the loop
over the hash applies the rules, and the values of the nodes left are published. -/
def consistencyPassOn {B : Type} (stage : Stage B) (plotted : List RenderableSymbol) :
    List RenderableSymbol :=
  let filed := plotted.foldl fileRenderable ([], [])
  (groupConsistencyPass stage filed.2 filed.1).map (fun node => node.2)

/-- The length in the world of the path from vertex `startPointIndex` to vertex `k`:
the sum of the lengths of the segments [i - 1, i], startPointIndex < i ≤ k. -/
def lengthInWorld (internalState : InternalState) (pathInWorld : List Vec2)
    (startPointIndex k : Nat) : ℚ :=
  ((List.range' (startPointIndex + 1) (k - startPointIndex)).map
    (fun i => internalState.distance (pointAt pathInWorld (i - 1)) (pointAt pathInWorld i))).sum

/-! ## A concrete geometry and concrete scenes -/

/-- Modelled from the spec: the axis-aligned integer box `AreaI` (Area.h is not
among the sources). -/
structure AreaI where
  top : Int
  left : Int
  bottom : Int
  right : Int
deriving DecidableEq, Repr

/-- Modelled from the spec: overlap of two axis-aligned boxes, "true
occupied-bounds intersection" (spec §4.1). -/
def AreaI.intersects (a b : AreaI) : Bool :=
  !(decide (b.left > a.right) || decide (b.right < a.left)
    || decide (b.top > a.bottom) || decide (b.bottom < a.top))

/-- Modelled from the spec: "A box may be enlarged by a margin" (spec §4.1): the
margin is added on each side. -/
def AreaI.getEnlargedBy (a : AreaI) (delta : PointI) : AreaI :=
  { top := a.top - delta.y, left := a.left - delta.x
    bottom := a.bottom + delta.y, right := a.right + delta.x }

/-- The geometry of axis-aligned boxes. -/
def areaGeometry : BoxGeometry AreaI :=
  { intersects := AreaI.intersects, getEnlargedBy := AreaI.getEnlargedBy }

/-- A scene box: 8 by 8 pixels, in column `tag` of a row of columns 10 pixels
apart. Renderables of one column overlap, those of different columns do not. -/
def sceneBox (r : RenderableSymbol) : AreaI :=
  { top := 0, left := 10 * (r.tag : Int), bottom := 8, right := 10 * (r.tag : Int) + 8 }

/-- A scene: all debug settings off, axis-aligned boxes placed by `sceneBox`, and
the given resolution of weak group references. -/
def sceneStage (lock : Nat → Option MapSymbolsGroup) : Stage AreaI :=
  { debugSettings :=
      { skipSymbolsIntersectionCheck := false
        skipSymbolsMinDistanceToSameContentFromOtherSymbolCheck := false
        allSymbolsTransparentForIntersectionLookup := false }
    geometry := areaGeometry
    boundsInWindow := sceneBox
    calculateOnPath2dOOBB := sceneBox
    calculateOnPath3dOOBB := sceneBox
    lock := lock }

/-- A raster billboard symbol of a scene, without flags, content or minimal
distance. -/
def sceneSymbol (id groupPtr : Nat) (contentClass : ContentClass) : MapSymbol :=
  { id := id, cls := .BillboardRaster, group := groupPtr, groupPtr := groupPtr
    contentClass := contentClass, intersectionModeFlags := [], isHidden := false
    content := none, minDistance := { x := 0, y := 0 } }

/-- A billboard renderable of a scene in column `tag`. -/
def sceneBillboard (symbol : MapSymbol) (tag : Nat) : RenderableSymbol :=
  { kind := .Billboard, mapSymbol := symbol, is2D := false, tag := tag }

/-- Group 1 of the scenes: one icon (symbol 1) and two captions (symbols 2, 3). -/
def sceneGroup (presentationMode : List PresentationModeFlag) : MapSymbolsGroup :=
  { presentationMode := presentationMode
    symbols := [sceneSymbol 1 1 .Icon, sceneSymbol 2 1 .Caption, sceneSymbol 3 1 .Caption] }

/-- Group 9 of the scenes: a single symbol (symbol 90) of another map object. -/
def otherGroup : MapSymbolsGroup :=
  { presentationMode := [.ShowAnything], symbols := [sceneSymbol 90 9 .Other] }

/-- Weak references of a scene: group 1 is alive with the given presentation mode,
group 9 is alive. -/
def sceneLock (presentationMode : List PresentationModeFlag) (handle : Nat) :
    Option MapSymbolsGroup :=
  if handle = 1 then some (sceneGroup presentationMode)
  else if handle = 9 then some otherGroup
  else none

/-- Weak references of a scene in which group 1 was destroyed. -/
def staleLock (handle : Nat) : Option MapSymbolsGroup :=
  if handle = 9 then some otherGroup else none

/-- One layer, given near to far: the symbol of group 9 is the farthest and is
plotted first, in column 5; then the icon (column 0) and the first caption
(column 1) of group 1 are plotted; the second caption of group 1 comes last, in
column 5, where it meets the box of group 9. -/
def captionBlockedLayers : List (List RenderableSymbol) :=
  [[sceneBillboard (sceneSymbol 3 1 .Caption) 5, sceneBillboard (sceneSymbol 2 1 .Caption) 1,
    sceneBillboard (sceneSymbol 1 1 .Icon) 0, sceneBillboard (sceneSymbol 90 9 .Other) 5]]

/-- One layer, given near to far: the symbol of group 9 is plotted first, in
column 0; the icon of group 1 comes next, in column 0, where it meets the box of
group 9; the two captions of group 1 are plotted in columns 1 and 2. -/
def iconBlockedLayers : List (List RenderableSymbol) :=
  [[sceneBillboard (sceneSymbol 3 1 .Caption) 2, sceneBillboard (sceneSymbol 2 1 .Caption) 1,
    sceneBillboard (sceneSymbol 1 1 .Icon) 0, sceneBillboard (sceneSymbol 90 9 .Other) 0]]

/-- Group 1 of the scene of the captions rule: one icon (symbol 1) and three
captions (symbols 2, 3, 4), with only ShowAllCaptionsOrNoCaptions set. -/
def threeCaptionsGroup : MapSymbolsGroup :=
  { presentationMode := [.ShowAllCaptionsOrNoCaptions]
    symbols := [sceneSymbol 1 1 .Icon, sceneSymbol 2 1 .Caption, sceneSymbol 3 1 .Caption,
      sceneSymbol 4 1 .Caption] }

/-- Weak references of the scene of the captions rule. -/
def threeCaptionsLock (handle : Nat) : Option MapSymbolsGroup :=
  if handle = 1 then some threeCaptionsGroup
  else if handle = 9 then some otherGroup
  else none

/-- One layer, given near to far: the symbol of group 9 is plotted first, in
column 5; the icon and two captions of group 1 are plotted in columns 0, 1, 2;
the third caption comes last, in column 5, where it meets the box of group 9. -/
def thirdCaptionBlockedLayers : List (List RenderableSymbol) :=
  [[sceneBillboard (sceneSymbol 4 1 .Caption) 5, sceneBillboard (sceneSymbol 3 1 .Caption) 2,
    sceneBillboard (sceneSymbol 2 1 .Caption) 1, sceneBillboard (sceneSymbol 1 1 .Icon) 0,
    sceneBillboard (sceneSymbol 90 9 .Other) 5]]

/-- A raster billboard symbol of a scene with the given intersection flags,
content and minimal distance. -/
def flaggedSymbol (id groupPtr : Nat) (flags : List IntersectionModeFlag)
    (content : Option String) (minDistance : PointI) : MapSymbol :=
  { id := id, cls := .BillboardRaster, group := groupPtr, groupPtr := groupPtr
    contentClass := .Other, intersectionModeFlags := flags, isHidden := false
    content := content, minDistance := minDistance }

/-- A raster on-surface symbol of a scene. -/
def surfaceSymbol (id groupPtr : Nat) : MapSymbol :=
  { id := id, cls := .OnSurfaceRaster, group := groupPtr, groupPtr := groupPtr
    contentClass := .Other, intersectionModeFlags := [], isHidden := false
    content := none, minDistance := { x := 0, y := 0 } }

/-- An on-surface renderable of a scene whose footprint is the box of column `tag`. -/
def sceneSurface (symbol : MapSymbol) (tag : Nat) : RenderableSymbol :=
  { kind := .OnSurface, mapSymbol := symbol, is2D := false, tag := tag }

/-- An index holding one committed entry: the symbol of group 9 in column 0. -/
def occupiedIndex : IntersectionsQuadTree AreaI :=
  { entries := [(sceneSymbol 90 9 .Other, sceneBox (sceneBillboard (sceneSymbol 90 9 .Other) 0))] }

/-- An index holding one committed entry: a shield with content "A" of group 9 in
column 1. -/
def shieldIndex : IntersectionsQuadTree AreaI :=
  { entries := [(flaggedSymbol 91 9 [] (some "A") { x := 0, y := 0 },
      sceneBox (sceneBillboard (flaggedSymbol 91 9 [] (some "A") { x := 0, y := 0 }) 1))] }

/-- An index holding one committed entry: a symbol of group 1 in column 0. -/
def ownIndex : IntersectionsQuadTree AreaI :=
  { entries := [(sceneSymbol 2 1 .Caption, sceneBox (sceneBillboard (sceneSymbol 2 1 .Caption) 0))] }

/-- The distance of two points of a scene that lie on a common horizontal or
vertical line, which is all the scenes use. -/
def sceneDistance (a b : Vec2) : ℚ :=
  |a.x - b.x| + |a.y - b.y|

/-- The internal state of the scenes: world units are half pixels (a pixel is 2
world units), the camera looks from the origin along a line of the grid, the
screen shows the world plane as it is, normalisation is left out. -/
def sceneInternalState : InternalState :=
  { pixelInWorldProjectionScale := 2
    distance := sceneDistance
    distanceToCamera := fun p => sceneDistance { x := 0, y := 0 } p
    normalize := fun v => v
    convert31ToWorld := fun p => { x := (p.x : ℚ), y := (p.y : ℚ) }
    projectToScreen := fun p => p }

/-- A path of a scene in the world plane: three vertices on a horizontal line, the
third one far from the first two. -/
def scenePathInWorld : List Vec2 :=
  [{ x := 0, y := 0 }, { x := 1, y := 0 }, { x := 10, y := 0 }]

/-- An on-path symbol of a scene, of group 1, with the given width and path. -/
def pathSymbol (id : Nat) (width : Int) (path : List PointI) : MapSymbol :=
  { id := id, cls := .OnPath, group := 1, groupPtr := 1
    contentClass := .Caption, intersectionModeFlags := [], isHidden := false
    content := none, minDistance := { x := 0, y := 0 }
    size := { x := width, y := 8 }, path := path }

/-- A holder of a scene in the given state, tiled, with GPU resource `100 + id` for
each of the listed symbols. -/
def sceneHolder (state : MapRendererResourceState) (symbols : List Nat) : MapRendererResource :=
  { state := state, cls := .Tiled
    gpuResources := symbols.map (fun id => (id, { id := 100 + id, isTexture := true })) }

/-- A horizontal path of 3 vertices, 10 pixels from the first to the second and 10
from the second to the third. -/
def straightPath : List PointI :=
  [{ x := 0, y := 0 }, { x := 10, y := 0 }, { x := 20, y := 0 }]

/-- A group of a scene with two on-path symbols of widths 4 and 6 around a
billboard symbol. -/
def pathGroup : MapSymbolsGroup :=
  { presentationMode := []
    symbols := [pathSymbol 1 4 straightPath, sceneSymbol 2 1 .Icon, pathSymbol 3 6 straightPath] }

/-- Weak references of the scenes of the on-path producer: group 1 is `pathGroup`. -/
def pathLock (handle : Nat) : Option MapSymbolsGroup :=
  if handle = 1 then some pathGroup else none

/-- A horizontal path of 2 vertices, 10 pixels apart. -/
def shortPath : List PointI :=
  [{ x := 0, y := 0 }, { x := 10, y := 0 }]

/-- A group of a scene with a single on-path symbol, 12 pixels wide, on the short
path. -/
def wideGroup : MapSymbolsGroup :=
  { presentationMode := [], symbols := [pathSymbol 1 12 shortPath] }

/-- Weak references of the scene of the short path: group 1 is `wideGroup`. -/
def wideLock (handle : Nat) : Option MapSymbolsGroup :=
  if handle = 1 then some wideGroup else none

/-- A route segment without pre-attached routes. -/
def plainSegment (tag : Nat) : RouteSegmentResult :=
  .mk tag 0 []

/-- A route segment that starts at point 5 with routes pre-attached at its first
three points: one, none and two. -/
def sceneSegment : RouteSegmentResult :=
  .mk 1 5 [[plainSegment 10], [], [plainSegment 11, plainSegment 12]]

/-- One layer, given near to far, in which the icon of group 1 has two renderables,
in columns 0 and 1, and the first caption has one, in column 2; the second caption
has none. All three are plotted. -/
def repeatedIconLayers : List (List RenderableSymbol) :=
  [[sceneBillboard (sceneSymbol 2 1 .Caption) 2, sceneBillboard (sceneSymbol 1 1 .Icon) 1,
    sceneBillboard (sceneSymbol 1 1 .Icon) 0]]

/-- A path of a scene on the screen that runs up the screen: three vertices on a
vertical line, 3 pixels apart. -/
def steepPathOnScreen : List Vec2 :=
  [{ x := 0, y := 0 }, { x := 0, y := 3 }, { x := 0, y := 6 }]

/-- The path in the world that is seen as `steepPathOnScreen`: its segments are 6
world units long. -/
def steepPathInWorld : List Vec2 :=
  [{ x := 0, y := 0 }, { x := 0, y := 6 }, { x := 0, y := 12 }]

/-- A path of a scene on the screen with a bend: 3 pixels along the screen, then 3
pixels up the screen. -/
def bentPathOnScreen : List Vec2 :=
  [{ x := 0, y := 0 }, { x := 3, y := 0 }, { x := 3, y := 3 }]

/-- The path in the world that is seen as `bentPathOnScreen`: its segments are 10
world units long. -/
def bentPathInWorld : List Vec2 :=
  [{ x := 0, y := 0 }, { x := 10, y := 0 }, { x := 10, y := 10 }]

/-! ## Lemmas: erasing nodes -/

theorem eraseAll_eq_filter (refs : List PlottedSymbolRef) (p : PlottedSymbols) :
    eraseAll p refs
      = p.filter (fun node => !(refs.map (fun ref => ref.iterator)).contains node.1) := by
  induction refs generalizing p with
  | nil => simp [eraseAll]
  | cons r rs ih =>
    have h : eraseAll p (r :: rs) = eraseAll (PlottedSymbols.erase p r.iterator) rs := rfl
    rw [h, ih, PlottedSymbols.erase, List.filter_filter]
    apply List.filter_congr
    intro node _
    by_cases hn : node.1 = r.iterator
    · simp [hn]
    · simp [hn]

theorem applyPresentationRules_eq_filter {B : Type} (stage : Stage B)
    (refs : List PlottedSymbolRef) (p : PlottedSymbols) :
    applyPresentationRules stage refs p
      = p.filter (fun node => !(erasedBy stage refs).contains node.1) := by
  unfold applyPresentationRules erasedBy
  cases refs.head? with
  | none => simp
  | some first =>
    dsimp only
    cases stage.lock first.mapSymbol.group with
    | none => simp [eraseAll_eq_filter]
    | some g =>
      dsimp only
      split_ifs <;> simp [eraseAll_eq_filter]

theorem groupConsistencyPass_eq_filter {B : Type} (stage : Stage B)
    (hash : List (Nat × List PlottedSymbolRef)) (p : PlottedSymbols) :
    groupConsistencyPass stage hash p
      = p.filter (fun node => hash.all (fun e => !(erasedBy stage e.2).contains node.1)) := by
  induction hash generalizing p with
  | nil => simp [groupConsistencyPass]
  | cons e es ih =>
    have h : groupConsistencyPass stage (e :: es) p
        = groupConsistencyPass stage es (applyPresentationRules stage e.2 p) := rfl
    rw [h, ih, applyPresentationRules_eq_filter, List.filter_filter]
    apply List.filter_congr
    intro node _
    simp [Bool.and_comm]

/-! ## Lemmas: the hash filled by the plotting loop -/

theorem keys_hashPushBack (hash : List (Nat × List PlottedSymbolRef)) (k : Nat)
    (ref : PlottedSymbolRef) :
    (hashPushBack hash k ref).map Prod.fst
      = if k ∈ hash.map Prod.fst then hash.map Prod.fst else hash.map Prod.fst ++ [k] := by
  induction hash with
  | nil => simp [hashPushBack]
  | cons e es ih =>
    obtain ⟨key, refs⟩ := e
    by_cases hk : key = k
    · simp [hashPushBack, hk]
    · have hk2 : ¬ k = key := fun h => hk h.symm
      simp only [hashPushBack, hk, if_false, List.map_cons, ih, List.mem_cons, hk2, false_or]
      split_ifs <;> simp

theorem mem_hashPushBack (hash : List (Nat × List PlottedSymbolRef)) (k : Nat)
    (ref : PlottedSymbolRef) (hnd : (hash.map Prod.fst).Nodup)
    (e : Nat × List PlottedSymbolRef) (he : e ∈ hashPushBack hash k ref) :
    (e.1 ≠ k ∧ e ∈ hash)
      ∨ (e.1 = k ∧ ∃ refs, (k, refs) ∈ hash ∧ e.2 = refs ++ [ref])
      ∨ (e.1 = k ∧ k ∉ hash.map Prod.fst ∧ e.2 = [ref]) := by
  induction hash with
  | nil =>
    simp only [hashPushBack, List.mem_singleton] at he
    subst he
    simp
  | cons e0 es ih =>
    obtain ⟨key, refs0⟩ := e0
    have hnd2 : (es.map Prod.fst).Nodup := (List.nodup_cons.mp hnd).2
    have hkey : key ∉ es.map Prod.fst := (List.nodup_cons.mp hnd).1
    by_cases hk : key = k
    · subst hk
      simp only [hashPushBack, if_true, List.mem_cons] at he
      rcases he with he | he
      · subst he
        right; left
        exact ⟨rfl, refs0, List.mem_cons_self _ _, rfl⟩
      · left
        refine ⟨?_, List.mem_cons_of_mem _ he⟩
        intro h
        apply hkey
        rw [← h]
        exact List.mem_map_of_mem Prod.fst he
    · simp only [hashPushBack, hk, if_false, List.mem_cons] at he
      rcases he with he | he
      · subst he
        left
        exact ⟨hk, List.mem_cons_self _ _⟩
      · rcases ih hnd2 he with h | h | h
        · left; exact ⟨h.1, List.mem_cons_of_mem _ h.2⟩
        · right; left
          obtain ⟨h1, refs, h2, h3⟩ := h
          exact ⟨h1, refs, List.mem_cons_of_mem _ h2, h3⟩
        · right; right
          obtain ⟨h1, h2, h3⟩ := h
          refine ⟨h1, ?_, h3⟩
          simp only [List.map_cons, List.mem_cons, not_or]
          exact ⟨fun h => hk h.symm, h2⟩

theorem groupRefs_append (p : PlottedSymbols) (node : Nat × RenderableSymbol) (k : Nat) :
    groupRefs (p ++ [node]) k
      = groupRefs p k ++ (if node.2.mapSymbol.groupPtr = k then [refOfNode node] else []) := by
  unfold groupRefs
  by_cases h : node.2.mapSymbol.groupPtr = k
  · simp [List.filter_append, List.filter_cons, h]
  · simp [List.filter_append, List.filter_cons, h]

theorem Filed.init : Filed [] [] where
  ids := by simp
  keys := by simp
  refs := by simp
  filed := by simp

theorem Filed.push {p : PlottedSymbols} {hash : List (Nat × List PlottedSymbolRef)}
    (h : Filed p hash) (r : RenderableSymbol) :
    Filed (p ++ [(p.length, r)])
      (hashPushBack hash r.mapSymbol.groupPtr { iterator := p.length, mapSymbol := r.mapSymbol }) where
  ids := by
    simp [h.ids, List.range_succ]
  keys := by
    rw [keys_hashPushBack]
    split_ifs with hk
    · exact h.keys
    · exact List.Nodup.append h.keys (List.nodup_singleton _) (by simpa using hk)
  refs := by
    intro e he
    rw [groupRefs_append]
    rcases mem_hashPushBack hash _ _ h.keys e he with h1 | h1 | h1
    · obtain ⟨hne, hmem⟩ := h1
      have hne2 : ¬ r.mapSymbol.groupPtr = e.1 := fun hh => hne hh.symm
      simp [hne2, h.refs e hmem]
    · obtain ⟨heq, refs, hmem, he2⟩ := h1
      have := h.refs _ hmem
      simp only at this
      simp [heq, he2, this, refOfNode]
    · obtain ⟨heq, hnot, he2⟩ := h1
      have hnil : groupRefs p e.1 = [] := by
        unfold groupRefs
        simp only [List.map_eq_nil_iff, List.filter_eq_nil_iff]
        intro node hnode hgp
        apply hnot
        have := h.filed node hnode
        simp only [beq_iff_eq] at hgp
        rw [heq] at hgp
        rwa [hgp] at this
      rw [he2, hnil]
      simp [heq, refOfNode]
  filed := by
    intro node hnode
    rw [keys_hashPushBack]
    rcases List.mem_append.mp hnode with hn | hn
    · have := h.filed node hn
      split_ifs
      · exact this
      · exact List.mem_append_left _ this
    · simp only [List.mem_singleton] at hn
      subst hn
      split_ifs with hk
      · exact hk
      · simp

theorem filed_plotStep {B : Type} (stage : Stage B) (st : PlotState B) (r : RenderableSymbol)
    (h : Filed st.plottedSymbols st.plottedMapSymbolsByGroup) :
    Filed (plotStep stage st r).plottedSymbols (plotStep stage st r).plottedMapSymbolsByGroup := by
  unfold plotStep
  rcases hp : plotRenderable stage r st.intersections with ⟨b, tree⟩
  cases b
  · exact h
  · exact h.push r

theorem filed_foldl_plotStep {B : Type} (stage : Stage B) (rs : List RenderableSymbol)
    (st : PlotState B) (h : Filed st.plottedSymbols st.plottedMapSymbolsByGroup) :
    Filed (rs.foldl (plotStep stage) st).plottedSymbols
      (rs.foldl (plotStep stage) st).plottedMapSymbolsByGroup := by
  induction rs generalizing st with
  | nil => exact h
  | cons r rs ih => exact ih _ (filed_plotStep stage st r h)

theorem filed_plotLayers {B : Type} (stage : Stage B) (layers : List (List RenderableSymbol)) :
    Filed (plotLayers stage layers).plottedSymbols
      (plotLayers stage layers).plottedMapSymbolsByGroup := by
  unfold plotLayers
  suffices hgen : ∀ st : PlotState B, Filed st.plottedSymbols st.plottedMapSymbolsByGroup →
      Filed (layers.foldl (plotLayer stage) st).plottedSymbols
        (layers.foldl (plotLayer stage) st).plottedMapSymbolsByGroup from
    hgen _ Filed.init
  induction layers with
  | nil => intro st h; exact h
  | cons l ls ih =>
    intro st h
    exact ih _ (filed_foldl_plotStep stage l.reverse st h)

/-! ## Lemmas: the pass as a filter of the plotted renderables -/

theorem erasedBy_subset {B : Type} (stage : Stage B) (refs : List PlottedSymbolRef) (x : Nat)
    (hx : x ∈ erasedBy stage refs) : x ∈ refs.map (fun ref => ref.iterator) := by
  unfold erasedBy at hx
  cases hh : refs.head? with
  | none => simp [hh] at hx
  | some first =>
    rw [hh] at hx
    dsimp only at hx
    cases hl : stage.lock first.mapSymbol.group with
    | none => rw [hl] at hx; exact hx
    | some g =>
      rw [hl] at hx
      dsimp only at hx
      split_ifs at hx
      · simp at hx
      · exact hx
      · exact hx
      · simp only [List.mem_map, List.mem_filter] at hx
        obtain ⟨ref, ⟨hr, _⟩, hit⟩ := hx
        exact List.mem_map.mpr ⟨ref, hr, hit⟩
      · simp at hx

theorem any_map_eq {α β : Type} (f : α → β) (p : β → Bool) (l : List α) :
    (l.map f).any p = l.any (fun a => p (f a)) := by
  induction l with
  | nil => rfl
  | cons a l ih => simp [ih]

theorem erasedBy_map_refOfNode {B : Type} (stage : Stage B) (q : PlottedSymbols) :
    erasedBy stage (q.map refOfNode)
      = match resolveGroup stage (q.map Prod.snd) with
        | none => q.map Prod.fst
        | some g =>
          match ruleVerdict g (q.map Prod.snd) with
          | .keep => []
          | .discardGroup => q.map Prod.fst
          | .discardCaptions => (q.filter (fun node => isCaption node.2)).map Prod.fst := by
  cases q with
  | nil => simp [erasedBy, resolveGroup]
  | cons n ns =>
    have hhead : ((n :: ns).map refOfNode).head? = some (refOfNode n) := rfl
    have hhead2 : ((n :: ns).map Prod.snd).head? = some n.2 := rfl
    unfold erasedBy resolveGroup
    rw [hhead, hhead2]
    dsimp only
    have hgrp : (refOfNode n).mapSymbol.group = n.2.mapSymbol.group := rfl
    rw [hgrp]
    cases stage.lock n.2.mapSymbol.group with
    | none => simp [refOfNode, Function.comp_def]
    | some g =>
      dsimp only
      have hlen : ((n :: ns).map refOfNode).length = ((n :: ns).map Prod.snd).length := by simp
      have hany : ∀ icon : MapSymbol,
          ((n :: ns).map refOfNode).any (fun ref => ref.mapSymbol.id == icon.id)
            = ((n :: ns).map Prod.snd).any (fun r => r.mapSymbol.id == icon.id) := by
        intro icon
        rw [any_map_eq, any_map_eq]
        rfl
      have hcap : (((n :: ns).map refOfNode).filter
            (fun ref => ref.mapSymbol.contentClass == ContentClass.Caption))
          = ((n :: ns).filter (fun node => isCaption node.2)).map refOfNode := by
        rw [List.filter_map]
        rfl
      have hcap2 : (((n :: ns).map Prod.snd).filter isCaption)
          = ((n :: ns).filter (fun node => isCaption node.2)).map Prod.snd := by
        rw [List.filter_map]
        rfl
      have hicon : (match g.getFirstSymbolWithContentClass ContentClass.Icon with
            | some icon => !((n :: ns).map refOfNode).any (fun ref => ref.mapSymbol.id == icon.id)
            | none => false)
          = (match g.getFirstSymbolWithContentClass ContentClass.Icon with
            | some icon => !((n :: ns).map Prod.snd).any (fun r => r.mapSymbol.id == icon.id)
            | none => false) := by
        cases g.getFirstSymbolWithContentClass ContentClass.Icon with
        | none => rfl
        | some icon => simp only [hany]
      have hb : ∀ a b : Nat, (a != b) = (b != a) := by
        intro a b
        by_cases h : a = b
        · simp [h]
        · have h2 : ¬ b = a := fun hh => h hh.symm
          rw [bne_iff_ne.mpr h, bne_iff_ne.mpr h2]
      have hgt : ∀ a : Nat, decide (a > 0) = decide (0 < a) := fun _ => rfl
      unfold ruleVerdict allOrNothingFires iconRuleFires captionsRuleFires
      rw [hicon, hcap, hcap2, hlen, hb g.symbols.length, hgt,
        hb (g.numberOfSymbolsWithContentClass ContentClass.Caption)]
      simp only [List.length_map, List.map_map]
      have hfst : (fun ref => ref.iterator) ∘ refOfNode
          = (Prod.fst : Nat × RenderableSymbol → Nat) := rfl
      rw [hfst]
      split_ifs <;> rfl

theorem Filed.node_inj {p : PlottedSymbols} {hash : List (Nat × List PlottedSymbolRef)}
    (h : Filed p hash) {a b : Nat × RenderableSymbol} (ha : a ∈ p) (hb : b ∈ p)
    (hab : a.1 = b.1) : a = b := by
  have hnd : (p.map Prod.fst).Nodup := by
    rw [h.ids]
    exact List.nodup_range _
  exact List.inj_on_of_nodup_map hnd ha hb hab

theorem ofGroup_map_snd (p : PlottedSymbols) (k : Nat) :
    ofGroup (p.map Prod.snd) k
      = (p.filter (fun node => node.2.mapSymbol.groupPtr == k)).map Prod.snd := by
  unfold ofGroup
  rw [List.filter_map]
  rfl

theorem contains_erasedBy_groupRefs {B : Type} (stage : Stage B) {p : PlottedSymbols}
    {hash : List (Nat × List PlottedSymbolRef)} (h : Filed p hash)
    (node : Nat × RenderableSymbol) (hn : node ∈ p) :
    (erasedBy stage (groupRefs p node.2.mapSymbol.groupPtr)).contains node.1
      = discardedByRules stage (p.map Prod.snd) node.2 := by
  have hq : node ∈ p.filter (fun m => m.2.mapSymbol.groupPtr == node.2.mapSymbol.groupPtr) := by
    simp [List.mem_filter, hn]
  unfold discardedByRules groupRefs
  rw [erasedBy_map_refOfNode, ofGroup_map_snd]
  cases resolveGroup stage
      ((p.filter (fun m => m.2.mapSymbol.groupPtr == node.2.mapSymbol.groupPtr)).map Prod.snd) with
  | none =>
    dsimp only
    apply List.elem_iff.mpr
    exact List.mem_map_of_mem Prod.fst hq
  | some g =>
    dsimp only
    cases ruleVerdict g
        ((p.filter (fun m => m.2.mapSymbol.groupPtr == node.2.mapSymbol.groupPtr)).map Prod.snd) with
    | keep => simp
    | discardGroup =>
      dsimp only
      apply List.elem_iff.mpr
      exact List.mem_map_of_mem Prod.fst hq
    | discardCaptions =>
      dsimp only
      by_cases hc : isCaption node.2 = true
      · rw [hc]
        apply List.elem_iff.mpr
        exact List.mem_map_of_mem Prod.fst (List.mem_filter.mpr ⟨hq, hc⟩)
      · have hc2 : isCaption node.2 = false := by simpa using hc
        rw [hc2]
        apply Bool.eq_false_iff.mpr
        intro hcon
        obtain ⟨m, hm, hm1⟩ := List.mem_map.mp (List.elem_iff.mp hcon)
        have hm2 := List.mem_filter.mp hm
        have hmp : m ∈ p := (List.mem_filter.mp hm2.1).1
        have : m = node := h.node_inj hmp hn hm1
        rw [this] at hm2
        exact hc hm2.2

theorem all_not_erased {B : Type} (stage : Stage B) {p : PlottedSymbols}
    {hash : List (Nat × List PlottedSymbolRef)} (h : Filed p hash)
    (node : Nat × RenderableSymbol) (hn : node ∈ p) :
    hash.all (fun e => !(erasedBy stage e.2).contains node.1)
      = !discardedByRules stage (p.map Prod.snd) node.2 := by
  rw [← contains_erasedBy_groupRefs stage h node hn]
  have key : (∃ e ∈ hash, node.1 ∈ erasedBy stage e.2)
      ↔ node.1 ∈ erasedBy stage (groupRefs p node.2.mapSymbol.groupPtr) := by
    constructor
    · rintro ⟨e, he, hcon⟩
      have hit := erasedBy_subset stage e.2 node.1 hcon
      rw [h.refs e he] at hit
      unfold groupRefs at hit
      simp only [List.map_map, List.mem_map, List.mem_filter, Function.comp_apply] at hit
      obtain ⟨m, ⟨hmp, hmk⟩, hm1⟩ := hit
      have hmn : m = node := h.node_inj hmp hn hm1
      rw [hmn] at hmk
      have hk : node.2.mapSymbol.groupPtr = e.1 := by simpa using hmk
      rw [hk, ← h.refs e he]
      exact hcon
    · intro hcon
      obtain ⟨e, he, hek⟩ := List.mem_map.mp (h.filed node hn)
      refine ⟨e, he, ?_⟩
      rw [h.refs e he, hek]
      exact hcon
  by_cases hc : node.1 ∈ erasedBy stage (groupRefs p node.2.mapSymbol.groupPtr)
  · have hct : (erasedBy stage (groupRefs p node.2.mapSymbol.groupPtr)).contains node.1 = true :=
      List.elem_iff.mpr hc
    rw [hct]
    obtain ⟨e, he, hcon⟩ := key.mpr hc
    have hce : (erasedBy stage e.2).contains node.1 = true := List.elem_iff.mpr hcon
    simp only [Bool.not_true, List.all_eq_false]
    exact ⟨e, he, by rw [hce]; simp⟩
  · have hcf : (erasedBy stage (groupRefs p node.2.mapSymbol.groupPtr)).contains node.1 = false :=
      Bool.eq_false_iff.mpr (fun hh => hc (List.elem_iff.mp hh))
    rw [hcf]
    simp only [Bool.not_false, List.all_eq_true]
    intro e he
    have : (erasedBy stage e.2).contains node.1 = false :=
      Bool.eq_false_iff.mpr (fun hh => hc (key.mp ⟨e, he, List.elem_iff.mp hh⟩))
    rw [this]
    rfl

theorem groupConsistencyPass_filed {B : Type} (stage : Stage B) {p : PlottedSymbols}
    {hash : List (Nat × List PlottedSymbolRef)} (h : Filed p hash) :
    (groupConsistencyPass stage hash p).map Prod.snd
      = (p.map Prod.snd).filter (fun r => !discardedByRules stage (p.map Prod.snd) r) := by
  rw [groupConsistencyPass_eq_filter, List.filter_map]
  congr 1
  apply List.filter_congr
  intro node hn
  exact all_not_erased stage h node hn

/-- The output of `obtainRenderableSymbols` is the list of plotted renderables
without those that the group rules discard. -/
theorem obtainRenderableSymbols_eq_filter {B : Type} (stage : Stage B)
    (layers : List (List RenderableSymbol)) (out : List RenderableSymbol) :
    obtainRenderableSymbols stage layers out
      = (plottedRenderables stage layers).filter
          (fun r => !discardedByRules stage (plottedRenderables stage layers) r) := by
  unfold obtainRenderableSymbols plottedRenderables
  simp only [List.nil_append]
  exact groupConsistencyPass_filed stage (filed_plotLayers stage layers)

theorem groupConsistencyPass_perm {B : Type} (stage : Stage B)
    (hash1 hash2 : List (Nat × List PlottedSymbolRef)) (hperm : hash1.Perm hash2)
    (p : PlottedSymbols) :
    groupConsistencyPass stage hash1 p = groupConsistencyPass stage hash2 p := by
  rw [groupConsistencyPass_eq_filter, groupConsistencyPass_eq_filter]
  apply List.filter_congr
  intro node _
  apply Bool.eq_iff_iff.mpr
  simp only [List.all_eq_true]
  exact ⟨fun h e he => h e (hperm.mem_iff.mpr he), fun h e he => h e (hperm.mem_iff.mp he)⟩

theorem mem_ofGroup (rs : List RenderableSymbol) (k : Nat) (r : RenderableSymbol) :
    r ∈ ofGroup rs k ↔ r ∈ rs ∧ r.mapSymbol.groupPtr = k := by
  simp [ofGroup, List.mem_filter]

/-- What the pass leaves of the plotted renderables of one group. -/
theorem ofGroup_obtainRenderableSymbols {B : Type} (stage : Stage B)
    (layers : List (List RenderableSymbol)) (out : List RenderableSymbol) (k : Nat) :
    ofGroup (obtainRenderableSymbols stage layers out) k
      = match resolveGroup stage (ofGroup (plottedRenderables stage layers) k) with
        | none => []
        | some g =>
          match ruleVerdict g (ofGroup (plottedRenderables stage layers) k) with
          | .keep => ofGroup (plottedRenderables stage layers) k
          | .discardGroup => []
          | .discardCaptions =>
            (ofGroup (plottedRenderables stage layers) k).filter (fun r => !isCaption r) := by
  rw [obtainRenderableSymbols_eq_filter]
  generalize plottedRenderables stage layers = P
  have hswap : ofGroup (P.filter (fun r => !discardedByRules stage P r)) k
      = (ofGroup P k).filter (fun r => !discardedByRules stage P r) := by
    unfold ofGroup
    rw [List.filter_filter, List.filter_filter]
    apply List.filter_congr
    intro r _
    exact Bool.and_comm _ _
  rw [hswap]
  have hcongr : (ofGroup P k).filter (fun r => !discardedByRules stage P r)
      = (ofGroup P k).filter (fun r =>
          !(match resolveGroup stage (ofGroup P k) with
            | none => true
            | some g =>
              match ruleVerdict g (ofGroup P k) with
              | .keep => false
              | .discardGroup => true
              | .discardCaptions => isCaption r)) := by
    apply List.filter_congr
    intro r hr
    have hk : r.mapSymbol.groupPtr = k := ((mem_ofGroup P k r).mp hr).2
    unfold discardedByRules
    rw [hk]
  rw [hcongr]
  cases resolveGroup stage (ofGroup P k) with
  | none => simp
  | some g =>
    dsimp only
    cases ruleVerdict g (ofGroup P k) with
    | keep => simp
    | discardGroup => simp
    | discardCaptions => rfl

theorem not_mem_of_ofGroup_eq_nil (rs : List RenderableSymbol) (k : Nat)
    (h : ofGroup rs k = []) : ∀ r ∈ rs, r.mapSymbol.groupPtr ≠ k := by
  intro r hr hk
  have : r ∈ ofGroup rs k := (mem_ofGroup rs k r).mpr ⟨hr, hk⟩
  rw [h] at this
  exact List.not_mem_nil _ this

/-- C1. All-or-nothing rule: for a live group (the weak reference of its first
plotted symbol resolves to `g`) with ShowAllOrNothing set and ShowAnything not
set, if the number of plotted renderables of the group differs from the number
of symbols of the group, no renderable of that group is in the output of
`obtainRenderableSymbols`. -/
theorem C1_showAllOrNothing_discards_incomplete_group {B : Type} (stage : Stage B)
    (layers : List (List RenderableSymbol)) (out : List RenderableSymbol) (groupPtr : Nat)
    (g : MapSymbolsGroup)
    (hlive : resolveGroup stage (ofGroup (plottedRenderables stage layers) groupPtr) = some g)
    (hflag : isSet g.presentationMode .ShowAllOrNothing = true)
    (hany : isSet g.presentationMode .ShowAnything = false)
    (hcount : (ofGroup (plottedRenderables stage layers) groupPtr).length ≠ g.symbols.length) :
    ∀ r ∈ obtainRenderableSymbols stage layers out, r.mapSymbol.groupPtr ≠ groupPtr := by
  apply not_mem_of_ofGroup_eq_nil
  rw [ofGroup_obtainRenderableSymbols, hlive]
  have hv : ruleVerdict g (ofGroup (plottedRenderables stage layers) groupPtr)
      = .discardGroup := by
    unfold ruleVerdict allOrNothingFires
    simp [hany, hflag, hcount]
  simp only [hv]

/-- C1, the example of the claim: group 1 has three symbols and ShowAllOrNothing;
two of them are plotted (the third meets the box of another group); nothing of
group 1 is in the output. -/
theorem C1_witness :
    (ofGroup (plottedRenderables (sceneStage (sceneLock [.ShowAllOrNothing]))
        captionBlockedLayers) 1).length = 2
    ∧ (sceneGroup [.ShowAllOrNothing]).symbols.length = 3
    ∧ ∀ r ∈ obtainRenderableSymbols (sceneStage (sceneLock [.ShowAllOrNothing]))
        captionBlockedLayers [], r.mapSymbol.groupPtr ≠ 1 :=
  ⟨by decide, by decide,
    C1_showAllOrNothing_discards_incomplete_group (sceneStage (sceneLock [.ShowAllOrNothing]))
      captionBlockedLayers [] 1 (sceneGroup [.ShowAllOrNothing])
      (by decide) (by decide) (by decide) (by decide)⟩

/-- C2. Icon rule: for a live group with ShowNoneIfIconIsNotShown set and
ShowAnything not set, whose first Icon-class symbol is `icon`: when no plotted
renderable of the group renders that symbol, no renderable of the group is in the
output, plotted captions included. -/
theorem C2_showNoneIfIconIsNotShown_discards_group {B : Type} (stage : Stage B)
    (layers : List (List RenderableSymbol)) (out : List RenderableSymbol) (groupPtr : Nat)
    (g : MapSymbolsGroup) (icon : MapSymbol)
    (hlive : resolveGroup stage (ofGroup (plottedRenderables stage layers) groupPtr) = some g)
    (hflag : isSet g.presentationMode .ShowNoneIfIconIsNotShown = true)
    (hany : isSet g.presentationMode .ShowAnything = false)
    (hicon : g.getFirstSymbolWithContentClass .Icon = some icon)
    (hmissing : ∀ r ∈ ofGroup (plottedRenderables stage layers) groupPtr,
      r.mapSymbol.id ≠ icon.id) :
    ∀ r ∈ obtainRenderableSymbols stage layers out, r.mapSymbol.groupPtr ≠ groupPtr := by
  apply not_mem_of_ofGroup_eq_nil
  rw [ofGroup_obtainRenderableSymbols, hlive]
  have hnone : (ofGroup (plottedRenderables stage layers) groupPtr).any
      (fun r => r.mapSymbol.id == icon.id) = false := by
    apply Bool.eq_false_iff.mpr
    intro h
    obtain ⟨r, hr, hid⟩ := List.any_eq_true.mp h
    exact hmissing r hr (by simpa using hid)
  have hv : ruleVerdict g (ofGroup (plottedRenderables stage layers) groupPtr)
      = .discardGroup := by
    unfold ruleVerdict iconRuleFires
    rw [hicon]
    simp only [hany, hflag, hnone]
    split_ifs <;> simp_all
  simp only [hv]

/-- C2, the example of the claim: group 1 has one icon and two captions and
ShowNoneIfIconIsNotShown; the icon meets the box of another group and is not
plotted, the two captions are plotted; nothing of group 1 is in the output. -/
theorem C2_witness :
    (ofGroup (plottedRenderables (sceneStage (sceneLock [.ShowNoneIfIconIsNotShown]))
        iconBlockedLayers) 1).map (fun r => r.mapSymbol.id) = [2, 3]
    ∧ ∀ r ∈ obtainRenderableSymbols (sceneStage (sceneLock [.ShowNoneIfIconIsNotShown]))
        iconBlockedLayers [], r.mapSymbol.groupPtr ≠ 1 :=
  ⟨by decide,
    C2_showNoneIfIconIsNotShown_discards_group
      (sceneStage (sceneLock [.ShowNoneIfIconIsNotShown])) iconBlockedLayers [] 1
      (sceneGroup [.ShowNoneIfIconIsNotShown]) (sceneSymbol 1 1 .Icon)
      (by decide) (by decide) (by decide) (by decide) (by decide)⟩

/-- C3. Captions rule: for a live group in which, of the four flags, only
ShowAllCaptionsOrNoCaptions is set, with N Caption-class symbols: if N > 0 and
the number of plotted Caption-class renderables of the group differs from N, the
output holds of that group exactly its plotted renderables that are not captions,
in plotting order; otherwise it holds all plotted renderables of the group. -/
theorem C3_showAllCaptionsOrNoCaptions {B : Type} (stage : Stage B)
    (layers : List (List RenderableSymbol)) (out : List RenderableSymbol) (groupPtr : Nat)
    (g : MapSymbolsGroup)
    (hlive : resolveGroup stage (ofGroup (plottedRenderables stage layers) groupPtr) = some g)
    (hflag : isSet g.presentationMode .ShowAllCaptionsOrNoCaptions = true)
    (hany : isSet g.presentationMode .ShowAnything = false)
    (hall : isSet g.presentationMode .ShowAllOrNothing = false)
    (hicon : isSet g.presentationMode .ShowNoneIfIconIsNotShown = false) :
    ofGroup (obtainRenderableSymbols stage layers out) groupPtr
      = if 0 < g.numberOfSymbolsWithContentClass .Caption
            ∧ ((ofGroup (plottedRenderables stage layers) groupPtr).filter isCaption).length
                ≠ g.numberOfSymbolsWithContentClass .Caption then
          (ofGroup (plottedRenderables stage layers) groupPtr).filter (fun r => !isCaption r)
        else ofGroup (plottedRenderables stage layers) groupPtr := by
  rw [ofGroup_obtainRenderableSymbols, hlive]
  dsimp only
  unfold ruleVerdict allOrNothingFires iconRuleFires captionsRuleFires
  simp only [hany, hall, hicon, hflag, Bool.false_and, Bool.true_and, Bool.false_eq_true,
    if_false]
  by_cases hc : 0 < g.numberOfSymbolsWithContentClass .Caption
      ∧ ((ofGroup (plottedRenderables stage layers) groupPtr).filter isCaption).length
          ≠ g.numberOfSymbolsWithContentClass .Caption
  · have hb : (decide (0 < g.numberOfSymbolsWithContentClass .Caption)
        && ((ofGroup (plottedRenderables stage layers) groupPtr).filter isCaption).length
            != g.numberOfSymbolsWithContentClass .Caption) = true := by
      simp only [Bool.and_eq_true, decide_eq_true_eq, bne_iff_ne]
      exact hc
    rw [if_pos hb, if_pos hc]
  · have hb : ¬ (decide (0 < g.numberOfSymbolsWithContentClass .Caption)
        && ((ofGroup (plottedRenderables stage layers) groupPtr).filter isCaption).length
            != g.numberOfSymbolsWithContentClass .Caption) = true := by
      simp only [Bool.and_eq_true, decide_eq_true_eq, bne_iff_ne]
      exact hc
    rw [if_neg hb, if_neg hc]

/-- C3, the example of the claim: group 1 has one icon and three captions and only
ShowAllCaptionsOrNoCaptions; the icon and two of the three captions are plotted;
the output keeps the icon and drops both plotted captions. -/
theorem C3_witness :
    (ofGroup (plottedRenderables (sceneStage threeCaptionsLock) thirdCaptionBlockedLayers)
        1).map (fun r => r.mapSymbol.id) = [1, 2, 3]
    ∧ (ofGroup (obtainRenderableSymbols (sceneStage threeCaptionsLock)
        thirdCaptionBlockedLayers []) 1).map (fun r => r.mapSymbol.id) = [1] := by
  refine ⟨by decide, ?_⟩
  rw [C3_showAllCaptionsOrNoCaptions (sceneStage threeCaptionsLock)
    thirdCaptionBlockedLayers [] 1 threeCaptionsGroup
    (by decide) (by decide) (by decide) (by decide) (by decide)]
  decide

/-- C4. ShowAnything: for a live group with ShowAnything set, the output holds all
plotted renderables of the group, in plotting order, whatever the other flags of
the group and whatever was plotted. -/
theorem C4_showAnything_keeps_group {B : Type} (stage : Stage B)
    (layers : List (List RenderableSymbol)) (out : List RenderableSymbol) (groupPtr : Nat)
    (g : MapSymbolsGroup)
    (hlive : resolveGroup stage (ofGroup (plottedRenderables stage layers) groupPtr) = some g)
    (hany : isSet g.presentationMode .ShowAnything = true) :
    ofGroup (obtainRenderableSymbols stage layers out) groupPtr
      = ofGroup (plottedRenderables stage layers) groupPtr := by
  rw [ofGroup_obtainRenderableSymbols, hlive]
  dsimp only
  unfold ruleVerdict
  rw [if_pos hany]

/-- C4 on a scene: group 1 has ShowAnything together with the three other flags,
and only two of its three symbols are plotted, without one caption: both stay. -/
theorem C4_witness :
    ofGroup (obtainRenderableSymbols
        (sceneStage (sceneLock [.ShowAllOrNothing, .ShowNoneIfIconIsNotShown,
          .ShowAllCaptionsOrNoCaptions, .ShowAnything])) captionBlockedLayers []) 1
      = [sceneBillboard (sceneSymbol 1 1 .Icon) 0, sceneBillboard (sceneSymbol 2 1 .Caption) 1] := by
  rw [C4_showAnything_keeps_group
    (sceneStage (sceneLock [.ShowAllOrNothing, .ShowNoneIfIconIsNotShown,
      .ShowAllCaptionsOrNoCaptions, .ShowAnything])) captionBlockedLayers [] 1
    (sceneGroup [.ShowAllOrNothing, .ShowNoneIfIconIsNotShown,
      .ShowAllCaptionsOrNoCaptions, .ShowAnything]) (by decide) (by decide)]
  decide

/-- C5. Stale group: when the weak group reference of the first plotted symbol of
a group cannot be locked, no renderable of that group is in the output. -/
theorem C5_stale_group_discarded {B : Type} (stage : Stage B)
    (layers : List (List RenderableSymbol)) (out : List RenderableSymbol) (groupPtr : Nat)
    (first : RenderableSymbol)
    (hfirst : (ofGroup (plottedRenderables stage layers) groupPtr).head? = some first)
    (hstale : stage.lock first.mapSymbol.group = none) :
    ∀ r ∈ obtainRenderableSymbols stage layers out, r.mapSymbol.groupPtr ≠ groupPtr := by
  apply not_mem_of_ofGroup_eq_nil
  rw [ofGroup_obtainRenderableSymbols]
  have hres : resolveGroup stage (ofGroup (plottedRenderables stage layers) groupPtr) = none := by
    unfold resolveGroup
    rw [hfirst]
    exact hstale
  rw [hres]

/-- C5 on a scene: group 1 was destroyed; its two plotted renderables are not in
the output. -/
theorem C5_witness :
    (ofGroup (plottedRenderables (sceneStage staleLock) captionBlockedLayers) 1).length = 2
    ∧ ∀ r ∈ obtainRenderableSymbols (sceneStage staleLock) captionBlockedLayers [],
        r.mapSymbol.groupPtr ≠ 1 :=
  ⟨by decide,
    C5_stale_group_discarded (sceneStage staleLock) captionBlockedLayers [] 1
      (sceneBillboard (sceneSymbol 1 1 .Icon) 0) (by decide) (by decide)⟩

/-- C6. The output of `obtainRenderableSymbols` is the sequence of plotted
renderables, in plotting order, without exactly those that the stale-group rule
or one of the three presentation rules discards; a plotted renderable of a live
group is in the output when ShowAnything is set or none of the three rules fires
for its group, in particular when the group has no presentation flag; and the
output does not depend on the previous content of the output list. -/
theorem C6_output_is_plotted_minus_discarded {B : Type} (stage : Stage B)
    (layers : List (List RenderableSymbol)) (out : List RenderableSymbol) :
    obtainRenderableSymbols stage layers out
        = (plottedRenderables stage layers).filter
            (fun r => !discardedByRules stage (plottedRenderables stage layers) r)
    ∧ (∀ r ∈ plottedRenderables stage layers, ∀ g : MapSymbolsGroup,
        resolveGroup stage (ofGroup (plottedRenderables stage layers) r.mapSymbol.groupPtr)
          = some g →
        (isSet g.presentationMode .ShowAnything = true
          ∨ (allOrNothingFires g
                (ofGroup (plottedRenderables stage layers) r.mapSymbol.groupPtr) = false
              ∧ iconRuleFires g
                (ofGroup (plottedRenderables stage layers) r.mapSymbol.groupPtr) = false
              ∧ captionsRuleFires g
                (ofGroup (plottedRenderables stage layers) r.mapSymbol.groupPtr) = false)) →
        r ∈ obtainRenderableSymbols stage layers out)
    ∧ (∀ r ∈ plottedRenderables stage layers, ∀ g : MapSymbolsGroup,
        resolveGroup stage (ofGroup (plottedRenderables stage layers) r.mapSymbol.groupPtr)
          = some g →
        g.presentationMode = [] → r ∈ obtainRenderableSymbols stage layers out)
    ∧ obtainRenderableSymbols stage layers out = obtainRenderableSymbols stage layers [] := by
  have hkeep : ∀ r ∈ plottedRenderables stage layers, ∀ g : MapSymbolsGroup,
      resolveGroup stage (ofGroup (plottedRenderables stage layers) r.mapSymbol.groupPtr)
        = some g →
      ruleVerdict g (ofGroup (plottedRenderables stage layers) r.mapSymbol.groupPtr) = .keep →
      r ∈ obtainRenderableSymbols stage layers out := by
    intro r hr g hg hv
    rw [obtainRenderableSymbols_eq_filter]
    apply List.mem_filter.mpr
    refine ⟨hr, ?_⟩
    unfold discardedByRules
    rw [hg]
    dsimp only
    rw [hv]
    rfl
  refine ⟨obtainRenderableSymbols_eq_filter stage layers out, ?_, ?_, ?_⟩
  · intro r hr g hg hrules
    apply hkeep r hr g hg
    unfold ruleVerdict
    rcases hrules with h | ⟨h1, h2, h3⟩
    · rw [if_pos h]
    · rw [h1, h2, h3]
      simp
  · intro r hr g hg hmode
    apply hkeep r hr g hg
    unfold ruleVerdict allOrNothingFires iconRuleFires captionsRuleFires
    rw [hmode]
    rfl
  · rw [obtainRenderableSymbols_eq_filter, obtainRenderableSymbols_eq_filter]

/-- C6 on a scene: group 1 has no presentation flag and two of its three symbols
are plotted; the output is the plotted sequence, and the previous content of the
output list is gone. -/
theorem C6_witness :
    (plottedRenderables (sceneStage (sceneLock [])) captionBlockedLayers).map
        (fun r => r.mapSymbol.id) = [90, 1, 2]
    ∧ (obtainRenderableSymbols (sceneStage (sceneLock [])) captionBlockedLayers
        [sceneBillboard (sceneSymbol 7 7 .Other) 7]).map (fun r => r.mapSymbol.id)
        = [90, 1, 2] := by
  refine ⟨by decide, ?_⟩
  rw [(C6_output_is_plotted_minus_discarded (sceneStage (sceneLock [])) captionBlockedLayers
    [sceneBillboard (sceneSymbol 7 7 .Other) 7]).1]
  decide

/-! ## Lemmas: what plotting does to the index -/

theorem plotSymbol_entries {B : Type} (stage : Stage B) (box : B) (symbol : MapSymbol)
    (tree : IntersectionsQuadTree B) :
    plotSymbol stage box symbol tree
      = if (!isSet symbol.intersectionModeFlags .TransparentForIntersectionLookup
            && !stage.debugSettings.allSymbolsTransparentForIntersectionLookup) = true then
          (true, { entries := tree.entries ++ [(symbol, box)] })
        else (true, tree) := by
  unfold plotSymbol IntersectionsQuadTree.insert
  split_ifs <;> rfl

theorem applyIntersection_true_iff {B : Type} (stage : Stage B) (box : B) (symbol : MapSymbol)
    (tree : IntersectionsQuadTree B) :
    applyIntersectionWithOtherSymbolsFiltering stage box symbol tree = true
      ↔ (isSet symbol.intersectionModeFlags .IgnoredByIntersectionTest = true
          ∨ stage.debugSettings.skipSymbolsIntersectionCheck = true
          ∨ ∀ e ∈ tree.entries, e.1.groupPtr ≠ symbol.groupPtr →
              stage.geometry.intersects box e.2 = false) := by
  unfold applyIntersectionWithOtherSymbolsFiltering IntersectionsQuadTree.test
  by_cases h1 : isSet symbol.intersectionModeFlags .IgnoredByIntersectionTest = true
  · simp [h1]
  · by_cases h2 : stage.debugSettings.skipSymbolsIntersectionCheck = true
    · simp [h2]
    · simp only [h1, h2, if_false, false_or, Bool.false_eq_true]
      constructor
      · intro h e he hne
        by_contra hcon
        have hany : (tree.entries.any
            (fun e => (e.1.groupPtr != symbol.groupPtr) && stage.geometry.intersects box e.2))
            = true := by
          apply List.any_eq_true.mpr
          refine ⟨e, he, ?_⟩
          simp only [Bool.and_eq_true, bne_iff_ne]
          exact ⟨hne, by simpa using hcon⟩
        simp [hany] at h
      · intro h
        have hany : (tree.entries.any
            (fun e => (e.1.groupPtr != symbol.groupPtr) && stage.geometry.intersects box e.2))
            = false := by
          apply Bool.eq_false_iff.mpr
          intro hh
          obtain ⟨e, he, hb⟩ := List.any_eq_true.mp hh
          simp only [Bool.and_eq_true, bne_iff_ne] at hb
          rw [h e he hb.1] at hb
          exact Bool.false_ne_true hb.2
        simp [hany]

theorem plotBillboardRasterSymbol_eq {B : Type} (stage : Stage B) (r : RenderableSymbol)
    (tree : IntersectionsQuadTree B) :
    plotBillboardRasterSymbol stage r tree
      = if applyIntersectionWithOtherSymbolsFiltering stage (stage.boundsInWindow r)
            r.mapSymbol tree = true
          ∧ applyMinDistanceToSameContentFromOtherSymbolFiltering stage (stage.boundsInWindow r)
            r.mapSymbol tree = true then
          plotSymbol stage (stage.boundsInWindow r) r.mapSymbol tree
        else (false, tree) := by
  unfold plotBillboardRasterSymbol
  dsimp only
  by_cases h1 : applyIntersectionWithOtherSymbolsFiltering stage (stage.boundsInWindow r)
      r.mapSymbol tree = true
  · by_cases h2 : applyMinDistanceToSameContentFromOtherSymbolFiltering stage
        (stage.boundsInWindow r) r.mapSymbol tree = true
    · simp [h1, h2]
    · simp [h1, h2]
  · simp [h1]

theorem plotOnPathSymbol_eq {B : Type} (stage : Stage B) (r : RenderableSymbol)
    (tree : IntersectionsQuadTree B) :
    plotOnPathSymbol stage r tree
      = if applyIntersectionWithOtherSymbolsFiltering stage
            (if r.is2D then stage.calculateOnPath2dOOBB r else stage.calculateOnPath3dOOBB r)
            r.mapSymbol tree = true
          ∧ applyMinDistanceToSameContentFromOtherSymbolFiltering stage
            (if r.is2D then stage.calculateOnPath2dOOBB r else stage.calculateOnPath3dOOBB r)
            r.mapSymbol tree = true then
          plotSymbol stage
            (if r.is2D then stage.calculateOnPath2dOOBB r else stage.calculateOnPath3dOOBB r)
            r.mapSymbol tree
        else (false, tree) := by
  unfold plotOnPathSymbol
  dsimp only
  generalize (if r.is2D then stage.calculateOnPath2dOOBB r else stage.calculateOnPath3dOOBB r)
    = oobb
  by_cases h1 : applyIntersectionWithOtherSymbolsFiltering stage oobb r.mapSymbol tree = true
  · by_cases h2 : applyMinDistanceToSameContentFromOtherSymbolFiltering stage oobb
        r.mapSymbol tree = true
    · simp only [h1, h2, Bool.not_true, Bool.false_eq_true, if_false, and_self, if_true]
      rw [plotSymbol_entries]
      split_ifs <;> rfl
    · simp [h1, h2]
  · simp [h1]

theorem plotOnSurfaceSymbol_index {B : Type} (stage : Stage B) (r : RenderableSymbol)
    (tree : IntersectionsQuadTree B) : (plotOnSurfaceSymbol stage r tree).2 = tree := by
  unfold plotOnSurfaceSymbol plotOnSurfaceRasterSymbol plotOnSurfaceVectorSymbol
  split_ifs <;> rfl

theorem filtered_plotSymbol_entries {B : Type} (stage : Stage B) (box : B) (symbol : MapSymbol)
    (tree : IntersectionsQuadTree B) :
    (if applyIntersectionWithOtherSymbolsFiltering stage box symbol tree = true
          ∧ applyMinDistanceToSameContentFromOtherSymbolFiltering stage box symbol tree = true then
        plotSymbol stage box symbol tree
      else (false, tree)).2 = tree
    ∨ ((if applyIntersectionWithOtherSymbolsFiltering stage box symbol tree = true
          ∧ applyMinDistanceToSameContentFromOtherSymbolFiltering stage box symbol tree = true then
        plotSymbol stage box symbol tree
      else (false, tree)).2 = { entries := tree.entries ++ [(symbol, box)] }
      ∧ applyIntersectionWithOtherSymbolsFiltering stage box symbol tree = true) := by
  split_ifs with h
  · rw [plotSymbol_entries]
    split_ifs
    · right; exact ⟨rfl, h.1⟩
    · left; rfl
  · left; rfl

/-- Plotting a renderable leaves the index as it is or commits one entry: the
symbol of the renderable with a box that passed the intersection filter. -/
theorem plotRenderable_entries {B : Type} (stage : Stage B) (r : RenderableSymbol)
    (tree : IntersectionsQuadTree B) :
    (plotRenderable stage r tree).2 = tree
      ∨ ∃ box, (plotRenderable stage r tree).2 = { entries := tree.entries ++ [(r.mapSymbol, box)] }
          ∧ applyIntersectionWithOtherSymbolsFiltering stage box r.mapSymbol tree = true := by
  unfold plotRenderable
  cases r.kind with
  | Billboard =>
    dsimp only
    unfold plotBillboardSymbol plotBillboardVectorSymbol
    split_ifs
    · rw [plotBillboardRasterSymbol_eq]
      rcases filtered_plotSymbol_entries stage (stage.boundsInWindow r) r.mapSymbol tree
        with h | h
      · left; exact h
      · right; exact ⟨_, h⟩
    · left; rfl
    · left; rfl
  | OnPath =>
    dsimp only
    rw [plotOnPathSymbol_eq]
    rcases filtered_plotSymbol_entries stage
      (if r.is2D then stage.calculateOnPath2dOOBB r else stage.calculateOnPath3dOOBB r)
      r.mapSymbol tree with h | h
    · left; exact h
    · right; exact ⟨_, h⟩
  | OnSurface =>
    left
    exact plotOnSurfaceSymbol_index stage r tree

theorem plotStep_intersections {B : Type} (stage : Stage B) (st : PlotState B)
    (r : RenderableSymbol) :
    (plotStep stage st r).intersections = (plotRenderable stage r st.intersections).2 := by
  unfold plotStep
  rcases hp : plotRenderable stage r st.intersections with ⟨b, tree⟩
  cases b <;> rfl

/-- A property of the index that holds for the empty index and is kept by the
plotting of one renderable holds after the plotting loop. -/
theorem plotLayers_index_induction {B : Type} (stage : Stage B)
    (Q : IntersectionsQuadTree B → Prop) (h0 : Q { entries := [] })
    (hstep : ∀ tree r, Q tree → Q (plotRenderable stage r tree).2)
    (layers : List (List RenderableSymbol)) :
    Q (plotLayers stage layers).intersections := by
  have hfold : ∀ (rs : List RenderableSymbol) (st : PlotState B), Q st.intersections →
      Q (rs.foldl (plotStep stage) st).intersections := by
    intro rs
    induction rs with
    | nil => intro st h; exact h
    | cons r rs ih =>
      intro st h
      apply ih
      rw [plotStep_intersections]
      exact hstep _ _ h
  have hlayers : ∀ (st : PlotState B), Q st.intersections →
      Q (layers.foldl (plotLayer stage) st).intersections := by
    induction layers with
    | nil => intro st h; exact h
    | cons l ls ih =>
      intro st h
      exact ih _ (hfold l.reverse st h)
  exact hlayers _ h0

theorem AreaI.intersects_comm (a b : AreaI) : a.intersects b = b.intersects a := by
  unfold AreaI.intersects
  apply Bool.eq_iff_iff.mpr
  simp only [Bool.not_eq_true', Bool.or_eq_false_iff, decide_eq_false_iff_not, gt_iff_lt]
  constructor <;> intro h <;> omega

/-- C7. Occupancy invariant: with the debug setting skipSymbolsIntersectionCheck
off and a symmetric overlap relation, after plotting any layers from an empty
index, any two committed entries whose symbols have different group pointers and
neither of which has IgnoredByIntersectionTest set hold boxes that do not
overlap. -/
theorem C7_occupancy_invariant {B : Type} (stage : Stage B)
    (hsym : ∀ a b, stage.geometry.intersects a b = stage.geometry.intersects b a)
    (hdebug : stage.debugSettings.skipSymbolsIntersectionCheck = false)
    (layers : List (List RenderableSymbol)) :
    (plotLayers stage layers).intersections.entries.Pairwise
      (fun a b => a.1.groupPtr ≠ b.1.groupPtr →
        isSet a.1.intersectionModeFlags .IgnoredByIntersectionTest = false →
        isSet b.1.intersectionModeFlags .IgnoredByIntersectionTest = false →
        stage.geometry.intersects a.2 b.2 = false ∧ stage.geometry.intersects b.2 a.2 = false) := by
  apply plotLayers_index_induction stage
    (fun tree => tree.entries.Pairwise
      (fun a b => a.1.groupPtr ≠ b.1.groupPtr →
        isSet a.1.intersectionModeFlags .IgnoredByIntersectionTest = false →
        isSet b.1.intersectionModeFlags .IgnoredByIntersectionTest = false →
        stage.geometry.intersects a.2 b.2 = false ∧ stage.geometry.intersects b.2 a.2 = false))
  · exact List.Pairwise.nil
  · intro tree r hQ
    rcases plotRenderable_entries stage r tree with h | ⟨box, h, hpass⟩
    · rw [h]; exact hQ
    · rw [h]
      apply List.pairwise_append.mpr
      refine ⟨hQ, List.pairwise_singleton _ _, ?_⟩
      intro a ha b hb hne _ hbI
      simp only [List.mem_singleton] at hb
      subst hb
      rcases (applyIntersection_true_iff stage box r.mapSymbol tree).mp hpass with h1 | h1 | h1
      · simp only at hbI
        rw [hbI] at h1
        exact absurd h1 Bool.false_ne_true
      · rw [hdebug] at h1
        exact absurd h1 Bool.false_ne_true
      · have := h1 a ha hne
        exact ⟨by rw [hsym]; exact this, this⟩

/-- C7 on a scene: four billboards of two groups are plotted from an empty index,
two of them in the same column; the committed boxes of different groups do not
overlap. -/
theorem C7_witness :
    ((plotLayers (sceneStage (sceneLock [])) captionBlockedLayers).intersections.entries.map
        (fun e => e.1.id)) = [90, 1, 2]
    ∧ (plotLayers (sceneStage (sceneLock [])) captionBlockedLayers).intersections.entries.Pairwise
      (fun a b => a.1.groupPtr ≠ b.1.groupPtr →
        isSet a.1.intersectionModeFlags .IgnoredByIntersectionTest = false →
        isSet b.1.intersectionModeFlags .IgnoredByIntersectionTest = false →
        areaGeometry.intersects a.2 b.2 = false ∧ areaGeometry.intersects b.2 a.2 = false) :=
  ⟨by decide,
    C7_occupancy_invariant (sceneStage (sceneLock [])) AreaI.intersects_comm rfl
      captionBlockedLayers⟩

theorem applyMinDistance_true_of {B : Type} (stage : Stage B) (box : B) (symbol : MapSymbol)
    (tree : IntersectionsQuadTree B)
    (hmin : ∀ e ∈ tree.entries,
      stage.geometry.intersects (stage.geometry.getEnlargedBy box symbol.minDistance) e.2 = true →
      e.1.groupPtr = symbol.groupPtr) :
    applyMinDistanceToSameContentFromOtherSymbolFiltering stage box symbol tree = true := by
  unfold applyMinDistanceToSameContentFromOtherSymbolFiltering IntersectionsQuadTree.test
  dsimp only
  have hany : (tree.entries.any (fun e =>
      (if (!e.1.cls.isRaster) = true then false
        else (e.1.groupPtr != symbol.groupPtr) && (e.1.content == symbol.content))
      && stage.geometry.intersects (stage.geometry.getEnlargedBy box symbol.minDistance) e.2))
      = false := by
    apply Bool.eq_false_iff.mpr
    intro hh
    obtain ⟨e, he, hb⟩ := List.any_eq_true.mp hh
    simp only [Bool.and_eq_true] at hb
    have hgrp := hmin e he hb.2
    have h1 := hb.1
    by_cases hr : (!e.1.cls.isRaster) = true
    · rw [if_pos hr] at h1
      exact Bool.false_ne_true h1
    · rw [if_neg hr] at h1
      simp only [Bool.and_eq_true, bne_iff_ne] at h1
      exact h1.1 hgrp
  rw [hany]
  simp

/-- C8 as stated fails on the code, at two scenes. First scene: a shield of group
1 with content "A" and minimal distance (5, 5) stands in column 0; the index holds
a shield of group 9 with the same content in column 1. No committed entry
overlaps the box of the symbol, the intersection filter passes, yet the
min-distance filter refuses the symbol, which is not plotted. Second scene: a
symbol of group 1 with TransparentForIntersectionLookup stands in column 0 over
an entry of its own group: it is plotted but not committed. -/
theorem C8_counterexample :
    (∀ e ∈ shieldIndex.entries,
        areaGeometry.intersects
          (sceneBox (sceneBillboard (flaggedSymbol 1 1 [] (some "A") { x := 5, y := 5 }) 0)) e.2
          = true →
        e.1.groupPtr = (flaggedSymbol 1 1 [] (some "A") { x := 5, y := 5 }).groupPtr)
    ∧ applyIntersectionWithOtherSymbolsFiltering (sceneStage (sceneLock []))
        (sceneBox (sceneBillboard (flaggedSymbol 1 1 [] (some "A") { x := 5, y := 5 }) 0))
        (flaggedSymbol 1 1 [] (some "A") { x := 5, y := 5 }) shieldIndex = true
    ∧ applyMinDistanceToSameContentFromOtherSymbolFiltering (sceneStage (sceneLock []))
        (sceneBox (sceneBillboard (flaggedSymbol 1 1 [] (some "A") { x := 5, y := 5 }) 0))
        (flaggedSymbol 1 1 [] (some "A") { x := 5, y := 5 }) shieldIndex = false
    ∧ (plotBillboardRasterSymbol (sceneStage (sceneLock []))
        (sceneBillboard (flaggedSymbol 1 1 [] (some "A") { x := 5, y := 5 }) 0) shieldIndex).1
        = false
    ∧ (∀ e ∈ ownIndex.entries,
        areaGeometry.intersects
          (sceneBox (sceneBillboard
            (flaggedSymbol 1 1 [.TransparentForIntersectionLookup] none { x := 0, y := 0 }) 0)) e.2
          = true →
        e.1.groupPtr
          = (flaggedSymbol 1 1 [.TransparentForIntersectionLookup] none { x := 0, y := 0 }).groupPtr)
    ∧ (plotBillboardRasterSymbol (sceneStage (sceneLock []))
        (sceneBillboard
          (flaggedSymbol 1 1 [.TransparentForIntersectionLookup] none { x := 0, y := 0 }) 0)
        ownIndex).1 = true
    ∧ (plotBillboardRasterSymbol (sceneStage (sceneLock []))
        (sceneBillboard
          (flaggedSymbol 1 1 [.TransparentForIntersectionLookup] none { x := 0, y := 0 }) 0)
        ownIndex).2.entries = ownIndex.entries := by
  decide

/-- C8, amended. Same-group exemption: for every box and symbol and every index
state in which all committed entries overlapping the box, and all those
overlapping the box enlarged by the minimal distance of the symbol, belong to the
group of the symbol (same groupPtr), both filters pass; a raster billboard
renderable, and an on-path renderable, with that symbol and box is then plotted,
and it is committed behind the entries of the index unless the symbol has
TransparentForIntersectionLookup set (or the debug setting
allSymbolsTransparentForIntersectionLookup is on), in which case the index is
unchanged. -/
theorem C8_same_group_exemption {B : Type} (stage : Stage B) (box : B) (symbol : MapSymbol)
    (tree : IntersectionsQuadTree B)
    (hbox : ∀ e ∈ tree.entries, stage.geometry.intersects box e.2 = true →
      e.1.groupPtr = symbol.groupPtr)
    (hmin : ∀ e ∈ tree.entries,
      stage.geometry.intersects (stage.geometry.getEnlargedBy box symbol.minDistance) e.2 = true →
      e.1.groupPtr = symbol.groupPtr) :
    applyIntersectionWithOtherSymbolsFiltering stage box symbol tree = true
    ∧ applyMinDistanceToSameContentFromOtherSymbolFiltering stage box symbol tree = true
    ∧ (∀ r : RenderableSymbol, r.mapSymbol = symbol → stage.boundsInWindow r = box →
        plotBillboardRasterSymbol stage r tree
          = (true,
              if (!isSet symbol.intersectionModeFlags .TransparentForIntersectionLookup
                  && !stage.debugSettings.allSymbolsTransparentForIntersectionLookup) = true then
                { entries := tree.entries ++ [(symbol, box)] }
              else tree))
    ∧ (∀ r : RenderableSymbol, r.mapSymbol = symbol →
        (if r.is2D then stage.calculateOnPath2dOOBB r else stage.calculateOnPath3dOOBB r) = box →
        plotOnPathSymbol stage r tree
          = (true,
              if (!isSet symbol.intersectionModeFlags .TransparentForIntersectionLookup
                  && !stage.debugSettings.allSymbolsTransparentForIntersectionLookup) = true then
                { entries := tree.entries ++ [(symbol, box)] }
              else tree)) := by
  have h1 : applyIntersectionWithOtherSymbolsFiltering stage box symbol tree = true := by
    apply (applyIntersection_true_iff stage box symbol tree).mpr
    right; right
    intro e he hne
    apply Bool.eq_false_iff.mpr
    intro hi
    exact hne (hbox e he hi)
  have h2 := applyMinDistance_true_of stage box symbol tree hmin
  refine ⟨h1, h2, ?_, ?_⟩
  · intro r hr hb
    rw [plotBillboardRasterSymbol_eq, hr, hb, if_pos ⟨h1, h2⟩, plotSymbol_entries]
    split_ifs <;> rfl
  · intro r hr hb
    rw [plotOnPathSymbol_eq, hr, hb, if_pos ⟨h1, h2⟩, plotSymbol_entries]
    split_ifs <;> rfl

/-- C8, amended, on a scene: the icon of group 1 stands in column 0 over the
committed box of a caption of its own group; it is plotted and committed behind
it. -/
theorem C8_witness :
    areaGeometry.intersects (sceneBox (sceneBillboard (sceneSymbol 1 1 .Icon) 0))
        (sceneBox (sceneBillboard (sceneSymbol 2 1 .Caption) 0)) = true
    ∧ plotBillboardRasterSymbol (sceneStage (sceneLock []))
        (sceneBillboard (sceneSymbol 1 1 .Icon) 0) ownIndex
      = (true, { entries := ownIndex.entries
          ++ [(sceneSymbol 1 1 .Icon, sceneBox (sceneBillboard (sceneSymbol 1 1 .Icon) 0))] }) :=
  ⟨by decide,
    (C8_same_group_exemption (sceneStage (sceneLock []))
      (sceneBox (sceneBillboard (sceneSymbol 1 1 .Icon) 0)) (sceneSymbol 1 1 .Icon) ownIndex
      (by decide) (by decide)).2.2.1 (sceneBillboard (sceneSymbol 1 1 .Icon) 0) rfl rfl⟩

theorem applyMinDistance_true_of_inapplicable {B : Type} (stage : Stage B) (box : B)
    (symbol : MapSymbol) (tree : IntersectionsQuadTree B)
    (h : (symbol.minDistance.x ≤ 0 ∧ symbol.minDistance.y ≤ 0) ∨ symbol.content = none) :
    applyMinDistanceToSameContentFromOtherSymbolFiltering stage box symbol tree = true := by
  unfold applyMinDistanceToSameContentFromOtherSymbolFiltering
  have hc : ((decide (symbol.minDistance.x ≤ 0) && decide (symbol.minDistance.y ≤ 0))
      || symbol.content.isNone) = true := by
    rcases h with ⟨hx, hy⟩ | hn
    · simp [hx, hy]
    · simp [hn]
  rw [if_pos hc]

/-- C9 as stated fails on the code. A raster billboard symbol of group 1 with
IgnoredByIntersectionTest set is plotted on an empty index: it is stored in the
index, and the symbol of group 9 plotted next in the same column is refused
because of it. And a symbol with IgnoredByIntersectionTest set, content "A" and
minimal distance (5, 5) is tested against the index by the min-distance filter
and is refused next to a shield of group 9 with the same content. -/
theorem C9_counterexample :
    isSet (flaggedSymbol 5 1 [.IgnoredByIntersectionTest] none { x := 0, y := 0 }).intersectionModeFlags
        .IgnoredByIntersectionTest = true
    ∧ (plotRenderable (sceneStage (sceneLock []))
        (sceneBillboard (flaggedSymbol 5 1 [.IgnoredByIntersectionTest] none { x := 0, y := 0 }) 0)
        { entries := [] }).1 = true
    ∧ (plotRenderable (sceneStage (sceneLock []))
        (sceneBillboard (flaggedSymbol 5 1 [.IgnoredByIntersectionTest] none { x := 0, y := 0 }) 0)
        { entries := [] }).2.entries
        = [(flaggedSymbol 5 1 [.IgnoredByIntersectionTest] none { x := 0, y := 0 },
            sceneBox (sceneBillboard
              (flaggedSymbol 5 1 [.IgnoredByIntersectionTest] none { x := 0, y := 0 }) 0))]
    ∧ (plotRenderable (sceneStage (sceneLock [])) (sceneBillboard (sceneSymbol 90 9 .Other) 0)
        { entries := [] }).1 = true
    ∧ (plotRenderable (sceneStage (sceneLock [])) (sceneBillboard (sceneSymbol 90 9 .Other) 0)
        (plotRenderable (sceneStage (sceneLock []))
          (sceneBillboard (flaggedSymbol 5 1 [.IgnoredByIntersectionTest] none { x := 0, y := 0 }) 0)
          { entries := [] }).2).1 = false
    ∧ (plotRenderable (sceneStage (sceneLock []))
        (sceneBillboard
          (flaggedSymbol 5 1 [.IgnoredByIntersectionTest] (some "A") { x := 5, y := 5 }) 0)
        shieldIndex).1 = false := by
  decide

/-- C9, amended. A symbol with IgnoredByIntersectionTest set, whatever its other
flags, passes `applyIntersectionWithOtherSymbolsFiltering` for every box and
index, without a test; plotting a renderable whose symbol has
TransparentForIntersectionLookup set, whatever its other flags, leaves the index
unchanged; and a renderable whose symbol has both flags set is plotted whenever
no min-distance check applies to the symbol (minimal distance not positive in
both axes, or null content) and it is not a billboard with a vector symbol. -/
theorem C9_opted_out_symbol {B : Type} (stage : Stage B) (r : RenderableSymbol)
    (tree : IntersectionsQuadTree B) :
    (isSet r.mapSymbol.intersectionModeFlags .IgnoredByIntersectionTest = true →
      ∀ box, applyIntersectionWithOtherSymbolsFiltering stage box r.mapSymbol tree = true)
    ∧ (isSet r.mapSymbol.intersectionModeFlags .TransparentForIntersectionLookup = true →
        (plotRenderable stage r tree).2 = tree)
    ∧ (isSet r.mapSymbol.intersectionModeFlags .IgnoredByIntersectionTest = true →
        isSet r.mapSymbol.intersectionModeFlags .TransparentForIntersectionLookup = true →
        ((r.mapSymbol.minDistance.x ≤ 0 ∧ r.mapSymbol.minDistance.y ≤ 0)
          ∨ r.mapSymbol.content = none) →
        (r.kind = .Billboard → r.mapSymbol.cls.isRaster = true) →
        plotRenderable stage r tree = (true, tree)) := by
  have hfilter : isSet r.mapSymbol.intersectionModeFlags .IgnoredByIntersectionTest = true →
      ∀ box, applyIntersectionWithOtherSymbolsFiltering stage box r.mapSymbol tree = true :=
    fun hignored box =>
      (applyIntersection_true_iff stage box r.mapSymbol tree).mpr (Or.inl hignored)
  have hplot : isSet r.mapSymbol.intersectionModeFlags .TransparentForIntersectionLookup = true →
      ∀ box, plotSymbol stage box r.mapSymbol tree = (true, tree) := by
    intro htransparent box
    rw [plotSymbol_entries, htransparent]
    rfl
  have hsurface : plotOnSurfaceSymbol stage r tree = (true, tree) := by
    unfold plotOnSurfaceSymbol plotOnSurfaceRasterSymbol plotOnSurfaceVectorSymbol
    cases r.mapSymbol.cls <;> rfl
  refine ⟨hfilter, ?_, ?_⟩
  · intro htransparent
    unfold plotRenderable
    cases r.kind with
    | Billboard =>
      dsimp only
      unfold plotBillboardSymbol plotBillboardVectorSymbol
      rw [plotBillboardRasterSymbol_eq, hplot htransparent]
      split_ifs <;> rfl
    | OnPath =>
      dsimp only
      rw [plotOnPathSymbol_eq, hplot htransparent]
      split_ifs <;> rfl
    | OnSurface =>
      dsimp only
      rw [hsurface]
  · intro hignored htransparent hmin hcls
    unfold plotRenderable
    cases hk : r.kind with
    | Billboard =>
      dsimp only
      unfold plotBillboardSymbol
      rw [if_pos (hcls hk), plotBillboardRasterSymbol_eq, hplot htransparent,
        if_pos ⟨hfilter hignored _,
          applyMinDistance_true_of_inapplicable stage _ _ tree hmin⟩]
    | OnPath =>
      dsimp only
      rw [plotOnPathSymbol_eq, hplot htransparent,
        if_pos ⟨hfilter hignored _,
          applyMinDistance_true_of_inapplicable stage _ _ tree hmin⟩]
    | OnSurface =>
      dsimp only
      exact hsurface

/-- C9, amended, on three scenes with the committed box of group 9 in column 0. A
symbol of group 1 with only IgnoredByIntersectionTest, in column 0, passes the
intersection filter. A symbol of group 1 with only
TransparentForIntersectionLookup, in the free column 3, is plotted and the index
is unchanged. A symbol of group 1 with both flags, in column 0, is plotted and
the index is unchanged. -/
theorem C9_witness :
    applyIntersectionWithOtherSymbolsFiltering (sceneStage (sceneLock []))
        (sceneBox (sceneBillboard
          (flaggedSymbol 5 1 [.IgnoredByIntersectionTest] none { x := 0, y := 0 }) 0))
        (flaggedSymbol 5 1 [.IgnoredByIntersectionTest] none { x := 0, y := 0 }) occupiedIndex
      = true
    ∧ (plotRenderable (sceneStage (sceneLock []))
        (sceneBillboard
          (flaggedSymbol 6 1 [.TransparentForIntersectionLookup] none { x := 0, y := 0 }) 3)
        occupiedIndex).1 = true
    ∧ (plotRenderable (sceneStage (sceneLock []))
        (sceneBillboard
          (flaggedSymbol 6 1 [.TransparentForIntersectionLookup] none { x := 0, y := 0 }) 3)
        occupiedIndex).2 = occupiedIndex
    ∧ plotRenderable (sceneStage (sceneLock []))
        (sceneBillboard (flaggedSymbol 5 1
          [.IgnoredByIntersectionTest, .TransparentForIntersectionLookup] none { x := 0, y := 0 }) 0)
        occupiedIndex
      = (true, occupiedIndex) :=
  ⟨(C9_opted_out_symbol (sceneStage (sceneLock []))
      (sceneBillboard
        (flaggedSymbol 5 1 [.IgnoredByIntersectionTest] none { x := 0, y := 0 }) 0)
      occupiedIndex).1 (by decide) _,
    by decide,
    (C9_opted_out_symbol (sceneStage (sceneLock []))
      (sceneBillboard
        (flaggedSymbol 6 1 [.TransparentForIntersectionLookup] none { x := 0, y := 0 }) 3)
      occupiedIndex).2.1 (by decide),
    (C9_opted_out_symbol (sceneStage (sceneLock []))
      (sceneBillboard (flaggedSymbol 5 1
        [.IgnoredByIntersectionTest, .TransparentForIntersectionLookup] none { x := 0, y := 0 }) 0)
      occupiedIndex).2.2 (by decide) (by decide) (Or.inr rfl) (fun _ => rfl)⟩

/-- C10, the code at the failing input: the index holds the box of group 9 in
column 0; an on-surface raster renderable of group 1 with its footprint in
column 0, which overlaps that box, is plotted: `plotOnSurfaceSymbol` returns
true and leaves the index as it is. -/
theorem C10_onSurface_plotted_over_other_group :
    (∃ e ∈ occupiedIndex.entries,
        e.1.groupPtr ≠ (surfaceSymbol 1 1).groupPtr
        ∧ areaGeometry.intersects (sceneBox (sceneSurface (surfaceSymbol 1 1) 0)) e.2 = true)
    ∧ (plotOnSurfaceSymbol (sceneStage (sceneLock [])) (sceneSurface (surfaceSymbol 1 1) 0)
        occupiedIndex).1 = true
    ∧ (plotOnSurfaceSymbol (sceneStage (sceneLock [])) (sceneSurface (surfaceSymbol 1 1) 0)
        occupiedIndex).2.entries = occupiedIndex.entries := by
  decide

/-! ## Lemmas: capture of GPU resources -/

theorem captureFrom_cons (mapSymbol : MapSymbol) (index : Nat) (resource : MapRendererResource)
    (rest : List MapRendererResource) :
    captureFrom mapSymbol index (resource :: rest)
      = if resource.state = .Uploaded then
          if (fetchedFrom resource mapSymbol).isSome = true then
            { gpuResource := fetchedFrom resource mapSymbol
              resources := resource :: rest
              writes := claimAndRelease index }
          else
            { gpuResource := (captureFrom mapSymbol (index + 1) rest).gpuResource
              resources := resource :: (captureFrom mapSymbol (index + 1) rest).resources
              writes := claimAndRelease index ++ (captureFrom mapSymbol (index + 1) rest).writes }
        else
          { gpuResource := (captureFrom mapSymbol (index + 1) rest).gpuResource
            resources := resource :: (captureFrom mapSymbol (index + 1) rest).resources
            writes := (captureFrom mapSymbol (index + 1) rest).writes } := by
  obtain ⟨state, cls, gpuResources⟩ := resource
  by_cases hs : state = .Uploaded
  · subst hs
    simp only [captureFrom, MapRendererResource.setStateIf, MapRendererResource.setState,
      if_true]
    have hf : (match cls with
        | .Tiled => MapRendererResource.getGpuResourceFor
            { state := .IsBeingUsed, cls := cls, gpuResources := gpuResources } mapSymbol
        | .Keyed => MapRendererResource.getGpuResourceFor
            { state := .IsBeingUsed, cls := cls, gpuResources := gpuResources } mapSymbol
        | .Other => none)
        = fetchedFrom { state := .Uploaded, cls := cls, gpuResources := gpuResources }
            mapSymbol := by
      cases cls <;> rfl
    rw [hf]
    split_ifs <;> rfl
  · simp only [captureFrom, MapRendererResource.setStateIf, hs, if_false]

theorem captureFrom_gpuResource (mapSymbol : MapSymbol) (resources : List MapRendererResource) :
    ∀ index, (captureFrom mapSymbol index resources).gpuResource
      = resources.findSome?
          (fun resource =>
            if resource.state = .Uploaded then fetchedFrom resource mapSymbol else none) := by
  induction resources with
  | nil => intro index; rfl
  | cons resource rest ih =>
    intro index
    rw [captureFrom_cons, List.findSome?_cons]
    by_cases hs : resource.state = .Uploaded
    · rw [if_pos hs]
      simp only [hs, if_true]
      cases hf : fetchedFrom resource mapSymbol with
      | none => simp [ih]
      | some gpu => simp
    · rw [if_neg hs]
      simp only [hs, if_false]
      exact ih _

theorem captureFrom_resources (mapSymbol : MapSymbol) (resources : List MapRendererResource) :
    ∀ index, (captureFrom mapSymbol index resources).resources = resources := by
  induction resources with
  | nil => intro index; rfl
  | cons resource rest ih =>
    intro index
    rw [captureFrom_cons]
    split_ifs <;> simp [ih]

/-- The writes of a capture are claims, each followed by its release, on holders
that were in state Uploaded and that no Uploaded holder giving a resource
precedes. -/
theorem captureFrom_writes (mapSymbol : MapSymbol) (resources : List MapRendererResource) :
    ∀ index, ∃ claimed : List Nat,
      (captureFrom mapSymbol index resources).writes = claimed.flatMap claimAndRelease
      ∧ ∀ i ∈ claimed, index ≤ i
          ∧ (∃ resource, resources.get? (i - index) = some resource
              ∧ resource.state = .Uploaded)
          ∧ ∀ j, index ≤ j → j < i → ∀ earlier, resources.get? (j - index) = some earlier →
              earlier.state = .Uploaded → fetchedFrom earlier mapSymbol = none := by
  induction resources with
  | nil =>
    intro index
    exact ⟨[], rfl, by simp⟩
  | cons resource rest ih =>
    intro index
    obtain ⟨claimed, hw, hc⟩ := ih (index + 1)
    have hshift : ∀ i, index + 1 ≤ i →
        (resource :: rest).get? (i - index) = rest.get? (i - (index + 1)) := by
      intro i hi
      have : i - index = (i - (index + 1)) + 1 := by omega
      rw [this]
      rfl
    have hlater : ∀ i ∈ claimed, index ≤ i
        ∧ (∃ r, (resource :: rest).get? (i - index) = some r ∧ r.state = .Uploaded)
        ∧ ∀ j, index + 1 ≤ j → j < i → ∀ earlier,
            (resource :: rest).get? (j - index) = some earlier →
            earlier.state = .Uploaded → fetchedFrom earlier mapSymbol = none := by
      intro i hi
      obtain ⟨h1, ⟨r, h2, h3⟩, h4⟩ := hc i hi
      refine ⟨by omega, ⟨r, by rw [hshift i h1]; exact h2, h3⟩, ?_⟩
      intro j hj hji earlier he
      rw [hshift j hj] at he
      exact h4 j hj hji earlier he
    have hself : (resource :: rest).get? (index - index) = some resource := by simp
    rw [captureFrom_cons]
    by_cases hs : resource.state = .Uploaded
    · rw [if_pos hs]
      by_cases hf : (fetchedFrom resource mapSymbol).isSome = true
      · rw [if_pos hf]
        refine ⟨[index], by simp, ?_⟩
        intro i hi
        simp only [List.mem_singleton] at hi
        subst hi
        exact ⟨le_refl _, ⟨resource, hself, hs⟩, fun j h1 h2 => absurd h2 (by omega)⟩
      · rw [if_neg hf]
        refine ⟨index :: claimed, by simp [hw], ?_⟩
        intro i hi
        rcases List.mem_cons.mp hi with hi | hi
        · subst hi
          exact ⟨le_refl _, ⟨resource, hself, hs⟩, fun j h1 h2 => absurd h2 (by omega)⟩
        · obtain ⟨h1, h2, h3⟩ := hlater i hi
          refine ⟨h1, h2, ?_⟩
          intro j hj hji earlier he hu
          by_cases hjj : j = index
          · subst hjj
            rw [hself] at he
            cases he
            simpa using hf
          · exact h3 j (by omega) hji earlier he hu
    · rw [if_neg hs]
      refine ⟨claimed, hw, ?_⟩
      intro i hi
      obtain ⟨h1, h2, h3⟩ := hlater i hi
      refine ⟨h1, h2, ?_⟩
      intro j hj hji earlier he hu
      by_cases hjj : j = index
      · subst hjj
        rw [hself] at he
        cases he
        exact absurd hu hs
      · exact h3 j (by omega) hji earlier he hu

/-- C18. The result of `captureGpuResource` is the GPU resource given by the first
holder, in list order, that is in state Uploaded and gives one for the symbol
(holders in another state are passed over); it is null exactly when no holder in
state Uploaded gives a resource for the symbol. -/
theorem C18_captureGpuResource_first_uploaded (resources : List MapRendererResource)
    (mapSymbol : MapSymbol) :
    (captureGpuResource resources mapSymbol).gpuResource
        = resources.findSome?
            (fun resource =>
              if resource.state = .Uploaded then fetchedFrom resource mapSymbol else none)
    ∧ ((captureGpuResource resources mapSymbol).gpuResource = none
        ↔ ∀ resource ∈ resources, resource.state = .Uploaded →
            fetchedFrom resource mapSymbol = none) := by
  have h := captureFrom_gpuResource mapSymbol resources 0
  refine ⟨h, ?_⟩
  unfold captureGpuResource
  rw [h, List.findSome?_eq_none_iff]
  constructor
  · intro hall resource hr hs
    have := hall resource hr
    rwa [if_pos hs] at this
  · intro hall resource hr
    by_cases hs : resource.state = .Uploaded
    · rw [if_pos hs]
      exact hall resource hr hs
    · rw [if_neg hs]

/-- C19. After `captureGpuResource` every holder is in the state it had before the
call. The states written are claims to IsBeingUsed, each followed at once by the
release to Uploaded of the same holder; only holders that were in state Uploaded
are written, and none that stands behind an Uploaded holder that gave a
resource. -/
theorem C19_captureGpuResource_restores_states (resources : List MapRendererResource)
    (mapSymbol : MapSymbol) :
    (captureGpuResource resources mapSymbol).resources = resources
    ∧ ∃ claimed : List Nat,
        (captureGpuResource resources mapSymbol).writes = claimed.flatMap claimAndRelease
        ∧ ∀ i ∈ claimed,
            (∃ resource, resources.get? i = some resource ∧ resource.state = .Uploaded)
            ∧ ∀ j, j < i → ∀ earlier, resources.get? j = some earlier →
                earlier.state = .Uploaded → fetchedFrom earlier mapSymbol = none := by
  refine ⟨captureFrom_resources mapSymbol resources 0, ?_⟩
  obtain ⟨claimed, hw, hc⟩ := captureFrom_writes mapSymbol resources 0
  refine ⟨claimed, hw, ?_⟩
  intro i hi
  obtain ⟨_, h2, h3⟩ := hc i hi
  exact ⟨h2, fun j hj => h3 j (Nat.zero_le _) hj⟩

/-- C16, the code at the failing input: an on-path symbol of width 4 on the
horizontal path with vertices at 0, 10 and 20 pixels, the camera at the first
vertex. The producer fits one instance, to the subpath from vertex 0 to vertex 1,
whose vertices are at distances 0 and 10 from the camera; the camera distance
that `computeDistanceBetweenCameraToPath` gives for it is 20, the distance of
vertex 2, which is not in the subpath. -/
theorem C16_distance_taken_over_whole_path :
    ((obtainRenderablesFromOnPathSymbols sceneInternalState pathLock
        [(pathSymbol 1 4 straightPath, [sceneHolder .Uploaded [1]])] []).fitted.map
        (fun r => (r.subpathStartIndex, r.subpathEndIndex, r.distanceToCamera))) = [(0, 1, 20)]
    ∧ (((convertPoints31ToWorld sceneInternalState straightPath).take 2).map
        sceneInternalState.distanceToCamera) = [0, 10]
    ∧ computeDistanceBetweenCameraToPath sceneInternalState
        (convertPoints31ToWorld sceneInternalState straightPath) 0 1 = 20 := by
  decide!

/-! ## Lemmas: the sorted renderables -/

theorem mem_multiMapInsert {V : Type} (map : List (ℚ × V)) (key : ℚ) (value : V)
    (e : ℚ × V) : e ∈ multiMapInsert map key value ↔ e = (key, value) ∨ e ∈ map := by
  induction map with
  | nil => simp [multiMapInsert]
  | cons head rest ih =>
    obtain ⟨k, v⟩ := head
    unfold multiMapInsert
    split_ifs
    · simp only [List.mem_cons, ih]
      tauto
    · simp only [List.mem_cons]

theorem multiMapInsert_sorted {V : Type} (map : List (ℚ × V)) (key : ℚ) (value : V)
    (h : (map.map Prod.fst).Pairwise (· ≤ ·)) :
    ((multiMapInsert map key value).map Prod.fst).Pairwise (· ≤ ·) := by
  induction map with
  | nil => simp [multiMapInsert]
  | cons head rest ih =>
    obtain ⟨k, v⟩ := head
    simp only [List.map_cons, List.pairwise_cons] at h
    unfold multiMapInsert
    split_ifs with hk
    · simp only [List.map_cons, List.pairwise_cons]
      refine ⟨?_, ih h.2⟩
      intro a ha
      obtain ⟨e, he, rfl⟩ := List.mem_map.mp ha
      rcases (mem_multiMapInsert rest key value e).mp he with he | he
      · rw [he]
        exact le_of_lt hk
      · exact h.1 _ (List.mem_map_of_mem Prod.fst he)
    · have hle : key ≤ k := not_lt.mp hk
      simp only [List.map_cons, List.pairwise_cons]
      refine ⟨?_, h⟩
      intro a ha
      rcases List.mem_cons.mp ha with ha | ha
      · rw [ha]
        exact hle
      · exact le_trans hle (h.1 a ha)

theorem insertRenderables_sorted (renderables output : List (ℚ × RenderableSymbol))
    (h : (output.map Prod.fst).Pairwise (· ≤ ·)) :
    ((insertRenderables renderables output).map Prod.fst).Pairwise (· ≤ ·) := by
  unfold insertRenderables
  induction renderables generalizing output with
  | nil => exact h
  | cons e es ih => exact ih _ (multiMapInsert_sorted output e.1 e.2 h)

theorem sortRenderablesFromOnPathSymbols_sorted (entries : List RenderableOnPathSymbol)
    (output : List (ℚ × RenderableSymbol)) (h : (output.map Prod.fst).Pairwise (· ≤ ·)) :
    ((sortRenderablesFromOnPathSymbols entries output).map Prod.fst).Pairwise (· ≤ ·) := by
  unfold sortRenderablesFromOnPathSymbols
  induction entries generalizing output with
  | nil => exact h
  | cons e es ih => exact ih _ (multiMapInsert_sorted output _ _ h)

theorem sortedRenderablesOfLayer_sorted (debugSettings : DebugSettings)
    (internalState : InternalState) (lock : Nat → Option MapSymbolsGroup)
    (publishedMapSymbols : List (MapSymbol × List MapRendererResource))
    (billboards onSurface : List (ℚ × RenderableSymbol)) :
    ((sortedRenderablesOfLayer debugSettings internalState lock publishedMapSymbols billboards
        onSurface).map Prod.fst).Pairwise (· ≤ ·) := by
  unfold sortedRenderablesOfLayer processOnPathSymbols
  dsimp only
  have h0 : (([] : List (ℚ × RenderableSymbol)).map Prod.fst).Pairwise (· ≤ ·) :=
    List.Pairwise.nil
  have h1 : ((if (!debugSettings.excludeOnPathSymbolsFromProcessing) = true then
        sortRenderablesFromOnPathSymbols
          (obtainRenderablesFromOnPathSymbols internalState lock publishedMapSymbols []).output []
      else []).map Prod.fst).Pairwise (· ≤ ·) := by
    split_ifs
    · exact sortRenderablesFromOnPathSymbols_sorted _ _ h0
    · exact h0
  have h2 : ((if (!debugSettings.excludeBillboardSymbolsFromProcessing) = true then
        insertRenderables billboards
          (if (!debugSettings.excludeOnPathSymbolsFromProcessing) = true then
            sortRenderablesFromOnPathSymbols
              (obtainRenderablesFromOnPathSymbols internalState lock publishedMapSymbols
                []).output []
          else [])
      else
        (if (!debugSettings.excludeOnPathSymbolsFromProcessing) = true then
          sortRenderablesFromOnPathSymbols
            (obtainRenderablesFromOnPathSymbols internalState lock publishedMapSymbols
              []).output []
        else [])).map Prod.fst).Pairwise (· ≤ ·) := by
    split_ifs at h1 ⊢
    all_goals first
      | exact insertRenderables_sorted _ _ h1
      | exact h1
  split_ifs at h2 ⊢
  all_goals first
    | exact insertRenderables_sorted _ _ h2
    | exact h2

/-- C11. Within one layer the plotting loop visits the renderables that the three
producers put into `sortedRenderables` in non-increasing order of their keys
(farthest first); it plots them in that order; and a renderable whose key is
smaller than the key of every other one is visited last, whatever the order of
the inserts. -/
theorem C11_plotted_in_descending_distance {B : Type} (stage : Stage B) (st : PlotState B)
    (internalState : InternalState) (lock : Nat → Option MapSymbolsGroup)
    (publishedMapSymbols : List (MapSymbol × List MapRendererResource))
    (billboards onSurface : List (ℚ × RenderableSymbol)) :
    ((plotOrder (sortedRenderablesOfLayer stage.debugSettings internalState lock
        publishedMapSymbols billboards onSurface)).map Prod.fst).Pairwise (· ≥ ·)
    ∧ plotLayer stage st
        ((sortedRenderablesOfLayer stage.debugSettings internalState lock publishedMapSymbols
          billboards onSurface).map Prod.snd)
      = ((plotOrder (sortedRenderablesOfLayer stage.debugSettings internalState lock
          publishedMapSymbols billboards onSurface)).map Prod.snd).foldl (plotStep stage) st
    ∧ ∀ nearest ∈ sortedRenderablesOfLayer stage.debugSettings internalState lock
          publishedMapSymbols billboards onSurface,
        (∀ other ∈ sortedRenderablesOfLayer stage.debugSettings internalState lock
            publishedMapSymbols billboards onSurface,
          other ≠ nearest → nearest.1 < other.1) →
        (plotOrder (sortedRenderablesOfLayer stage.debugSettings internalState lock
          publishedMapSymbols billboards onSurface)).getLast? = some nearest := by
  have hs := sortedRenderablesOfLayer_sorted stage.debugSettings internalState lock
    publishedMapSymbols billboards onSurface
  generalize sortedRenderablesOfLayer stage.debugSettings internalState lock
    publishedMapSymbols billboards onSurface = m at hs
  refine ⟨?_, ?_, ?_⟩
  · unfold plotOrder
    rw [List.map_reverse, List.pairwise_reverse]
    exact hs
  · unfold plotLayer plotOrder
    rw [List.map_reverse]
  · intro nearest hn hmin
    unfold plotOrder
    rw [List.getLast?_reverse]
    cases m with
    | nil => exact absurd hn (List.not_mem_nil _)
    | cons head rest =>
      simp only [List.head?_cons, Option.some.injEq]
      by_contra hne
      have hlt := hmin head (List.mem_cons_self _ _) hne
      have hrest : nearest ∈ rest := by
        rcases List.mem_cons.mp hn with h | h
        · exact absurd h.symm hne
        · exact h
      simp only [List.map_cons, List.pairwise_cons] at hs
      have hle := hs.1 nearest.1 (List.mem_map_of_mem Prod.fst hrest)
      exact absurd hlt (not_lt.mpr hle)

/-- C11, the example of the claim: three billboards at distances 5, 5 and 2 are
inserted in two orders of the two distance-5 renderables; in both, the keys are
visited as 5, 5, 2 and the distance-2 renderable is visited last. -/
theorem C11_witness :
    (plotOrder (sortedRenderablesOfLayer (sceneStage (sceneLock [])).debugSettings
        sceneInternalState pathLock []
        [(5, sceneBillboard (sceneSymbol 1 1 .Icon) 0),
          (5, sceneBillboard (sceneSymbol 2 1 .Caption) 1),
          (2, sceneBillboard (sceneSymbol 3 1 .Caption) 2)] [])).map Prod.fst = [5, 5, 2]
    ∧ (plotOrder (sortedRenderablesOfLayer (sceneStage (sceneLock [])).debugSettings
        sceneInternalState pathLock []
        [(5, sceneBillboard (sceneSymbol 1 1 .Icon) 0),
          (5, sceneBillboard (sceneSymbol 2 1 .Caption) 1),
          (2, sceneBillboard (sceneSymbol 3 1 .Caption) 2)] [])).getLast?
        = some (2, sceneBillboard (sceneSymbol 3 1 .Caption) 2)
    ∧ (plotOrder (sortedRenderablesOfLayer (sceneStage (sceneLock [])).debugSettings
        sceneInternalState pathLock []
        [(5, sceneBillboard (sceneSymbol 2 1 .Caption) 1),
          (5, sceneBillboard (sceneSymbol 1 1 .Icon) 0),
          (2, sceneBillboard (sceneSymbol 3 1 .Caption) 2)] [])).getLast?
        = some (2, sceneBillboard (sceneSymbol 3 1 .Caption) 2) :=
  ⟨by decide!,
    (C11_plotted_in_descending_distance (sceneStage (sceneLock [])) (PlotState.init AreaI)
      sceneInternalState pathLock []
      [(5, sceneBillboard (sceneSymbol 1 1 .Icon) 0),
        (5, sceneBillboard (sceneSymbol 2 1 .Caption) 1),
        (2, sceneBillboard (sceneSymbol 3 1 .Caption) 2)] []).2.2
      (2, sceneBillboard (sceneSymbol 3 1 .Caption) 2) (by decide!) (by decide!),
    (C11_plotted_in_descending_distance (sceneStage (sceneLock [])) (PlotState.init AreaI)
      sceneInternalState pathLock []
      [(5, sceneBillboard (sceneSymbol 2 1 .Caption) 1),
        (5, sceneBillboard (sceneSymbol 1 1 .Icon) 0),
        (2, sceneBillboard (sceneSymbol 3 1 .Caption) 2)] []).2.2
      (2, sceneBillboard (sceneSymbol 3 1 .Caption) 2) (by decide!) (by decide!)⟩

/-! ## Lemmas: the search for space on a path -/

theorem recalculateEntireLengthAs3D_found (internalState : InternalState)
    (pathInWorld : List Vec2) (alreadyOccupiedLength requestedLength : ℚ) :
    ∀ (count idx : Nat) (entireSegmentLength : ℚ) (found : SpaceOnPath),
      recalculateEntireLengthAs3D internalState pathInWorld alreadyOccupiedLength
          requestedLength count idx entireSegmentLength = .inl found →
      found.outLastOccupiedLengthIsIn2D = false
        ∧ idx ≤ found.outEndPointIndex ∧ found.outEndPointIndex < idx + count := by
  intro count
  induction count with
  | zero =>
    intro idx entire found h
    simp [recalculateEntireLengthAs3D] at h
  | succ count ih =>
    intro idx entire found h
    simp only [recalculateEntireLengthAs3D] at h
    split_ifs at h
    · cases h
      exact ⟨rfl, le_refl _, by simp⟩
    · obtain ⟨h1, h2, h3⟩ := ih _ _ _ h
      exact ⟨h1, by omega, by omega⟩

theorem checkSegmentFor2D_in3D (internalState : InternalState)
    (pathInWorld pathOnScreen : List Vec2) (startPointIndex testPointIndex : Nat)
    (requestedLength entireSegmentLength alreadyOccupiedLength : ℚ) :
    checkSegmentFor2D internalState pathInWorld pathOnScreen startPointIndex testPointIndex
        false requestedLength entireSegmentLength alreadyOccupiedLength
      = .inr (false, requestedLength, entireSegmentLength, alreadyOccupiedLength) := by
  simp [checkSegmentFor2D]

theorem checkSegmentFor2D_allowed (internalState : InternalState)
    (pathInWorld pathOnScreen : List Vec2) (startPointIndex testPointIndex : Nat)
    (requestedLength entireSegmentLength alreadyOccupiedLength : ℚ)
    (h : isInclineAllowedFor2D (pointAt pathOnScreen (testPointIndex - 1))
      (pointAt pathOnScreen testPointIndex) = true) :
    checkSegmentFor2D internalState pathInWorld pathOnScreen startPointIndex testPointIndex
        true requestedLength entireSegmentLength alreadyOccupiedLength
      = .inr (true, requestedLength, entireSegmentLength, alreadyOccupiedLength) := by
  simp [checkSegmentFor2D, h]

theorem checkSegmentFor2D_refused (internalState : InternalState)
    (pathInWorld pathOnScreen : List Vec2) (startPointIndex testPointIndex : Nat)
    (requestedLength entireSegmentLength alreadyOccupiedLength : ℚ)
    (h : isInclineAllowedFor2D (pointAt pathOnScreen (testPointIndex - 1))
      (pointAt pathOnScreen testPointIndex) = false) :
    checkSegmentFor2D internalState pathInWorld pathOnScreen startPointIndex testPointIndex
        true requestedLength entireSegmentLength alreadyOccupiedLength
      = match recalculateEntireLengthAs3D internalState pathInWorld
            (if alreadyOccupiedLength > 0 then
              internalState.distance (pointAt pathInWorld startPointIndex)
                  (pointAt pathInWorld (startPointIndex + 1))
                * (alreadyOccupiedLength
                  / internalState.distance (pointAt pathOnScreen startPointIndex)
                      (pointAt pathOnScreen (startPointIndex + 1)))
            else alreadyOccupiedLength)
            (requestedLength * internalState.pixelInWorldProjectionScale)
            (testPointIndex - (startPointIndex + 1)) (startPointIndex + 1) 0 with
        | .inl found => .inl found
        | .inr entire =>
          .inr (false, requestedLength * internalState.pixelInWorldProjectionScale, entire,
            (if alreadyOccupiedLength > 0 then
              internalState.distance (pointAt pathInWorld startPointIndex)
                  (pointAt pathInWorld (startPointIndex + 1))
                * (alreadyOccupiedLength
                  / internalState.distance (pointAt pathOnScreen startPointIndex)
                      (pointAt pathOnScreen (startPointIndex + 1)))
            else alreadyOccupiedLength)) := by
  simp only [checkSegmentFor2D, h, if_true, Bool.false_eq_true, if_false]

theorem checkSegmentFor2D_found (internalState : InternalState)
    (pathInWorld pathOnScreen : List Vec2) (startPointIndex testPointIndex : Nat)
    (isRenderableAs2D : Bool) (requestedLength entireSegmentLength alreadyOccupiedLength : ℚ)
    (found : SpaceOnPath)
    (h : checkSegmentFor2D internalState pathInWorld pathOnScreen startPointIndex testPointIndex
      isRenderableAs2D requestedLength entireSegmentLength alreadyOccupiedLength = .inl found) :
    found.outLastOccupiedLengthIsIn2D = false
      ∧ startPointIndex + 1 ≤ found.outEndPointIndex
      ∧ found.outEndPointIndex < startPointIndex + 1 + (testPointIndex - (startPointIndex + 1)) := by
  cases isRenderableAs2D with
  | false =>
    rw [checkSegmentFor2D_in3D] at h
    cases h
  | true =>
    cases hinc : isInclineAllowedFor2D (pointAt pathOnScreen (testPointIndex - 1))
        (pointAt pathOnScreen testPointIndex) with
    | true =>
      rw [checkSegmentFor2D_allowed _ _ _ _ _ _ _ _ hinc] at h
      cases h
    | false =>
      rw [checkSegmentFor2D_refused _ _ _ _ _ _ _ _ hinc] at h
      split at h
      · rename_i found2 heq
        cases h
        exact recalculateEntireLengthAs3D_found _ _ _ _ _ _ _ _ heq
      · cases h

theorem checkSegmentFor2D_mode (internalState : InternalState)
    (pathInWorld pathOnScreen : List Vec2) (startPointIndex testPointIndex : Nat)
    (isRenderableAs2D : Bool) (requestedLength entireSegmentLength alreadyOccupiedLength : ℚ)
    (mode : Bool) (req ent occ : ℚ)
    (h : checkSegmentFor2D internalState pathInWorld pathOnScreen startPointIndex testPointIndex
      isRenderableAs2D requestedLength entireSegmentLength alreadyOccupiedLength
      = .inr (mode, req, ent, occ))
    (hmode : mode = true) :
    isRenderableAs2D = true
      ∧ isInclineAllowedFor2D (pointAt pathOnScreen (testPointIndex - 1))
          (pointAt pathOnScreen testPointIndex) = true := by
  subst hmode
  cases isRenderableAs2D with
  | false =>
    rw [checkSegmentFor2D_in3D] at h
    simp at h
  | true =>
    cases hinc : isInclineAllowedFor2D (pointAt pathOnScreen (testPointIndex - 1))
        (pointAt pathOnScreen testPointIndex) with
    | true => exact ⟨rfl, rfl⟩
    | false =>
      rw [checkSegmentFor2D_refused _ _ _ _ _ _ _ _ hinc] at h
      split at h
      · cases h
      · simp at h

theorem walkPath_succ (internalState : InternalState) (pathInWorld pathOnScreen : List Vec2)
    (startPointIndex remaining testPointIndex : Nat) (isRenderableAs2D : Bool)
    (requestedLength entireSegmentLength alreadyOccupiedLength : ℚ) :
    walkPath internalState pathInWorld pathOnScreen startPointIndex (remaining + 1)
        testPointIndex isRenderableAs2D requestedLength entireSegmentLength alreadyOccupiedLength
      = match checkSegmentFor2D internalState pathInWorld pathOnScreen startPointIndex
          testPointIndex isRenderableAs2D requestedLength entireSegmentLength
          alreadyOccupiedLength with
        | .inl found => some found
        | .inr (mode, req, ent, occ) =>
          if ent + segmentLength internalState pathInWorld pathOnScreen mode testPointIndex
              - occ ≥ req then
            some { outEndPointIndex := testPointIndex
                   outLastOccupiedLengthIsIn2D := mode
                   outLastOccupiedLength :=
                     segmentLength internalState pathInWorld pathOnScreen mode testPointIndex
                     - (ent
                       + segmentLength internalState pathInWorld pathOnScreen mode testPointIndex
                       - occ - req) }
          else
            walkPath internalState pathInWorld pathOnScreen startPointIndex remaining
              (testPointIndex + 1) mode req
              (ent + segmentLength internalState pathInWorld pathOnScreen mode testPointIndex)
              occ := by
  rw [walkPath]
  rfl

/-- Once the mode is 3D at the head of a turn of the loop, the search can only
return in 3D. -/
theorem walkPath_stays3D (internalState : InternalState) (pathInWorld pathOnScreen : List Vec2)
    (startPointIndex : Nat) :
    ∀ (remaining testPointIndex : Nat) (req ent occ : ℚ) (found : SpaceOnPath),
      walkPath internalState pathInWorld pathOnScreen startPointIndex remaining testPointIndex
          false req ent occ = some found →
      found.outLastOccupiedLengthIsIn2D = false := by
  intro remaining
  induction remaining with
  | zero =>
    intro t req ent occ found h
    simp [walkPath] at h
  | succ remaining ih =>
    intro t req ent occ found h
    rw [walkPath_succ, checkSegmentFor2D_in3D] at h
    dsimp only at h
    split_ifs at h
    · cases h
      rfl
    · exact ih _ _ _ _ _ h

/-- A return in 2D means that the search started in 2D and that every segment
walked passed the incline test. -/
theorem walkPath_found2D (internalState : InternalState) (pathInWorld pathOnScreen : List Vec2)
    (startPointIndex : Nat) :
    ∀ (remaining testPointIndex : Nat) (isRenderableAs2D : Bool) (req ent occ : ℚ)
      (found : SpaceOnPath),
      walkPath internalState pathInWorld pathOnScreen startPointIndex remaining testPointIndex
          isRenderableAs2D req ent occ = some found →
      found.outLastOccupiedLengthIsIn2D = true →
      isRenderableAs2D = true
        ∧ ∀ i, testPointIndex ≤ i → i ≤ found.outEndPointIndex →
            isInclineAllowedFor2D (pointAt pathOnScreen (i - 1)) (pointAt pathOnScreen i)
              = true := by
  intro remaining
  induction remaining with
  | zero =>
    intro t m req ent occ found h
    simp [walkPath] at h
  | succ remaining ih =>
    intro t m req ent occ found h h2D
    rw [walkPath_succ] at h
    split at h
    · rename_i found2 hcheck
      cases h
      have := (checkSegmentFor2D_found _ _ _ _ _ _ _ _ _ _ hcheck).1
      rw [this] at h2D
      exact absurd h2D Bool.false_ne_true
    · rename_i mode req2 ent2 occ2 hcheck
      split_ifs at h
      · cases h
        simp only at h2D
        obtain ⟨hm, hinc⟩ := checkSegmentFor2D_mode _ _ _ _ _ _ _ _ _ _ _ _ _ hcheck h2D
        refine ⟨hm, ?_⟩
        intro i hi1 hi2
        have : i = t := le_antisymm hi2 hi1
        rw [this]
        exact hinc
      · obtain ⟨hmode, hall⟩ := ih _ _ _ _ _ _ h h2D
        obtain ⟨hm, hinc⟩ := checkSegmentFor2D_mode _ _ _ _ _ _ _ _ _ _ _ _ _ hcheck hmode
        refine ⟨hm, ?_⟩
        intro i hi1 hi2
        by_cases hit : i = t
        · rw [hit]
          exact hinc
        · exact hall i (by omega) hi2

/-- The vertex at which a search ends lies behind its start and on the path. -/
theorem walkPath_bounds (internalState : InternalState) (pathInWorld pathOnScreen : List Vec2)
    (startPointIndex : Nat) :
    ∀ (remaining testPointIndex : Nat) (isRenderableAs2D : Bool) (req ent occ : ℚ)
      (found : SpaceOnPath),
      startPointIndex + 1 ≤ testPointIndex →
      walkPath internalState pathInWorld pathOnScreen startPointIndex remaining testPointIndex
          isRenderableAs2D req ent occ = some found →
      startPointIndex + 1 ≤ found.outEndPointIndex
        ∧ found.outEndPointIndex < testPointIndex + remaining := by
  intro remaining
  induction remaining with
  | zero =>
    intro t m req ent occ found _ h
    simp [walkPath] at h
  | succ remaining ih =>
    intro t m req ent occ found ht h
    rw [walkPath_succ] at h
    split at h
    · rename_i found2 hcheck
      cases h
      obtain ⟨_, h1, h2⟩ := checkSegmentFor2D_found _ _ _ _ _ _ _ _ _ _ hcheck
      exact ⟨h1, by omega⟩
    · split_ifs at h
      · cases h
        exact ⟨ht, by simp⟩
      · obtain ⟨h1, h2⟩ := ih _ _ _ _ _ _ (by omega) h
        exact ⟨h1, by omega⟩

theorem tryToFindSpaceOnPath_bounds (internalState : InternalState) (pathSize : Nat)
    (pathInWorld pathOnScreen : List Vec2) (requestedLengthInPixels : ℚ)
    (startPointIndex : Nat) (alreadyOccupiedLengthIsIn2D : Bool) (alreadyOccupiedLength : ℚ)
    (found : SpaceOnPath)
    (h : tryToFindSpaceOnPath internalState pathSize pathInWorld pathOnScreen
      requestedLengthInPixels startPointIndex alreadyOccupiedLengthIsIn2D alreadyOccupiedLength
      = some found) :
    startPointIndex < found.outEndPointIndex ∧ found.outEndPointIndex < pathSize := by
  unfold tryToFindSpaceOnPath at h
  dsimp only at h
  obtain ⟨h1, h2⟩ := walkPath_bounds _ _ _ _ _ _ _ _ _ _ _ (le_refl _) h
  have hpos : 0 < pathSize - (startPointIndex + 1) := by
    by_contra hcon
    have hz : pathSize - (startPointIndex + 1) = 0 := by omega
    rw [hz] at h
    simp [walkPath] at h
  exact ⟨by omega, by omega⟩

/-- C12. Monotonic 2D to 3D transition of `tryToFindSpaceOnPath`: the check of a
segment leaves the mode 3D, and the other values, as they are when the mode is
3D, and from a turn of the loop entered in 3D the search only returns in 3D.
Hence a call that succeeds with outLastOccupiedLengthIsIn2D = true was started in
2D and all its segments [i-1, i], startPointIndex < i ≤ outEndPointIndex, pass
`isInclineAllowedFor2D`; and a call started in 3D only succeeds in 3D. -/
theorem C12_mode_never_returns_to_2D (internalState : InternalState)
    (pathInWorld pathOnScreen : List Vec2) :
    (∀ (startPointIndex testPointIndex : Nat) (req ent occ : ℚ),
        checkSegmentFor2D internalState pathInWorld pathOnScreen startPointIndex testPointIndex
          false req ent occ = .inr (false, req, ent, occ))
    ∧ (∀ (startPointIndex remaining testPointIndex : Nat) (req ent occ : ℚ)
        (found : SpaceOnPath),
        walkPath internalState pathInWorld pathOnScreen startPointIndex remaining testPointIndex
          false req ent occ = some found →
        found.outLastOccupiedLengthIsIn2D = false)
    ∧ (∀ (pathSize : Nat) (requestedLengthInPixels : ℚ) (startPointIndex : Nat)
        (alreadyOccupiedLengthIsIn2D : Bool) (alreadyOccupiedLength : ℚ) (found : SpaceOnPath),
        tryToFindSpaceOnPath internalState pathSize pathInWorld pathOnScreen
          requestedLengthInPixels startPointIndex alreadyOccupiedLengthIsIn2D
          alreadyOccupiedLength = some found →
        found.outLastOccupiedLengthIsIn2D = true →
        alreadyOccupiedLengthIsIn2D = true
          ∧ ∀ i, startPointIndex < i → i ≤ found.outEndPointIndex →
              isInclineAllowedFor2D (pointAt pathOnScreen (i - 1)) (pointAt pathOnScreen i)
                = true)
    ∧ (∀ (pathSize : Nat) (requestedLengthInPixels : ℚ) (startPointIndex : Nat)
        (alreadyOccupiedLength : ℚ) (found : SpaceOnPath),
        tryToFindSpaceOnPath internalState pathSize pathInWorld pathOnScreen
          requestedLengthInPixels startPointIndex false alreadyOccupiedLength = some found →
        found.outLastOccupiedLengthIsIn2D = false) := by
  refine ⟨?_, ?_, ?_, ?_⟩
  · intro s t req ent occ
    exact checkSegmentFor2D_in3D _ _ _ _ _ _ _ _
  · intro s n t req ent occ found h
    exact walkPath_stays3D _ _ _ _ _ _ _ _ _ _ h
  · intro pathSize r s a2D a found h h2D
    unfold tryToFindSpaceOnPath at h
    obtain ⟨h1, h2⟩ := walkPath_found2D _ _ _ _ _ _ _ _ _ _ _ h h2D
    exact ⟨h1, fun i hi1 hi2 => h2 i hi1 hi2⟩
  · intro pathSize r s a found h
    unfold tryToFindSpaceOnPath at h
    exact walkPath_stays3D _ _ _ _ _ _ _ _ _ _ h

/-- C12 on a scene: a search for 5 pixels from vertex 0 of a horizontal path
succeeds in 2D at vertex 2; the call was started in 2D and the two segments it
walked pass the incline test. -/
theorem C12_witness :
    tryToFindSpaceOnPath sceneInternalState 3 scenePathInWorld scenePathInWorld 5 0 true 0
        = some { outEndPointIndex := 2, outLastOccupiedLengthIsIn2D := true
                 outLastOccupiedLength := 4 }
    ∧ ∀ i, 0 < i → i ≤ 2 →
        isInclineAllowedFor2D (pointAt scenePathInWorld (i - 1)) (pointAt scenePathInWorld i)
          = true :=
  ⟨by decide!,
    ((C12_mode_never_returns_to_2D sceneInternalState scenePathInWorld scenePathInWorld).2.2.1
      3 5 0 true 0
      { outEndPointIndex := 2, outLastOccupiedLengthIsIn2D := true, outLastOccupiedLength := 4 }
      (by decide!) rfl).2⟩

theorem lengthOnScreen_succ (internalState : InternalState) (pathInWorld pathOnScreen : List Vec2)
    (startPointIndex t : Nat) (ht : startPointIndex + 1 ≤ t) :
    lengthOnScreen internalState pathOnScreen startPointIndex t
      = lengthOnScreen internalState pathOnScreen startPointIndex (t - 1)
        + segmentLength internalState pathInWorld pathOnScreen true t := by
  unfold lengthOnScreen segmentLength
  have h1 : t - startPointIndex = (t - 1 - startPointIndex) + 1 := by omega
  have h2 : startPointIndex + 1 + 1 * (t - 1 - startPointIndex) = t := by omega
  rw [h1, List.range'_concat, List.map_append, List.sum_append, h2]
  simp

theorem find?_range'_some (p : Nat → Bool) :
    ∀ (n t k : Nat), (List.range' t n).find? p = some k →
      t ≤ k ∧ k < t + n ∧ p k = true ∧ ∀ j, t ≤ j → j < k → p j = false := by
  intro n
  induction n with
  | zero =>
    intro t k h
    simp at h
  | succ n ih =>
    intro t k h
    rw [List.range'_succ, List.find?_cons] at h
    cases hp : p t with
    | true =>
      rw [hp] at h
      cases h
      exact ⟨le_refl _, by omega, hp, fun j h1 h2 => absurd h2 (by omega)⟩
    | false =>
      rw [hp] at h
      obtain ⟨h1, h2, h3, h4⟩ := ih _ _ h
      refine ⟨by omega, by omega, h3, ?_⟩
      intro j hj1 hj2
      by_cases hjt : j = t
      · rw [hjt]; exact hp
      · exact h4 j (by omega) hj2

/-- On segments that all pass the incline test, the loop of the search in 2D
returns the first vertex at which the length walked covers the request. -/
theorem walkPath_in2D (internalState : InternalState) (pathInWorld pathOnScreen : List Vec2)
    (startPointIndex : Nat) (req occ : ℚ) :
    ∀ (remaining t : Nat) (ent : ℚ),
      startPointIndex + 1 ≤ t →
      (∀ i, t ≤ i → i < t + remaining →
        isInclineAllowedFor2D (pointAt pathOnScreen (i - 1)) (pointAt pathOnScreen i) = true) →
      ent = lengthOnScreen internalState pathOnScreen startPointIndex (t - 1) →
      walkPath internalState pathInWorld pathOnScreen startPointIndex remaining t true req ent occ
        = match (List.range' t remaining).find?
              (fun k => decide
                (lengthOnScreen internalState pathOnScreen startPointIndex k - occ ≥ req)) with
          | some k =>
            some { outEndPointIndex := k
                   outLastOccupiedLengthIsIn2D := true
                   outLastOccupiedLength :=
                     internalState.distance (pointAt pathOnScreen (k - 1)) (pointAt pathOnScreen k)
                     - (lengthOnScreen internalState pathOnScreen startPointIndex k - occ - req) }
          | none => none := by
  intro remaining
  induction remaining with
  | zero =>
    intro t ent _ _ _
    simp [walkPath]
  | succ remaining ih =>
    intro t ent ht hall hent
    have hlen := lengthOnScreen_succ internalState pathInWorld pathOnScreen startPointIndex t ht
    rw [walkPath_succ, checkSegmentFor2D_allowed _ _ _ _ _ _ _ _ (hall t (le_refl _) (by omega))]
    dsimp only
    rw [List.range'_succ, List.find?_cons, hent, ← hlen]
    by_cases hc : lengthOnScreen internalState pathOnScreen startPointIndex t - occ ≥ req
    · rw [if_pos hc]
      have hd : decide (lengthOnScreen internalState pathOnScreen startPointIndex t - occ ≥ req)
          = true := decide_eq_true hc
      rw [hd]
      rfl
    · rw [if_neg hc]
      have hd : decide (lengthOnScreen internalState pathOnScreen startPointIndex t - occ ≥ req)
          = false := decide_eq_false hc
      rw [hd]
      dsimp only
      exact ih (t + 1) _ (by omega) (fun i h1 h2 => hall i (by omega) (by omega)) (by simp)

theorem lengthOnScreen_self (internalState : InternalState) (pathOnScreen : List Vec2)
    (startPointIndex : Nat) :
    lengthOnScreen internalState pathOnScreen startPointIndex startPointIndex = 0 := by
  simp [lengthOnScreen]

theorem tryToFindSpaceOnPath_in2D (internalState : InternalState) (pathSize : Nat)
    (pathInWorld pathOnScreen : List Vec2) (r : ℚ) (startPointIndex : Nat) (a : ℚ)
    (hall : ∀ i, startPointIndex < i → i < pathSize →
      isInclineAllowedFor2D (pointAt pathOnScreen (i - 1)) (pointAt pathOnScreen i) = true) :
    tryToFindSpaceOnPath internalState pathSize pathInWorld pathOnScreen r startPointIndex true a
      = match (List.range' (startPointIndex + 1) (pathSize - (startPointIndex + 1))).find?
            (fun k => decide
              (lengthOnScreen internalState pathOnScreen startPointIndex k - a ≥ r)) with
        | some k =>
          some { outEndPointIndex := k
                 outLastOccupiedLengthIsIn2D := true
                 outLastOccupiedLength :=
                   internalState.distance (pointAt pathOnScreen (k - 1)) (pointAt pathOnScreen k)
                   - (lengthOnScreen internalState pathOnScreen startPointIndex k - a - r) }
        | none => none := by
  unfold tryToFindSpaceOnPath
  dsimp only
  rw [if_pos rfl, mul_one]
  apply walkPath_in2D
  · exact le_refl _
  · intro i h1 h2
    exact hall i (by omega) (by omega)
  · simp [lengthOnScreen_self]

/-- C13. First fit in 2D: on a path whose segments behind startPointIndex all pass
the incline test, a call in 2D mode with already-occupied length a and requested
length r returns the least vertex k, startPointIndex < k < pathSize, at which the
screen length from startPointIndex to k, less a, reaches r, in 2D mode, with
outLastOccupiedLength = length(k-1, k) - (length - a - r); it returns false
exactly when there is no such vertex. -/
theorem C13_first_fit_in_2D (internalState : InternalState) (pathSize : Nat)
    (pathInWorld pathOnScreen : List Vec2) (r : ℚ) (startPointIndex : Nat) (a : ℚ)
    (hall : ∀ i, startPointIndex < i → i < pathSize →
      isInclineAllowedFor2D (pointAt pathOnScreen (i - 1)) (pointAt pathOnScreen i) = true) :
    (∀ found, tryToFindSpaceOnPath internalState pathSize pathInWorld pathOnScreen r
          startPointIndex true a = some found →
        startPointIndex < found.outEndPointIndex ∧ found.outEndPointIndex < pathSize
        ∧ lengthOnScreen internalState pathOnScreen startPointIndex found.outEndPointIndex - a ≥ r
        ∧ (∀ j, startPointIndex < j → j < found.outEndPointIndex →
            ¬ lengthOnScreen internalState pathOnScreen startPointIndex j - a ≥ r)
        ∧ found.outLastOccupiedLengthIsIn2D = true
        ∧ found.outLastOccupiedLength
            = internalState.distance (pointAt pathOnScreen (found.outEndPointIndex - 1))
                (pointAt pathOnScreen found.outEndPointIndex)
              - (lengthOnScreen internalState pathOnScreen startPointIndex found.outEndPointIndex
                  - a - r))
    ∧ ((∃ found, tryToFindSpaceOnPath internalState pathSize pathInWorld pathOnScreen r
          startPointIndex true a = some found)
        ↔ ∃ k, startPointIndex < k ∧ k < pathSize
            ∧ lengthOnScreen internalState pathOnScreen startPointIndex k - a ≥ r)
    ∧ (tryToFindSpaceOnPath internalState pathSize pathInWorld pathOnScreen r
          startPointIndex true a = none
        ↔ ∀ k, startPointIndex < k → k < pathSize →
            ¬ lengthOnScreen internalState pathOnScreen startPointIndex k - a ≥ r) := by
  have heq := tryToFindSpaceOnPath_in2D internalState pathSize pathInWorld pathOnScreen r
    startPointIndex a hall
  have hfound : ∀ found, tryToFindSpaceOnPath internalState pathSize pathInWorld pathOnScreen r
        startPointIndex true a = some found →
      startPointIndex < found.outEndPointIndex ∧ found.outEndPointIndex < pathSize
      ∧ lengthOnScreen internalState pathOnScreen startPointIndex found.outEndPointIndex - a ≥ r
      ∧ (∀ j, startPointIndex < j → j < found.outEndPointIndex →
          ¬ lengthOnScreen internalState pathOnScreen startPointIndex j - a ≥ r)
      ∧ found.outLastOccupiedLengthIsIn2D = true
      ∧ found.outLastOccupiedLength
          = internalState.distance (pointAt pathOnScreen (found.outEndPointIndex - 1))
              (pointAt pathOnScreen found.outEndPointIndex)
            - (lengthOnScreen internalState pathOnScreen startPointIndex found.outEndPointIndex
                - a - r) := by
    intro found h
    rw [heq] at h
    cases hf : (List.range' (startPointIndex + 1) (pathSize - (startPointIndex + 1))).find?
        (fun k => decide
          (lengthOnScreen internalState pathOnScreen startPointIndex k - a ≥ r)) with
    | none =>
      rw [hf] at h
      cases h
    | some k =>
      rw [hf] at h
      cases h
      obtain ⟨h1, h2, h3, h4⟩ := find?_range'_some _ _ _ _ hf
      refine ⟨?_, ?_, of_decide_eq_true h3, ?_, rfl, rfl⟩
      · show startPointIndex < k
        omega
      · show k < pathSize
        omega
      · intro j hj1 hj2
        exact of_decide_eq_false (h4 j (by omega) hj2)
  have hnone : tryToFindSpaceOnPath internalState pathSize pathInWorld pathOnScreen r
        startPointIndex true a = none
      ↔ ∀ k, startPointIndex < k → k < pathSize →
          ¬ lengthOnScreen internalState pathOnScreen startPointIndex k - a ≥ r := by
    rw [heq]
    constructor
    · intro h k hk1 hk2
      cases hf : (List.range' (startPointIndex + 1) (pathSize - (startPointIndex + 1))).find?
          (fun k => decide
            (lengthOnScreen internalState pathOnScreen startPointIndex k - a ≥ r)) with
      | some k2 =>
        rw [hf] at h
        cases h
      | none =>
        have := List.find?_eq_none.mp hf k (List.mem_range'_1.mpr ⟨by omega, by omega⟩)
        simpa using this
    · intro h
      have hf : (List.range' (startPointIndex + 1) (pathSize - (startPointIndex + 1))).find?
          (fun k => decide
            (lengthOnScreen internalState pathOnScreen startPointIndex k - a ≥ r)) = none := by
        apply List.find?_eq_none.mpr
        intro k hk
        obtain ⟨hk1, hk2⟩ := List.mem_range'_1.mp hk
        have := h k (by omega) (by omega)
        simpa using this
      rw [hf]
  refine ⟨hfound, ?_, hnone⟩
  constructor
  · rintro ⟨found, h⟩
    obtain ⟨h1, h2, h3, _⟩ := hfound found h
    exact ⟨found.outEndPointIndex, h1, h2, h3⟩
  · rintro ⟨k, hk1, hk2, hk3⟩
    cases hres : tryToFindSpaceOnPath internalState pathSize pathInWorld pathOnScreen r
        startPointIndex true a with
    | some found => exact ⟨found, rfl⟩
    | none => exact absurd hk3 (hnone.mp hres k hk1 hk2)

theorem scenePath_allowed :
    ∀ i, 0 < i → i < 3 →
      isInclineAllowedFor2D (pointAt scenePathInWorld (i - 1)) (pointAt scenePathInWorld i)
        = true := by
  intro i h1 h2
  interval_cases i <;> decide!

/-- C13 on a scene: on the horizontal path with segments of 1 and 9 pixels, a search
from vertex 0 for 5 pixels with nothing occupied ends at vertex 2, the first one
at which the length walked (10) reaches 5, with 9 - (10 - 0 - 5) = 4 pixels of the
last segment occupied. -/
theorem C13_witness :
    tryToFindSpaceOnPath sceneInternalState 3 scenePathInWorld scenePathInWorld 5 0 true 0
        = some { outEndPointIndex := 2, outLastOccupiedLengthIsIn2D := true
                 outLastOccupiedLength := 4 }
    ∧ lengthOnScreen sceneInternalState scenePathInWorld 0 2 - 0 ≥ 5
    ∧ ∀ j, 0 < j → j < 2 → ¬ lengthOnScreen sceneInternalState scenePathInWorld 0 j - 0 ≥ 5 :=
  ⟨by decide!,
    ((C13_first_fit_in_2D sceneInternalState 3 scenePathInWorld scenePathInWorld 5 0 0
      scenePath_allowed).1
      { outEndPointIndex := 2, outLastOccupiedLengthIsIn2D := true, outLastOccupiedLength := 4 }
      (by decide!)).2.2.1,
    ((C13_first_fit_in_2D sceneInternalState 3 scenePathInWorld scenePathInWorld 5 0 0
      scenePath_allowed).1
      { outEndPointIndex := 2, outLastOccupiedLengthIsIn2D := true, outLastOccupiedLength := 4 }
      (by decide!)).2.2.2.1⟩

/-! ## Lemmas: the producer of on-path renderables -/

theorem onPathWidths_fold (currentSymbol : MapSymbol) :
    ∀ (symbols : List MapSymbol) (widths : ℚ × ℚ),
      symbols.foldl
          (fun widths otherSymbol_ =>
            if otherSymbol_.cls != MapSymbolClass.OnPath then widths
            else
              (widths.1 + (otherSymbol_.size.x : ℚ),
                if otherSymbol_.id == currentSymbol.id then widths.1 else widths.2))
          widths
        = (symbols.filter (fun s => s.cls == .OnPath)).foldl
            (fun widths otherSymbol =>
              (widths.1 + (otherSymbol.size.x : ℚ),
                if otherSymbol.id == currentSymbol.id then widths.1 else widths.2))
            widths := by
  intro symbols
  induction symbols with
  | nil => intro widths; rfl
  | cons s rest ih =>
    intro widths
    rw [List.foldl_cons, List.filter_cons]
    by_cases hc : s.cls = .OnPath
    · have h1 : (s.cls != MapSymbolClass.OnPath) = false := by simp [hc]
      have h2 : (s.cls == MapSymbolClass.OnPath) = true := by simp [hc]
      rw [h1, h2, if_pos rfl, List.foldl_cons, if_neg Bool.false_ne_true]
      exact ih _
    · have h1 : (s.cls != MapSymbolClass.OnPath) = true := by simp [hc]
      have h2 : (s.cls == MapSymbolClass.OnPath) = false := by simp [hc]
      rw [h1, h2, if_pos rfl, if_neg Bool.false_ne_true]
      exact ih _

theorem widths_fold_total (currentSymbol : MapSymbol) :
    ∀ (symbols : List MapSymbol) (widths : ℚ × ℚ),
      (symbols.foldl
          (fun widths otherSymbol =>
            (widths.1 + (otherSymbol.size.x : ℚ),
              if otherSymbol.id == currentSymbol.id then widths.1 else widths.2))
          widths).1
        = widths.1 + (symbols.map (fun s => (s.size.x : ℚ))).sum := by
  intro symbols
  induction symbols with
  | nil => intro widths; simp
  | cons s rest ih =>
    intro widths
    rw [List.foldl_cons, ih, List.map_cons, List.sum_cons]
    ring

theorem widths_fold_before_absent (currentSymbol : MapSymbol) :
    ∀ (symbols : List MapSymbol) (widths : ℚ × ℚ),
      (∀ s ∈ symbols, s.id ≠ currentSymbol.id) →
      (symbols.foldl
          (fun widths otherSymbol =>
            (widths.1 + (otherSymbol.size.x : ℚ),
              if otherSymbol.id == currentSymbol.id then widths.1 else widths.2))
          widths).2
        = widths.2 := by
  intro symbols
  induction symbols with
  | nil => intro widths _; rfl
  | cons s rest ih =>
    intro widths h
    rw [List.foldl_cons, ih _ (fun s hs => h s (List.mem_cons_of_mem _ hs))]
    have hne : (s.id == currentSymbol.id) = false := by
      simpa using h s (List.mem_cons_self _ _)
    rw [hne]
    rfl

/-- C14. Width conservation: let the on-path symbols of a group, in group order, be
`before`, then `current`, then `after`, all of them distinct objects. Then the
offset widthBeforeCurrentSymbol computed for `current` is the sum of the widths of
`before` (0 when `current` is the first), and totalWidth is the sum of the widths
of all on-path symbols of the group, whichever symbol is being processed; symbols
of the group that are not on-path do not count. -/
theorem C14_width_conservation (mapSymbolsGroup : MapSymbolsGroup)
    (before after : List MapSymbol) (current : MapSymbol)
    (hgroup : mapSymbolsGroup.symbols.filter (fun s => s.cls == .OnPath)
      = before ++ current :: after)
    (hdistinct : ((before ++ current :: after).map (fun s => s.id)).Nodup) :
    (onPathWidths mapSymbolsGroup current).2 = (before.map (fun s => (s.size.x : ℚ))).sum
    ∧ ∀ processed : MapSymbol,
        (onPathWidths mapSymbolsGroup processed).1
          = ((before ++ current :: after).map (fun s => (s.size.x : ℚ))).sum := by
  constructor
  · unfold onPathWidths
    rw [onPathWidths_fold, hgroup, List.foldl_append, List.foldl_cons]
    have hafter : ∀ s ∈ after, s.id ≠ current.id := by
      intro s hs heq
      rw [List.map_append, List.map_cons] at hdistinct
      have h2 := (List.nodup_append.mp hdistinct).2.1
      rw [List.nodup_cons] at h2
      apply h2.1
      rw [← heq]
      exact List.mem_map_of_mem (fun s => s.id) hs
    rw [widths_fold_before_absent current after _ hafter]
    have hself : (current.id == current.id) = true := by simp
    rw [hself, if_pos rfl, widths_fold_total]
    simp
  · intro processed
    unfold onPathWidths
    rw [onPathWidths_fold, hgroup, widths_fold_total]
    simp

/-- C14 on a scene: the group holds an on-path symbol of width 4, a billboard, and an
on-path symbol of width 6; for the second on-path symbol the offset is 4 and the
total width is 10; for the first the offset is 0. -/
theorem C14_witness :
    (onPathWidths pathGroup (pathSymbol 3 6 straightPath)).2 = 4
    ∧ (onPathWidths pathGroup (pathSymbol 3 6 straightPath)).1 = 10
    ∧ (onPathWidths pathGroup (pathSymbol 1 4 straightPath)).2 = 0 := by
  have h := C14_width_conservation pathGroup [pathSymbol 1 4 straightPath] []
    (pathSymbol 3 6 straightPath) (by decide) (by decide)
  have h1 := C14_width_conservation pathGroup [] [pathSymbol 3 6 straightPath]
    (pathSymbol 1 4 straightPath) (by decide) (by decide)
  refine ⟨?_, ?_, ?_⟩
  · rw [h.1]
    decide!
  · rw [h.2]
    decide!
  · rw [h1.1]
    decide!

theorem onPathSymbolStep_output (internalState : InternalState)
    (lock : Nat → Option MapSymbolsGroup) (pass : OnPathPass)
    (symbolEntry : MapSymbol × List MapRendererResource) :
    (onPathSymbolStep internalState lock pass symbolEntry).output = pass.output := by
  unfold onPathSymbolStep
  dsimp only
  repeat' (first | rfl | split)

/-- The list `output` of `obtainRenderablesFromOnPathSymbols` is never written. -/
theorem obtainRenderablesFromOnPathSymbols_output (internalState : InternalState)
    (lock : Nat → Option MapSymbolsGroup) (input : List (MapSymbol × List MapRendererResource))
    (output : List RenderableOnPathSymbol) :
    (obtainRenderablesFromOnPathSymbols internalState lock input output).output = output := by
  unfold obtainRenderablesFromOnPathSymbols
  have hgen : ∀ (pass : OnPathPass),
      (input.foldl (onPathSymbolStep internalState lock) pass).output = pass.output := by
    induction input with
    | nil => intro pass; rfl
    | cons e es ih =>
      intro pass
      rw [List.foldl_cons, ih, onPathSymbolStep_output]
  exact hgen _

/-- C17, what the code does and the failing input. The list `output` of
`obtainRenderablesFromOnPathSymbols` is returned as it was given, for every input.
On the scene of one on-path symbol of width 4 on a horizontal path of 20 pixels,
with its GPU resource uploaded, the repeat-fit loop fits one instance and fills
one renderable, and the output list stays empty. -/
theorem C17_fitted_instances_not_appended :
    (∀ (internalState : InternalState) (lock : Nat → Option MapSymbolsGroup)
        (input : List (MapSymbol × List MapRendererResource))
        (output : List RenderableOnPathSymbol),
        (obtainRenderablesFromOnPathSymbols internalState lock input output).output = output)
    ∧ ((obtainRenderablesFromOnPathSymbols sceneInternalState pathLock
          [(pathSymbol 1 4 straightPath, [sceneHolder .Uploaded [1]])] []).fitted.map
          (fun r => (r.subpathStartIndex, r.subpathEndIndex, r.is2D))) = [(0, 1, true)]
    ∧ (obtainRenderablesFromOnPathSymbols sceneInternalState pathLock
          [(pathSymbol 1 4 straightPath, [sceneHolder .Uploaded [1]])] []).output = []
    ∧ processOnPathSymbols sceneInternalState pathLock
          [(pathSymbol 1 4 straightPath, [sceneHolder .Uploaded [1]])] [] = [] := by
  refine ⟨obtainRenderablesFromOnPathSymbols_output, ?_, ?_, ?_⟩
  · decide!
  · decide!
  · decide!

/-- C20. A symbol whose path has fewer than 2 vertices is skipped by the loop of
`obtainRenderablesFromOnPathSymbols`: its turn of the loop leaves the output, the
renderables fitted and the captures of GPU resources as they were, and the
function gives the same result as on the input without that entry. -/
theorem C20_short_path_skipped (internalState : InternalState)
    (lock : Nat → Option MapSymbolsGroup) (symbolEntry : MapSymbol × List MapRendererResource)
    (hshort : symbolEntry.1.path.length < 2) :
    (∀ pass : OnPathPass, onPathSymbolStep internalState lock pass symbolEntry = pass)
    ∧ ∀ (before after : List (MapSymbol × List MapRendererResource))
        (output : List RenderableOnPathSymbol),
        obtainRenderablesFromOnPathSymbols internalState lock (before ++ symbolEntry :: after)
            output
          = obtainRenderablesFromOnPathSymbols internalState lock (before ++ after) output := by
  have hstep : ∀ pass : OnPathPass,
      onPathSymbolStep internalState lock pass symbolEntry = pass := by
    intro pass
    unfold onPathSymbolStep
    dsimp only
    rw [if_pos hshort]
    split_ifs <;> rfl
  refine ⟨hstep, ?_⟩
  intro before after output
  unfold obtainRenderablesFromOnPathSymbols
  rw [List.foldl_append, List.foldl_cons, hstep, List.foldl_append]

/-- C20 on a scene: an on-path symbol with a path of one vertex stands between two
symbols of the group; the producer fits and captures what it does without it. -/
theorem C20_witness :
    (obtainRenderablesFromOnPathSymbols sceneInternalState pathLock
        [(pathSymbol 1 4 straightPath, [sceneHolder .Uploaded [1]]),
          (pathSymbol 5 4 [{ x := 0, y := 0 }], [sceneHolder .Uploaded [5]]),
          (pathSymbol 3 6 straightPath, [sceneHolder .Uploaded [3]])] []).captures = [1, 3]
    ∧ obtainRenderablesFromOnPathSymbols sceneInternalState pathLock
        ([(pathSymbol 1 4 straightPath, [sceneHolder .Uploaded [1]])]
          ++ (pathSymbol 5 4 [{ x := 0, y := 0 }], [sceneHolder .Uploaded [5]])
            :: [(pathSymbol 3 6 straightPath, [sceneHolder .Uploaded [3]])]) []
      = obtainRenderablesFromOnPathSymbols sceneInternalState pathLock
        ([(pathSymbol 1 4 straightPath, [sceneHolder .Uploaded [1]])]
          ++ [(pathSymbol 3 6 straightPath, [sceneHolder .Uploaded [3]])]) [] :=
  ⟨by decide!,
    (C20_short_path_skipped sceneInternalState pathLock
      (pathSymbol 5 4 [{ x := 0, y := 0 }], [sceneHolder .Uploaded [5]]) (by decide)).2
      [(pathSymbol 1 4 straightPath, [sceneHolder .Uploaded [1]])]
      [(pathSymbol 3 6 straightPath, [sceneHolder .Uploaded [3]])] []⟩

theorem fitInstances_of_none (internalState : InternalState) (currentSymbol : MapSymbol)
    (gpuResource : ResourceInGPU) (pathInWorld pathOnScreen : List Vec2) (totalWidth : ℚ)
    (fuel nextOriginPointIndex : Nat) (nextOriginOccupiedLengthIsIn2D : Bool)
    (nextOriginOccupiedLength : ℚ)
    (h : tryToFindSpaceOnPath internalState currentSymbol.path.length pathInWorld pathOnScreen
      (currentSymbol.size.x : ℚ) nextOriginPointIndex nextOriginOccupiedLengthIsIn2D
      nextOriginOccupiedLength = none) :
    fitInstances internalState currentSymbol gpuResource pathInWorld pathOnScreen totalWidth
      fuel nextOriginPointIndex nextOriginOccupiedLengthIsIn2D nextOriginOccupiedLength = [] := by
  cases fuel with
  | zero => rfl
  | succ fuel =>
    rw [fitInstances]
    simp only [h]

theorem tryToFindSpaceOnPath_exhausted (internalState : InternalState) (pathSize : Nat)
    (pathInWorld pathOnScreen : List Vec2) (requestedLengthInPixels : ℚ)
    (startPointIndex : Nat) (alreadyOccupiedLengthIsIn2D : Bool) (alreadyOccupiedLength : ℚ)
    (h : pathSize ≤ startPointIndex + 1) :
    tryToFindSpaceOnPath internalState pathSize pathInWorld pathOnScreen
      requestedLengthInPixels startPointIndex alreadyOccupiedLengthIsIn2D alreadyOccupiedLength
      = none := by
  unfold tryToFindSpaceOnPath
  dsimp only
  have hz : pathSize - (startPointIndex + 1) = 0 := by omega
  rw [hz]
  rfl

/-- On a path of two vertices a request that exceeds the length of the one segment,
in the unit of the mode that the incline of the segment gives, finds no space. -/
theorem tryToFindSpaceOnPath_two_vertices (internalState : InternalState)
    (pathInWorld pathOnScreen : List Vec2) (w : ℚ)
    (hexceeds :
      if isInclineAllowedFor2D (pointAt pathOnScreen 0) (pointAt pathOnScreen 1) = true then
        w > internalState.distance (pointAt pathOnScreen 0) (pointAt pathOnScreen 1)
      else
        w * internalState.pixelInWorldProjectionScale
          > internalState.distance (pointAt pathInWorld 0) (pointAt pathInWorld 1)) :
    tryToFindSpaceOnPath internalState 2 pathInWorld pathOnScreen w 0 true 0 = none := by
  unfold tryToFindSpaceOnPath
  dsimp only
  rw [if_pos rfl, mul_one, walkPath_succ]
  cases hinc : isInclineAllowedFor2D (pointAt pathOnScreen 0) (pointAt pathOnScreen 1) with
  | true =>
    rw [hinc, if_pos rfl] at hexceeds
    rw [checkSegmentFor2D_allowed _ _ _ _ _ _ _ _ hinc]
    dsimp only
    have hseg : segmentLength internalState pathInWorld pathOnScreen true (0 + 1)
        = internalState.distance (pointAt pathOnScreen 0) (pointAt pathOnScreen 1) := rfl
    rw [hseg, if_neg, walkPath]
    intro hge
    linarith
  | false =>
    rw [hinc, if_neg Bool.false_ne_true] at hexceeds
    rw [checkSegmentFor2D_refused _ _ _ _ _ _ _ _ hinc]
    have hrec : ∀ occ req : ℚ,
        recalculateEntireLengthAs3D internalState pathInWorld occ req (0 + 1 - (0 + 1)) (0 + 1) 0
          = .inr 0 := fun _ _ => rfl
    rw [hrec]
    dsimp only
    have hocc : (if (0 : ℚ) > 0 then
          internalState.distance (pointAt pathInWorld 0) (pointAt pathInWorld (0 + 1))
            * (0 / internalState.distance (pointAt pathOnScreen 0) (pointAt pathOnScreen (0 + 1)))
        else (0 : ℚ)) = 0 := if_neg (lt_irrefl _)
    rw [hocc]
    have hseg : segmentLength internalState pathInWorld pathOnScreen false (0 + 1)
        = internalState.distance (pointAt pathInWorld 0) (pointAt pathInWorld 1) := rfl
    rw [hseg, if_neg, walkPath]
    intro hge
    linarith

/-- C15. Empty-path rejection: for a symbol whose path has exactly 2 vertices, with a
pixel-to-world scale that is not negative, if the offset of the symbols before it
plus its own width exceeds the distance of the two vertices, on the screen when
the segment passes the incline test and in world units otherwise, the turn of the
producer for that symbol fits no instance. -/
theorem C15_two_vertex_path_fits_nothing (internalState : InternalState)
    (lock : Nat → Option MapSymbolsGroup) (pass : OnPathPass)
    (symbolEntry : MapSymbol × List MapRendererResource)
    (hpath : symbolEntry.1.path.length = 2)
    (hscale : 0 ≤ internalState.pixelInWorldProjectionScale)
    (hexceeds : ∀ mapSymbolsGroup, lock symbolEntry.1.group = some mapSymbolsGroup →
      if isInclineAllowedFor2D
          (pointAt (projectFromWorldToScreen internalState
            (convertPoints31ToWorld internalState symbolEntry.1.path)) 0)
          (pointAt (projectFromWorldToScreen internalState
            (convertPoints31ToWorld internalState symbolEntry.1.path)) 1) = true then
        (onPathWidths mapSymbolsGroup symbolEntry.1).2 + (symbolEntry.1.size.x : ℚ)
          > internalState.distance
              (pointAt (projectFromWorldToScreen internalState
                (convertPoints31ToWorld internalState symbolEntry.1.path)) 0)
              (pointAt (projectFromWorldToScreen internalState
                (convertPoints31ToWorld internalState symbolEntry.1.path)) 1)
      else
        ((onPathWidths mapSymbolsGroup symbolEntry.1).2 + (symbolEntry.1.size.x : ℚ))
            * internalState.pixelInWorldProjectionScale
          > internalState.distance
              (pointAt (convertPoints31ToWorld internalState symbolEntry.1.path) 0)
              (pointAt (convertPoints31ToWorld internalState symbolEntry.1.path) 1)) :
    (onPathSymbolStep internalState lock pass symbolEntry).fitted = pass.fitted := by
  unfold onPathSymbolStep
  dsimp only
  by_cases h1 : symbolEntry.1.isHidden = true
  · rw [if_pos h1]
  rw [if_neg h1]
  by_cases h2 : (symbolEntry.1.cls != MapSymbolClass.OnPath) = true
  · rw [if_pos h2]
  rw [if_neg h2, if_neg (by omega)]
  cases hlock : lock symbolEntry.1.group with
  | none => rfl
  | some mapSymbolsGroup =>
    dsimp only
    have hex := hexceeds mapSymbolsGroup hlock
    generalize convertPoints31ToWorld internalState symbolEntry.1.path = pathInWorld at hex ⊢
    generalize projectFromWorldToScreen internalState pathInWorld = pathOnScreen at hex ⊢
    generalize (onPathWidths mapSymbolsGroup symbolEntry.1).1 = totalWidth
    generalize hwb : (onPathWidths mapSymbolsGroup symbolEntry.1).2 = widthBefore at hex ⊢
    rw [hpath]
    by_cases hpos : widthBefore > 0
    · rw [if_pos hpos]
      cases horigin : tryToFindSpaceOnPath internalState 2 pathInWorld pathOnScreen widthBefore
          0 true 0 with
      | none => rfl
      | some origin =>
        dsimp only
        have hb := tryToFindSpaceOnPath_bounds _ _ _ _ _ _ _ _ _ horigin
        have hnone := tryToFindSpaceOnPath_exhausted internalState symbolEntry.1.path.length
          pathInWorld pathOnScreen (symbolEntry.1.size.x : ℚ) origin.outEndPointIndex
          origin.outLastOccupiedLengthIsIn2D origin.outLastOccupiedLength (by omega)
        split
        · rfl
        · rename_i gpuResource _
          have := fitInstances_of_none internalState symbolEntry.1 gpuResource pathInWorld
            pathOnScreen totalWidth 2 origin.outEndPointIndex origin.outLastOccupiedLengthIsIn2D
            origin.outLastOccupiedLength hnone
          simp only [this, List.append_nil]
    · rw [if_neg hpos]
      dsimp only
      have hw : if isInclineAllowedFor2D (pointAt pathOnScreen 0) (pointAt pathOnScreen 1)
            = true then
          (symbolEntry.1.size.x : ℚ)
            > internalState.distance (pointAt pathOnScreen 0) (pointAt pathOnScreen 1)
        else
          (symbolEntry.1.size.x : ℚ) * internalState.pixelInWorldProjectionScale
            > internalState.distance (pointAt pathInWorld 0) (pointAt pathInWorld 1) := by
        have hle : widthBefore ≤ 0 := not_lt.mp hpos
        split_ifs at hex ⊢
        · linarith
        · nlinarith
      have hnone : tryToFindSpaceOnPath internalState symbolEntry.1.path.length pathInWorld
          pathOnScreen (symbolEntry.1.size.x : ℚ) 0 true 0 = none := by
        rw [hpath]
        exact tryToFindSpaceOnPath_two_vertices internalState pathInWorld pathOnScreen _ hw
      split
      · rfl
      · rename_i gpuResource _
        have := fitInstances_of_none internalState symbolEntry.1 gpuResource pathInWorld
          pathOnScreen totalWidth 2 0 true 0 hnone
        simp only [this, List.append_nil]

/-- C15 on a scene: a symbol 12 pixels wide, the first of its group, on a horizontal
path of two vertices 10 pixels apart, with its GPU resource uploaded: the
resource is captured and no instance is fitted. -/
theorem C15_witness :
    (onPathSymbolStep sceneInternalState wideLock { output := [], fitted := [], captures := [] }
        (pathSymbol 1 12 shortPath, [sceneHolder .Uploaded [1]])).captures = [1]
    ∧ (onPathSymbolStep sceneInternalState wideLock { output := [], fitted := [], captures := [] }
        (pathSymbol 1 12 shortPath, [sceneHolder .Uploaded [1]])).fitted = [] :=
  ⟨by decide!,
    C15_two_vertex_path_fits_nothing sceneInternalState wideLock
      { output := [], fitted := [], captures := [] }
      (pathSymbol 1 12 shortPath, [sceneHolder .Uploaded [1]]) (by decide) (by decide!)
      (by
        intro g hg
        have hgroup : g = wideGroup := by
          have h : wideLock 1 = some wideGroup := rfl
          have h2 : (pathSymbol 1 12 shortPath, [sceneHolder .Uploaded [1]]).1.group = 1 := rfl
          rw [h2, h] at hg
          exact (Option.some.inj hg).symm
        rw [hgroup]
        decide!)⟩

theorem fitInstances_succ (internalState : InternalState) (currentSymbol : MapSymbol)
    (gpuResource : ResourceInGPU) (pathInWorld pathOnScreen : List Vec2) (totalWidth : ℚ)
    (fuel idx : Nat) (in2D : Bool) (occ : ℚ) :
    fitInstances internalState currentSymbol gpuResource pathInWorld pathOnScreen totalWidth
        (fuel + 1) idx in2D occ
      = match tryToFindSpaceOnPath internalState currentSymbol.path.length pathInWorld
          pathOnScreen (currentSymbol.size.x : ℚ) idx in2D occ with
        | none => []
        | some fitted =>
          match tryToFindSpaceOnPath internalState currentSymbol.path.length pathInWorld
              pathOnScreen (totalWidth - (currentSymbol.size.x : ℚ)) fitted.outEndPointIndex
              fitted.outLastOccupiedLengthIsIn2D fitted.outLastOccupiedLength with
          | none =>
            [{ mapSymbol := currentSymbol
               gpuResource := gpuResource
               is2D := fitted.outLastOccupiedLengthIsIn2D
               distanceToCamera :=
                 computeDistanceBetweenCameraToPath internalState pathInWorld idx
                   fitted.outEndPointIndex
               directionInWorld :=
                 computeSubpathDirection internalState pathInWorld idx fitted.outEndPointIndex
               directionOnScreen :=
                 computeSubpathDirection internalState pathOnScreen idx fitted.outEndPointIndex
               subpathStartIndex := idx
               subpathEndIndex := fitted.outEndPointIndex
               offsetFromStart := fitted.outLastOccupiedLength }]
          | some gap =>
            { mapSymbol := currentSymbol
              gpuResource := gpuResource
              is2D := fitted.outLastOccupiedLengthIsIn2D
              distanceToCamera :=
                computeDistanceBetweenCameraToPath internalState pathInWorld idx
                  fitted.outEndPointIndex
              directionInWorld :=
                computeSubpathDirection internalState pathInWorld idx fitted.outEndPointIndex
              directionOnScreen :=
                computeSubpathDirection internalState pathOnScreen idx fitted.outEndPointIndex
              subpathStartIndex := idx
              subpathEndIndex := fitted.outEndPointIndex
              offsetFromStart := fitted.outLastOccupiedLength }
            :: fitInstances internalState currentSymbol gpuResource pathInWorld pathOnScreen
                totalWidth fuel gap.outEndPointIndex gap.outLastOccupiedLengthIsIn2D
                gap.outLastOccupiedLength := by
  rw [fitInstances]

/-- The fuel of the repeat-fit loop is never used up: once it covers the vertices
left on the path, more fuel gives the same renderables. -/
theorem fitInstances_fuel_enough (internalState : InternalState) (currentSymbol : MapSymbol)
    (gpuResource : ResourceInGPU) (pathInWorld pathOnScreen : List Vec2) (totalWidth : ℚ) :
    ∀ (fuel idx : Nat) (in2D : Bool) (occ : ℚ) (extra : Nat),
      currentSymbol.path.length ≤ idx + fuel →
      fitInstances internalState currentSymbol gpuResource pathInWorld pathOnScreen totalWidth
          (fuel + extra) idx in2D occ
        = fitInstances internalState currentSymbol gpuResource pathInWorld pathOnScreen
            totalWidth fuel idx in2D occ := by
  intro fuel
  induction fuel with
  | zero =>
    intro idx in2D occ extra h
    have hnone := tryToFindSpaceOnPath_exhausted internalState currentSymbol.path.length
      pathInWorld pathOnScreen (currentSymbol.size.x : ℚ) idx in2D occ (by omega)
    rw [fitInstances_of_none _ _ _ _ _ _ _ _ _ _ hnone,
      fitInstances_of_none _ _ _ _ _ _ _ _ _ _ hnone]
  | succ fuel ih =>
    intro idx in2D occ extra h
    have hfuel : fuel + 1 + extra = (fuel + extra) + 1 := by omega
    rw [hfuel, fitInstances_succ, fitInstances_succ]
    cases hfit : tryToFindSpaceOnPath internalState currentSymbol.path.length pathInWorld
        pathOnScreen (currentSymbol.size.x : ℚ) idx in2D occ with
    | none => rfl
    | some fitted =>
      dsimp only
      cases hgap : tryToFindSpaceOnPath internalState currentSymbol.path.length pathInWorld
          pathOnScreen (totalWidth - (currentSymbol.size.x : ℚ)) fitted.outEndPointIndex
          fitted.outLastOccupiedLengthIsIn2D fitted.outLastOccupiedLength with
      | none => rfl
      | some gap =>
        dsimp only
        have h1 := (tryToFindSpaceOnPath_bounds _ _ _ _ _ _ _ _ _ hfit).1
        have h2 := (tryToFindSpaceOnPath_bounds _ _ _ _ _ _ _ _ _ hgap).1
        rw [ih gap.outEndPointIndex _ _ extra (by omega)]

/-- C18 on a scene: of four holders, the first is in state Requested and holds a
resource for the symbol, the second is Uploaded and holds none for it, the third
and the fourth are Uploaded and hold one: the result is the resource of the
third. -/
theorem C18_witness :
    (captureGpuResource
        [sceneHolder .Requested [1], sceneHolder .Uploaded [2],
          { state := .Uploaded, cls := .Keyed, gpuResources := [(1, { id := 7, isTexture := true })] },
          sceneHolder .Uploaded [1]]
        (pathSymbol 1 4 straightPath)).gpuResource = some { id := 7, isTexture := true } := by
  rw [(C18_captureGpuResource_first_uploaded _ _).1]
  decide

/-- C19 on the same scene: the four holders are in their states of before the call,
and the writes are the claim and the release of the second and of the third
holder. -/
theorem C19_witness :
    (captureGpuResource
        [sceneHolder .Requested [1], sceneHolder .Uploaded [2],
          { state := .Uploaded, cls := .Keyed, gpuResources := [(1, { id := 7, isTexture := true })] },
          sceneHolder .Uploaded [1]]
        (pathSymbol 1 4 straightPath)).resources
      = [sceneHolder .Requested [1], sceneHolder .Uploaded [2],
          { state := .Uploaded, cls := .Keyed, gpuResources := [(1, { id := 7, isTexture := true })] },
          sceneHolder .Uploaded [1]]
    ∧ (captureGpuResource
        [sceneHolder .Requested [1], sceneHolder .Uploaded [2],
          { state := .Uploaded, cls := .Keyed, gpuResources := [(1, { id := 7, isTexture := true })] },
          sceneHolder .Uploaded [1]]
        (pathSymbol 1 4 straightPath)).writes
      = [(1, .IsBeingUsed), (1, .Uploaded), (2, .IsBeingUsed), (2, .Uploaded)] :=
  ⟨(C19_captureGpuResource_restores_states _ _).1, by decide⟩

/-! ## Lemmas: termination of the repeat-fit loop -/

theorem fitInstances_length (internalState : InternalState) (currentSymbol : MapSymbol)
    (gpuResource : ResourceInGPU) (pathInWorld pathOnScreen : List Vec2) (totalWidth : ℚ) :
    ∀ (fuel idx : Nat) (in2D : Bool) (occ : ℚ),
      (fitInstances internalState currentSymbol gpuResource pathInWorld pathOnScreen totalWidth
          fuel idx in2D occ).length ≤ currentSymbol.path.length - 1 - idx := by
  intro fuel
  induction fuel with
  | zero =>
    intro idx in2D occ
    simp [fitInstances]
  | succ fuel ih =>
    intro idx in2D occ
    rw [fitInstances_succ]
    cases hfit : tryToFindSpaceOnPath internalState currentSymbol.path.length pathInWorld
        pathOnScreen (currentSymbol.size.x : ℚ) idx in2D occ with
    | none => simp
    | some fitted =>
      dsimp only
      have h1 := tryToFindSpaceOnPath_bounds _ _ _ _ _ _ _ _ _ hfit
      cases hgap : tryToFindSpaceOnPath internalState currentSymbol.path.length pathInWorld
          pathOnScreen (totalWidth - (currentSymbol.size.x : ℚ)) fitted.outEndPointIndex
          fitted.outLastOccupiedLengthIsIn2D fitted.outLastOccupiedLength with
      | none =>
        dsimp only
        rw [List.length_singleton]
        omega
      | some gap =>
        dsimp only
        have h2 := tryToFindSpaceOnPath_bounds _ _ _ _ _ _ _ _ _ hgap
        have h3 := ih gap.outEndPointIndex gap.outLastOccupiedLengthIsIn2D
          gap.outLastOccupiedLength
        rw [List.length_cons]
        omega

/-- C21. Every successful call of `tryToFindSpaceOnPath` returns an end vertex behind
its start vertex and on the path, whatever the requested length (0 included).
Hence the repeat-fit loop of `obtainRenderablesFromOnPathSymbols` ends by a failed
search: a turn in which both searches succeed moves the origin at least 2
vertices forward, the renderables it fills are the same for every number of
turns allowed that covers the vertices left on the path, and they are at most
pathSize - 1. -/
theorem C21_search_advances_and_loop_terminates (internalState : InternalState)
    (currentSymbol : MapSymbol) (gpuResource : ResourceInGPU)
    (pathInWorld pathOnScreen : List Vec2) (totalWidth : ℚ) :
    (∀ (pathSize : Nat) (requestedLengthInPixels : ℚ) (startPointIndex : Nat)
        (alreadyOccupiedLengthIsIn2D : Bool) (alreadyOccupiedLength : ℚ) (found : SpaceOnPath),
        tryToFindSpaceOnPath internalState pathSize pathInWorld pathOnScreen
          requestedLengthInPixels startPointIndex alreadyOccupiedLengthIsIn2D
          alreadyOccupiedLength = some found →
        startPointIndex < found.outEndPointIndex ∧ found.outEndPointIndex < pathSize)
    ∧ (∀ (idx : Nat) (in2D : Bool) (occ : ℚ) (fitted gap : SpaceOnPath),
        tryToFindSpaceOnPath internalState currentSymbol.path.length pathInWorld pathOnScreen
          (currentSymbol.size.x : ℚ) idx in2D occ = some fitted →
        tryToFindSpaceOnPath internalState currentSymbol.path.length pathInWorld pathOnScreen
          (totalWidth - (currentSymbol.size.x : ℚ)) fitted.outEndPointIndex
          fitted.outLastOccupiedLengthIsIn2D fitted.outLastOccupiedLength = some gap →
        idx + 2 ≤ gap.outEndPointIndex ∧ gap.outEndPointIndex < currentSymbol.path.length)
    ∧ (∀ (fuel idx : Nat) (in2D : Bool) (occ : ℚ),
        currentSymbol.path.length ≤ idx + fuel →
        fitInstances internalState currentSymbol gpuResource pathInWorld pathOnScreen totalWidth
            fuel idx in2D occ
          = fitInstances internalState currentSymbol gpuResource pathInWorld pathOnScreen
              totalWidth currentSymbol.path.length idx in2D occ)
    ∧ (∀ (fuel idx : Nat) (in2D : Bool) (occ : ℚ),
        (fitInstances internalState currentSymbol gpuResource pathInWorld pathOnScreen totalWidth
            fuel idx in2D occ).length ≤ currentSymbol.path.length - 1) := by
  refine ⟨?_, ?_, ?_, ?_⟩
  · intro pathSize r s in2D occ found h
    exact tryToFindSpaceOnPath_bounds _ _ _ _ _ _ _ _ _ h
  · intro idx in2D occ fitted gap hfit hgap
    have h1 := tryToFindSpaceOnPath_bounds _ _ _ _ _ _ _ _ _ hfit
    have h2 := tryToFindSpaceOnPath_bounds _ _ _ _ _ _ _ _ _ hgap
    exact ⟨by omega, h2.2⟩
  · intro fuel idx in2D occ hfuel
    by_cases hle : fuel ≤ currentSymbol.path.length
    · have hsplit : currentSymbol.path.length = fuel + (currentSymbol.path.length - fuel) := by
        omega
      have h := fitInstances_fuel_enough internalState currentSymbol gpuResource pathInWorld
        pathOnScreen totalWidth fuel idx in2D occ (currentSymbol.path.length - fuel) hfuel
      rw [← hsplit] at h
      exact h.symm
    · have hsplit : fuel = currentSymbol.path.length + (fuel - currentSymbol.path.length) := by
        omega
      have h := fitInstances_fuel_enough internalState currentSymbol gpuResource pathInWorld
        pathOnScreen totalWidth currentSymbol.path.length idx in2D occ
        (fuel - currentSymbol.path.length) (by omega)
      rw [← hsplit] at h
      exact h
  · intro fuel idx in2D occ
    have h := fitInstances_length internalState currentSymbol gpuResource pathInWorld
      pathOnScreen totalWidth fuel idx in2D occ
    omega

/-- C21 on a scene: on the horizontal path of 3 vertices a search for a length of 0
from vertex 0 ends at vertex 1; for the symbol 4 pixels wide, alone in its group,
on the path of 20 pixels, the loop fills 1 renderable, with 3 turns allowed as
with 50, and 1 is at most 3 - 1. -/
theorem C21_witness :
    tryToFindSpaceOnPath sceneInternalState 3 scenePathInWorld scenePathInWorld 0 0 true 0
        = some { outEndPointIndex := 1, outLastOccupiedLengthIsIn2D := true
                 outLastOccupiedLength := 0 }
    ∧ (0 < 1 ∧ 1 < 3)
    ∧ fitInstances sceneInternalState (pathSymbol 1 4 straightPath) { id := 101, isTexture := true }
          (convertPoints31ToWorld sceneInternalState straightPath)
          (convertPoints31ToWorld sceneInternalState straightPath) 4 50 0 true 0
        = fitInstances sceneInternalState (pathSymbol 1 4 straightPath)
            { id := 101, isTexture := true }
            (convertPoints31ToWorld sceneInternalState straightPath)
            (convertPoints31ToWorld sceneInternalState straightPath) 4 3 0 true 0
    ∧ (fitInstances sceneInternalState (pathSymbol 1 4 straightPath)
          { id := 101, isTexture := true }
          (convertPoints31ToWorld sceneInternalState straightPath)
          (convertPoints31ToWorld sceneInternalState straightPath) 4 3 0 true 0).length = 1 :=
  ⟨by decide!,
    (C21_search_advances_and_loop_terminates sceneInternalState (pathSymbol 1 4 straightPath)
      { id := 101, isTexture := true } scenePathInWorld scenePathInWorld 4).1 3 0 0 true 0
      { outEndPointIndex := 1, outLastOccupiedLengthIsIn2D := true, outLastOccupiedLength := 0 }
      (by decide!),
    (C21_search_advances_and_loop_terminates sceneInternalState (pathSymbol 1 4 straightPath)
      { id := 101, isTexture := true } (convertPoints31ToWorld sceneInternalState straightPath)
      (convertPoints31ToWorld sceneInternalState straightPath) 4).2.2.1 50 0 true 0
      (by decide),
    by decide!⟩

/-! ## Lemmas: the direction of a subpath -/

theorem accumulateSubpathDirection_telescopes (path : List Vec2) :
    ∀ (count idx : Nat) (subpathDirection : Vec2), 0 < idx →
      accumulateSubpathDirection path count idx subpathDirection
        = subpathDirection.add ((pointAt path (idx + count - 1)).sub (pointAt path (idx - 1))) := by
  intro count
  induction count with
  | zero =>
    intro idx acc _
    simp [accumulateSubpathDirection, Vec2.add, Vec2.sub]
  | succ count ih =>
    intro idx acc hidx
    rw [accumulateSubpathDirection, ih (idx + 1) _ (by omega)]
    have h1 : idx + 1 + count - 1 = idx + (count + 1) - 1 := by omega
    have h2 : idx + 1 - 1 = idx := by omega
    rw [h1, h2]
    simp only [Vec2.add, Vec2.sub, Vec2.mk.injEq]
    constructor <;> ring

/-- C30. The loop of `computeSubpathDirection` telescopes: for indices start < end on the
path, the vector it accumulates, from the zero vector, before normalising is
path[end] - path[start], in exact arithmetic; so the direction returned is that
of the difference of the two end vertices, and two paths that agree at start and
at end give the same direction, whatever lies between. -/
theorem C30_computeSubpathDirection_telescopes (internalState : InternalState)
    (path : List Vec2) (startPointIndex endPointIndex : Nat)
    (hlt : startPointIndex < endPointIndex) (_hend : endPointIndex < path.length) :
    accumulateSubpathDirection path (endPointIndex + 1 - (startPointIndex + 1))
        (startPointIndex + 1) { x := 0, y := 0 }
      = (pointAt path endPointIndex).sub (pointAt path startPointIndex)
    ∧ computeSubpathDirection internalState path startPointIndex endPointIndex
      = internalState.normalize
          ((pointAt path endPointIndex).sub (pointAt path startPointIndex))
    ∧ ∀ other : List Vec2, endPointIndex < other.length →
        pointAt other startPointIndex = pointAt path startPointIndex →
        pointAt other endPointIndex = pointAt path endPointIndex →
        computeSubpathDirection internalState other startPointIndex endPointIndex
          = computeSubpathDirection internalState path startPointIndex endPointIndex := by
  have hacc : ∀ p : List Vec2,
      accumulateSubpathDirection p (endPointIndex + 1 - (startPointIndex + 1))
          (startPointIndex + 1) { x := 0, y := 0 }
        = (pointAt p endPointIndex).sub (pointAt p startPointIndex) := by
    intro p
    rw [accumulateSubpathDirection_telescopes p _ _ _ (by omega)]
    have h1 : startPointIndex + 1 + (endPointIndex + 1 - (startPointIndex + 1)) - 1
        = endPointIndex := by omega
    have h2 : startPointIndex + 1 - 1 = startPointIndex := by omega
    rw [h1, h2]
    simp [Vec2.add, Vec2.sub]
  refine ⟨hacc path, ?_, ?_⟩
  · unfold computeSubpathDirection
    rw [hacc path]
  · intro other _ hs he
    unfold computeSubpathDirection
    rw [hacc path, hacc other, hs, he]

/-- C30 on a scene: on a path of 4 vertices that leaves the line between its first
and its last vertex, the vector accumulated from vertex 0 to vertex 3 is the
difference (9, 3) of the two. -/
theorem C30_witness :
    accumulateSubpathDirection
        [{ x := 0, y := 0 }, { x := 5, y := 7 }, { x := 2, y := -4 }, { x := 9, y := 3 }]
        (3 + 1 - (0 + 1)) (0 + 1) { x := 0, y := 0 }
      = { x := 9, y := 3 } := by
  rw [(C30_computeSubpathDirection_telescopes sceneInternalState
    [{ x := 0, y := 0 }, { x := 5, y := 7 }, { x := 2, y := -4 }, { x := 9, y := 3 }] 0 3
    (by decide) (by decide)).1]
  decide!

/-! ## Lemmas: the incline test -/

theorem isInclineAllowedFor2D_iff (p0 p1 : Vec2) :
    isInclineAllowedFor2D p0 p1 = true
      ↔ (p1.y - p0.y) ^ 2 / ((p1.x - p0.x) ^ 2 + (p1.y - p0.y) ^ 2)
          ≤ inclineThresholdSinSq := by
  unfold isInclineAllowedFor2D
  simp only [Vec2.sub]
  have hnn : 0 ≤ (p1.y - p0.y) * (p1.y - p0.y)
      / ((p1.x - p0.x) * (p1.x - p0.x) + (p1.y - p0.y) * (p1.y - p0.y)) :=
    div_nonneg (mul_self_nonneg _) (add_nonneg (mul_self_nonneg _) (mul_self_nonneg _))
  simp only [abs_of_nonneg hnn, Bool.not_eq_true', decide_eq_false_iff_not, not_lt, gt_iff_lt,
    pow_two]

/-- C23. The incline test: for a screen segment v = p1 - p0 that is not of length
zero, `isInclineAllowedFor2D` returns true iff v.y² / (v.x² + v.y²) ≤ 0.0669872981;
a segment with v.y = 0 is allowed, a segment with v.x = 0 and v.y ≠ 0 is refused,
and the reversed segment gives the same result. The constant agrees with
sin²(15°) = (2 - √3) / 4 to its last digit: (2 - 4 t)² = 3 has its root between
the constant and the constant plus 10⁻¹⁰. -/
theorem C23_incline_test (p0 p1 : Vec2) :
    (p0 ≠ p1 →
      (isInclineAllowedFor2D p0 p1 = true
        ↔ (p1.y - p0.y) ^ 2 / ((p1.x - p0.x) ^ 2 + (p1.y - p0.y) ^ 2)
            ≤ 669872981 / 10000000000))
    ∧ (p0.y = p1.y → isInclineAllowedFor2D p0 p1 = true)
    ∧ (p0.x = p1.x → p0.y ≠ p1.y → isInclineAllowedFor2D p0 p1 = false)
    ∧ isInclineAllowedFor2D p1 p0 = isInclineAllowedFor2D p0 p1
    ∧ 3 ≤ (2 - 4 * inclineThresholdSinSq) ^ 2
    ∧ (2 - 4 * (inclineThresholdSinSq + 1 / 10000000000)) ^ 2 < 3 := by
  refine ⟨?_, ?_, ?_, ?_, ?_, ?_⟩
  · intro _
    exact isInclineAllowedFor2D_iff p0 p1
  · intro hy
    rw [isInclineAllowedFor2D_iff, hy]
    norm_num [inclineThresholdSinSq]
  · intro hx hy
    have hd : p1.y - p0.y ≠ 0 := fun h => hy (by linarith)
    have hq : (p1.y - p0.y) ^ 2 / ((p1.x - p0.x) ^ 2 + (p1.y - p0.y) ^ 2) = 1 := by
      rw [hx, sub_self]
      have : (p1.y - p0.y) ^ 2 ≠ 0 := pow_ne_zero 2 hd
      field_simp
    have hnot : ¬ isInclineAllowedFor2D p0 p1 = true := by
      rw [isInclineAllowedFor2D_iff, hq]
      norm_num [inclineThresholdSinSq]
    simpa using hnot
  · have h1 := isInclineAllowedFor2D_iff p1 p0
    have h2 := isInclineAllowedFor2D_iff p0 p1
    have hsq : (p0.y - p1.y) ^ 2 / ((p0.x - p1.x) ^ 2 + (p0.y - p1.y) ^ 2)
        = (p1.y - p0.y) ^ 2 / ((p1.x - p0.x) ^ 2 + (p1.y - p0.y) ^ 2) := by
      have e1 : (p0.y - p1.y) ^ 2 = (p1.y - p0.y) ^ 2 := by ring
      have e2 : (p0.x - p1.x) ^ 2 = (p1.x - p0.x) ^ 2 := by ring
      rw [e1, e2]
    rw [hsq] at h1
    exact Bool.eq_iff_iff.mpr (h1.trans h2.symm)
  · norm_num [inclineThresholdSinSq]
  · norm_num [inclineThresholdSinSq]

/-- C23 on segments from the origin: to (4, 1) the quotient is 1/17 and the segment
is allowed, to (3, 1) it is 1/10 and the segment is refused; the horizontal one to
(5, 0) is allowed, the vertical one to (0, 5) is refused. -/
theorem C23_witness :
    isInclineAllowedFor2D { x := 0, y := 0 } { x := 4, y := 1 } = true
    ∧ isInclineAllowedFor2D { x := 0, y := 0 } { x := 3, y := 1 } = false
    ∧ isInclineAllowedFor2D { x := 0, y := 0 } { x := 5, y := 0 } = true
    ∧ isInclineAllowedFor2D { x := 0, y := 0 } { x := 0, y := 5 } = false
    ∧ isInclineAllowedFor2D { x := 4, y := 1 } { x := 0, y := 0 } = true :=
  ⟨((C23_incline_test { x := 0, y := 0 } { x := 4, y := 1 }).1 (by decide)).mpr (by norm_num),
    by decide!,
    (C23_incline_test { x := 0, y := 0 } { x := 5, y := 0 }).2.1 rfl,
    (C23_incline_test { x := 0, y := 0 } { x := 0, y := 5 }).2.2.1 rfl (by decide!),
    by
      rw [(C23_incline_test { x := 0, y := 0 } { x := 4, y := 1 }).2.2.2.1]
      decide!⟩

/-! ## Lemmas: route segment results -/

theorem wrapInt32_of_small (n : Int) (h1 : -2147483648 ≤ n) (h2 : n < 2147483648) :
    wrapInt32 n = n := by
  unfold wrapInt32
  omega

theorem wrapInt32_abs_neg (k : Int) :
    wrapInt32 |wrapInt32 (-k)| = wrapInt32 |wrapInt32 k| := by
  unfold wrapInt32
  rcases abs_cases ((k + 2147483648) % 4294967296 - 2147483648) with ⟨h1, _⟩ | ⟨h1, _⟩ <;>
    rcases abs_cases ((-k + 2147483648) % 4294967296 - 2147483648) with ⟨h2, _⟩ | ⟨h2, _⟩ <;>
    rw [h1, h2] <;> omega

/-- C29. The read of `getPreAttachedRoutes` is always inside `preAttachedRoutes`: the
call never reads out of range, for every `routeInd`, overflow of the subtraction
included. When routeInd - startPointIndex is representable and st is its absolute
value, the call returns preAttachedRoutes[st] if st < size and the empty vector
otherwise, so also when `preAttachedRoutes` is empty; and it gives the same for
startPointIndex + k as for startPointIndex - k. -/
theorem C29_getPreAttachedRoutes_in_range (self : RouteSegmentResult) :
    (∀ routeInd : Int, (self.getPreAttachedRoutes routeInd).isSome = true)
    ∧ (∀ routeInd : Int, |routeInd - self.startPointIndex| < 2147483648 →
        ((routeInd - self.startPointIndex).natAbs < self.preAttachedRoutes.length →
          self.getPreAttachedRoutes routeInd
            = self.preAttachedRoutes[(routeInd - self.startPointIndex).natAbs]?)
        ∧ (self.preAttachedRoutes.length ≤ (routeInd - self.startPointIndex).natAbs →
            self.getPreAttachedRoutes routeInd = some []))
    ∧ (self.preAttachedRoutes = [] → ∀ routeInd : Int, self.getPreAttachedRoutes routeInd = some [])
    ∧ (∀ k : Int, self.getPreAttachedRoutes (self.startPointIndex + k)
        = self.getPreAttachedRoutes (self.startPointIndex - k)) := by
  refine ⟨?_, ?_, ?_, ?_⟩
  · intro routeInd
    unfold RouteSegmentResult.getPreAttachedRoutes
    dsimp only
    split
    · rename_i h
      rw [Bool.and_eq_true] at h
      have hlt := of_decide_eq_true h.2
      rw [List.getElem?_eq_getElem hlt]
      rfl
    · rfl
  · intro routeInd hsmall
    have hst : wrapInt32 |wrapInt32 (routeInd - self.startPointIndex)|
        = ((routeInd - self.startPointIndex).natAbs : Int) := by
      have h1 := abs_lt.mp hsmall
      have e1 : wrapInt32 (routeInd - self.startPointIndex) = routeInd - self.startPointIndex :=
        wrapInt32_of_small _ (by omega) (by omega)
      have hnn := abs_nonneg (routeInd - self.startPointIndex)
      have e2 : wrapInt32 |routeInd - self.startPointIndex|
          = |routeInd - self.startPointIndex| :=
        wrapInt32_of_small _ (by omega) hsmall
      rw [e1, e2]
      exact Int.abs_eq_natAbs _
    have hidx : (((routeInd - self.startPointIndex).natAbs : Int) % 18446744073709551616).toNat
        = (routeInd - self.startPointIndex).natAbs := by
      have h1 := abs_lt.mp hsmall
      omega
    unfold RouteSegmentResult.getPreAttachedRoutes
    dsimp only
    rw [hst, hidx]
    constructor
    · intro hlt
      have hne : self.preAttachedRoutes.isEmpty = false := by
        cases hpre : self.preAttachedRoutes with
        | nil => rw [hpre] at hlt; simp at hlt
        | cons a as => rfl
      rw [hne, decide_eq_true hlt]
      rfl
    · intro hge
      rw [decide_eq_false (by omega), Bool.and_false]
      rfl
  · intro hempty routeInd
    unfold RouteSegmentResult.getPreAttachedRoutes
    dsimp only
    rw [hempty]
    rfl
  · intro k
    unfold RouteSegmentResult.getPreAttachedRoutes
    dsimp only
    have h1 : self.startPointIndex + k - self.startPointIndex = k := by ring
    have h2 : self.startPointIndex - k - self.startPointIndex = -k := by ring
    rw [h1, h2, wrapInt32_abs_neg]

/-- C29 on a segment that starts at point 5 with routes pre-attached at three points:
the points 7 and 3, both 2 away, give the two routes of the third entry; the
point 8, 3 away, and a point far below every `int` difference give the empty
vector. -/
theorem C29_witness :
    sceneSegment.getPreAttachedRoutes 7 = some [plainSegment 11, plainSegment 12]
    ∧ sceneSegment.getPreAttachedRoutes 3 = some [plainSegment 11, plainSegment 12]
    ∧ sceneSegment.getPreAttachedRoutes 8 = some []
    ∧ (sceneSegment.getPreAttachedRoutes (-2147483643)).isSome = true :=
  ⟨((C29_getPreAttachedRoutes_in_range sceneSegment).2.1 7 (by decide)).1 (by decide),
    by
      have h := (C29_getPreAttachedRoutes_in_range sceneSegment).2.2.2 2
      exact h.symm.trans
        (((C29_getPreAttachedRoutes_in_range sceneSegment).2.1 7 (by decide)).1 (by decide)),
    ((C29_getPreAttachedRoutes_in_range sceneSegment).2.1 8 (by decide)).2 (by decide),
    (C29_getPreAttachedRoutes_in_range sceneSegment).1 (-2147483643)⟩

/-! ## Lemmas: the filter of the minimal distance to the same content -/

theorem applyMinDistance_false_iff {B : Type} (stage : Stage B) (box : B) (symbol : MapSymbol)
    (tree : IntersectionsQuadTree B) :
    applyMinDistanceToSameContentFromOtherSymbolFiltering stage box symbol tree = false
      ↔ ((0 < symbol.minDistance.x ∨ 0 < symbol.minDistance.y)
          ∧ symbol.content ≠ none
          ∧ stage.debugSettings.skipSymbolsMinDistanceToSameContentFromOtherSymbolCheck = false
          ∧ ∃ e ∈ tree.entries,
              stage.geometry.intersects
                  (stage.geometry.getEnlargedBy box symbol.minDistance) e.2 = true
              ∧ e.1.cls.isRaster = true
              ∧ e.1.groupPtr ≠ symbol.groupPtr
              ∧ e.1.content = symbol.content) := by
  unfold applyMinDistanceToSameContentFromOtherSymbolFiltering IntersectionsQuadTree.test
  by_cases h1 : (decide (symbol.minDistance.x ≤ 0) && decide (symbol.minDistance.y ≤ 0)
      || symbol.content.isNone) = true
  · rw [if_pos h1]
    constructor
    · intro h
      cases h
    · rintro ⟨hpos, hcontent, _, _⟩
      exfalso
      rw [Bool.or_eq_true, Bool.and_eq_true, decide_eq_true_eq, decide_eq_true_eq] at h1
      rcases h1 with ⟨hx, hy⟩ | hnone
      · rcases hpos with hpos | hpos <;> omega
      · exact hcontent (Option.isNone_iff_eq_none.mp hnone)
  · rw [if_neg h1]
    have hpos : 0 < symbol.minDistance.x ∨ 0 < symbol.minDistance.y := by
      by_contra hcon
      apply h1
      rw [Bool.or_eq_true, Bool.and_eq_true, decide_eq_true_eq, decide_eq_true_eq]
      left
      constructor <;> omega
    have hcontent : symbol.content ≠ none := by
      intro hnone
      apply h1
      rw [hnone]
      simp
    cases hskip : stage.debugSettings.skipSymbolsMinDistanceToSameContentFromOtherSymbolCheck with
    | true =>
      rw [if_pos rfl]
      constructor
      · intro h
        cases h
      · rintro ⟨_, _, h, _⟩
        cases h
    | false =>
      rw [if_neg Bool.false_ne_true]
      dsimp only
      constructor
      · intro h
        split_ifs at h with hany
        rw [List.any_eq_true] at hany
        obtain ⟨e, he, hpred⟩ := hany
        rw [Bool.and_eq_true] at hpred
        obtain ⟨hp, hint⟩ := hpred
        cases hr : e.1.cls.isRaster with
        | false => simp [hr] at hp
        | true =>
          simp only [hr, Bool.not_true, Bool.false_eq_true, if_false, Bool.and_eq_true, bne_iff_ne,
            ne_eq, beq_iff_eq] at hp
          exact ⟨hpos, hcontent, rfl, e, he, hint, hr, hp.1, hp.2⟩
      · rintro ⟨_, _, _, e, he, hint, hr, hg, hc⟩
        have hany : (tree.entries.any fun e =>
            (if (!e.1.cls.isRaster) = true then false
              else e.1.groupPtr != symbol.groupPtr && e.1.content == symbol.content)
            && stage.geometry.intersects
                (stage.geometry.getEnlargedBy box symbol.minDistance) e.2) = true := by
          rw [List.any_eq_true]
          refine ⟨e, he, ?_⟩
          simp [hr, hg, hc, hint]
        rw [if_pos hany]

/-- C25. Duplicate-content suppression: `applyMinDistanceToSameContentFromOtherSymbolFiltering`
returns false iff the minimal distance of the symbol is positive in at least one
axis, its content is not null, the debug toggle that skips the check is off, and
the index holds an entry whose box overlaps the box of the symbol enlarged by
the minimal distance and whose symbol is a raster symbol of another group with
equal content; in every other case it returns true. The index is only read:
when the filter rejects, `plotBillboardRasterSymbol` and `plotOnPathSymbol` return
false with the index as it was. -/
theorem C25_min_distance_rejects_iff {B : Type} (stage : Stage B) (box : B) (symbol : MapSymbol)
    (tree : IntersectionsQuadTree B) :
    (applyMinDistanceToSameContentFromOtherSymbolFiltering stage box symbol tree = false
      ↔ ((0 < symbol.minDistance.x ∨ 0 < symbol.minDistance.y)
          ∧ symbol.content ≠ none
          ∧ stage.debugSettings.skipSymbolsMinDistanceToSameContentFromOtherSymbolCheck = false
          ∧ ∃ e ∈ tree.entries,
              stage.geometry.intersects
                  (stage.geometry.getEnlargedBy box symbol.minDistance) e.2 = true
              ∧ e.1.cls.isRaster = true
              ∧ e.1.groupPtr ≠ symbol.groupPtr
              ∧ e.1.content = symbol.content))
    ∧ (applyMinDistanceToSameContentFromOtherSymbolFiltering stage box symbol tree = true
      ↔ ¬ ((0 < symbol.minDistance.x ∨ 0 < symbol.minDistance.y)
          ∧ symbol.content ≠ none
          ∧ stage.debugSettings.skipSymbolsMinDistanceToSameContentFromOtherSymbolCheck = false
          ∧ ∃ e ∈ tree.entries,
              stage.geometry.intersects
                  (stage.geometry.getEnlargedBy box symbol.minDistance) e.2 = true
              ∧ e.1.cls.isRaster = true
              ∧ e.1.groupPtr ≠ symbol.groupPtr
              ∧ e.1.content = symbol.content))
    ∧ (applyMinDistanceToSameContentFromOtherSymbolFiltering stage box symbol tree = false →
        (∀ r : RenderableSymbol, r.mapSymbol = symbol → stage.boundsInWindow r = box →
          plotBillboardRasterSymbol stage r tree = (false, tree))
        ∧ (∀ r : RenderableSymbol, r.mapSymbol = symbol →
            (if r.is2D then stage.calculateOnPath2dOOBB r else stage.calculateOnPath3dOOBB r) = box →
            plotOnPathSymbol stage r tree = (false, tree))) := by
  have hiff := applyMinDistance_false_iff stage box symbol tree
  refine ⟨hiff, ?_, ?_⟩
  · rw [← hiff]
    simp
  · intro hfalse
    constructor
    · intro r hr hbox
      rw [plotBillboardRasterSymbol_eq, hr, hbox, hfalse]
      simp
    · intro r hr hbox
      rw [plotOnPathSymbol_eq, hr, hbox, hfalse]
      simp

/-- C25 on a scene: the index holds a shield with content "A" of group 9 in column 1.
A symbol of group 1 with content "A" in column 0, whose box enlarged by 5 pixels
reaches column 1, is rejected; with content "B", with a null content, with a
minimal distance of 0, or as a symbol of group 9 it passes. -/
theorem C25_witness :
    applyMinDistanceToSameContentFromOtherSymbolFiltering (sceneStage (sceneLock []))
        (sceneBox (sceneBillboard (flaggedSymbol 1 1 [] (some "A") { x := 5, y := 0 }) 0))
        (flaggedSymbol 1 1 [] (some "A") { x := 5, y := 0 }) shieldIndex = false
    ∧ plotBillboardRasterSymbol (sceneStage (sceneLock []))
        (sceneBillboard (flaggedSymbol 1 1 [] (some "A") { x := 5, y := 0 }) 0) shieldIndex
        = (false, shieldIndex)
    ∧ applyMinDistanceToSameContentFromOtherSymbolFiltering (sceneStage (sceneLock []))
        (sceneBox (sceneBillboard (flaggedSymbol 1 1 [] (some "B") { x := 5, y := 0 }) 0))
        (flaggedSymbol 1 1 [] (some "B") { x := 5, y := 0 }) shieldIndex = true
    ∧ applyMinDistanceToSameContentFromOtherSymbolFiltering (sceneStage (sceneLock []))
        (sceneBox (sceneBillboard (flaggedSymbol 1 1 [] none { x := 5, y := 0 }) 0))
        (flaggedSymbol 1 1 [] none { x := 5, y := 0 }) shieldIndex = true
    ∧ applyMinDistanceToSameContentFromOtherSymbolFiltering (sceneStage (sceneLock []))
        (sceneBox (sceneBillboard (flaggedSymbol 1 1 [] (some "A") { x := 0, y := 0 }) 0))
        (flaggedSymbol 1 1 [] (some "A") { x := 0, y := 0 }) shieldIndex = true
    ∧ applyMinDistanceToSameContentFromOtherSymbolFiltering (sceneStage (sceneLock []))
        (sceneBox (sceneBillboard (flaggedSymbol 2 9 [] (some "A") { x := 5, y := 0 }) 0))
        (flaggedSymbol 2 9 [] (some "A") { x := 5, y := 0 }) shieldIndex = true := by
  have hrej : applyMinDistanceToSameContentFromOtherSymbolFiltering (sceneStage (sceneLock []))
      (sceneBox (sceneBillboard (flaggedSymbol 1 1 [] (some "A") { x := 5, y := 0 }) 0))
      (flaggedSymbol 1 1 [] (some "A") { x := 5, y := 0 }) shieldIndex = false :=
    (C25_min_distance_rejects_iff (sceneStage (sceneLock []))
      (sceneBox (sceneBillboard (flaggedSymbol 1 1 [] (some "A") { x := 5, y := 0 }) 0))
      (flaggedSymbol 1 1 [] (some "A") { x := 5, y := 0 }) shieldIndex).1.mpr
      ⟨Or.inl (by decide), by decide, rfl,
        (flaggedSymbol 91 9 [] (some "A") { x := 0, y := 0 },
          sceneBox (sceneBillboard (flaggedSymbol 91 9 [] (some "A") { x := 0, y := 0 }) 1)),
        by decide, by decide, by decide, by decide, by decide⟩
  refine ⟨hrej, ?_, by decide, by decide, by decide, by decide⟩
  exact ((C25_min_distance_rejects_iff (sceneStage (sceneLock []))
    (sceneBox (sceneBillboard (flaggedSymbol 1 1 [] (some "A") { x := 5, y := 0 }) 0))
    (flaggedSymbol 1 1 [] (some "A") { x := 5, y := 0 }) shieldIndex).2.2 hrej).1
    (sceneBillboard (flaggedSymbol 1 1 [] (some "A") { x := 5, y := 0 }) 0) rfl rfl

/-! ## Lemmas: the rules of one group -/

theorem resolveGroup_congr {B : Type} (stage1 stage2 : Stage B)
    (plottedOfGroup : List RenderableSymbol)
    (hgroup : ∀ r ∈ plottedOfGroup, stage1.lock r.mapSymbol.group = stage2.lock r.mapSymbol.group) :
    resolveGroup stage1 plottedOfGroup = resolveGroup stage2 plottedOfGroup := by
  unfold resolveGroup
  cases plottedOfGroup with
  | nil => rfl
  | cons first rest => exact hgroup first (List.mem_cons_self _ _)

/-- C24. The rules of a group are independent of the other groups: take two runs of
`obtainRenderableSymbols`, on any two states of the renderer and any two lists of
layers, and a group pointer. If the plotted renderables of that group are the
same in both runs and the weak references of their symbols lock to the same
group (the same flags and the same symbols, or no group) in both, then the
renderables of that group in the two outputs are the same, whatever was plotted
or discarded for the other groups. -/
theorem C24_group_rules_independent {B : Type} (stage1 stage2 : Stage B)
    (layers1 layers2 : List (List RenderableSymbol)) (out1 out2 : List RenderableSymbol)
    (groupPtr : Nat)
    (hplotted : ofGroup (plottedRenderables stage1 layers1) groupPtr
      = ofGroup (plottedRenderables stage2 layers2) groupPtr)
    (hgroup : ∀ r ∈ ofGroup (plottedRenderables stage1 layers1) groupPtr,
      stage1.lock r.mapSymbol.group = stage2.lock r.mapSymbol.group) :
    ofGroup (obtainRenderableSymbols stage1 layers1 out1) groupPtr
      = ofGroup (obtainRenderableSymbols stage2 layers2 out2) groupPtr := by
  rw [ofGroup_obtainRenderableSymbols, ofGroup_obtainRenderableSymbols, ← hplotted,
    resolveGroup_congr stage1 stage2 _ hgroup]

/-- C24 on two scenes with ShowAllCaptionsOrNoCaptions on group 1. In the first the
symbol of group 9 is plotted and blocks the second caption of group 1; in the
second there is no symbol of group 9, its group is gone, and the second caption
is not among the renderables. In both the icon and the first caption of group 1
are plotted, and in both the output holds the icon alone for group 1. -/
theorem C24_witness :
    ofGroup (plottedRenderables (sceneStage (sceneLock [.ShowAllCaptionsOrNoCaptions]))
        captionBlockedLayers) 1
      = ofGroup (plottedRenderables
          (sceneStage (fun handle =>
            if handle = 1 then some (sceneGroup [.ShowAllCaptionsOrNoCaptions]) else none))
          [[sceneBillboard (sceneSymbol 2 1 .Caption) 1, sceneBillboard (sceneSymbol 1 1 .Icon) 0]])
          1
    ∧ (plottedRenderables (sceneStage (sceneLock [.ShowAllCaptionsOrNoCaptions]))
        captionBlockedLayers).length = 3
    ∧ ofGroup (obtainRenderableSymbols (sceneStage (sceneLock [.ShowAllCaptionsOrNoCaptions]))
        captionBlockedLayers []) 1
      = ofGroup (obtainRenderableSymbols
          (sceneStage (fun handle =>
            if handle = 1 then some (sceneGroup [.ShowAllCaptionsOrNoCaptions]) else none))
          [[sceneBillboard (sceneSymbol 2 1 .Caption) 1, sceneBillboard (sceneSymbol 1 1 .Icon) 0]]
          []) 1
    ∧ ofGroup (obtainRenderableSymbols (sceneStage (sceneLock [.ShowAllCaptionsOrNoCaptions]))
        captionBlockedLayers []) 1 = [sceneBillboard (sceneSymbol 1 1 .Icon) 0] := by
  have hplotted : ofGroup (plottedRenderables
      (sceneStage (sceneLock [.ShowAllCaptionsOrNoCaptions])) captionBlockedLayers) 1
      = ofGroup (plottedRenderables
          (sceneStage (fun handle =>
            if handle = 1 then some (sceneGroup [.ShowAllCaptionsOrNoCaptions]) else none))
          [[sceneBillboard (sceneSymbol 2 1 .Caption) 1, sceneBillboard (sceneSymbol 1 1 .Icon) 0]])
          1 := by decide
  have hlist : ofGroup (plottedRenderables
      (sceneStage (sceneLock [.ShowAllCaptionsOrNoCaptions])) captionBlockedLayers) 1
      = [sceneBillboard (sceneSymbol 1 1 .Icon) 0, sceneBillboard (sceneSymbol 2 1 .Caption) 1] := by
    decide
  refine ⟨hplotted, by decide, ?_, by decide⟩
  apply C24_group_rules_independent _ _ _ _ _ _ _ hplotted
  intro r hr
  rw [hlist] at hr
  simp only [List.mem_cons, List.mem_singleton, List.not_mem_nil, or_false] at hr
  rcases hr with rfl | rfl <;> rfl

/-! ## Lemmas: the pass applied to its own output -/

theorem foldl_fileRenderable_filed (plotted : List RenderableSymbol) :
    ∀ (filed : PlottedSymbols × List (Nat × List PlottedSymbolRef)), Filed filed.1 filed.2 →
      Filed (plotted.foldl fileRenderable filed).1 (plotted.foldl fileRenderable filed).2
        ∧ (plotted.foldl fileRenderable filed).1.map Prod.snd
            = filed.1.map Prod.snd ++ plotted := by
  induction plotted with
  | nil =>
    intro filed h
    exact ⟨h, by simp⟩
  | cons r rest ih =>
    intro filed h
    rw [List.foldl_cons]
    have hpush : Filed (fileRenderable filed r).1 (fileRenderable filed r).2 := h.push r
    obtain ⟨h1, h2⟩ := ih _ hpush
    refine ⟨h1, ?_⟩
    rw [h2]
    simp [fileRenderable]

theorem consistencyPassOn_eq_filter {B : Type} (stage : Stage B)
    (plotted : List RenderableSymbol) :
    consistencyPassOn stage plotted
      = plotted.filter (fun r => !discardedByRules stage plotted r) := by
  unfold consistencyPassOn
  obtain ⟨h1, h2⟩ := foldl_fileRenderable_filed plotted ([], []) Filed.init
  have h := groupConsistencyPass_filed stage h1
  rw [h2] at h
  simpa using h

theorem ofGroup_filter_discardedByRules {B : Type} (stage : Stage B)
    (P : List RenderableSymbol) (k : Nat) :
    ofGroup (P.filter (fun r => !discardedByRules stage P r)) k
      = match resolveGroup stage (ofGroup P k) with
        | none => []
        | some g =>
          match ruleVerdict g (ofGroup P k) with
          | .keep => ofGroup P k
          | .discardGroup => []
          | .discardCaptions => (ofGroup P k).filter (fun r => !isCaption r) := by
  have hswap : ofGroup (P.filter (fun r => !discardedByRules stage P r)) k
      = (ofGroup P k).filter (fun r => !discardedByRules stage P r) := by
    unfold ofGroup
    rw [List.filter_filter, List.filter_filter]
    apply List.filter_congr
    intro r _
    exact Bool.and_comm _ _
  rw [hswap]
  have hcongr : (ofGroup P k).filter (fun r => !discardedByRules stage P r)
      = (ofGroup P k).filter (fun r =>
          !(match resolveGroup stage (ofGroup P k) with
            | none => true
            | some g =>
              match ruleVerdict g (ofGroup P k) with
              | .keep => false
              | .discardGroup => true
              | .discardCaptions => isCaption r)) := by
    apply List.filter_congr
    intro r hr
    have hk : r.mapSymbol.groupPtr = k := ((mem_ofGroup P k r).mp hr).2
    unfold discardedByRules
    rw [hk]
  rw [hcongr]
  cases resolveGroup stage (ofGroup P k) with
  | none => simp
  | some g =>
    dsimp only
    cases ruleVerdict g (ofGroup P k) with
    | keep => simp
    | discardGroup => simp
    | discardCaptions => rfl

theorem lock_of_resolveGroup {B : Type} (stage : Stage B) (l : List RenderableSymbol)
    (g : MapSymbolsGroup) (hres : resolveGroup stage l = some g)
    (hsame : ∀ a ∈ l, ∀ b ∈ l, a.mapSymbol.group = b.mapSymbol.group) :
    ∀ q ∈ l, stage.lock q.mapSymbol.group = some g := by
  cases l with
  | nil =>
    intro q hq
    cases hq
  | cons a rest =>
    intro q hq
    rw [hsame q hq a (List.mem_cons_self _ _)]
    exact hres

theorem resolveGroup_of_forall {B : Type} (stage : Stage B) (l : List RenderableSymbol)
    (g : MapSymbolsGroup) (r : RenderableSymbol) (hr : r ∈ l)
    (h : ∀ q ∈ l, stage.lock q.mapSymbol.group = some g) :
    resolveGroup stage l = some g := by
  cases l with
  | nil => cases hr
  | cons a rest => exact h a (List.mem_cons_self _ _)

/-- When each symbol of a group is plotted at most once and all of them are plotted,
the plotted captions are the captions of the group. -/
theorem captions_of_complete_group (g : MapSymbolsGroup) (Q : List RenderableSymbol)
    (hnodup : (Q.map (fun r => r.mapSymbol)).Nodup)
    (hsub : ∀ q ∈ Q, q.mapSymbol ∈ g.symbols)
    (hlen : Q.length = g.symbols.length) :
    (Q.filter isCaption).length = g.numberOfSymbolsWithContentClass .Caption := by
  have hsubset : Q.map (fun r => r.mapSymbol) ⊆ g.symbols := by
    intro s hs
    obtain ⟨q, hq, rfl⟩ := List.mem_map.mp hs
    exact hsub q hq
  have hperm : (Q.map (fun r => r.mapSymbol)).Perm g.symbols :=
    (List.subperm_of_subset hnodup hsubset).perm_of_length_le (by simp [hlen])
  have h1 := (hperm.filter (fun s => s.contentClass == ContentClass.Caption)).length_eq
  rw [List.filter_map, List.length_map] at h1
  unfold MapSymbolsGroup.numberOfSymbolsWithContentClass
  rw [← h1]
  rfl

theorem ruleVerdict_discardCaptions (g : MapSymbolsGroup) (Q : List RenderableSymbol)
    (h : ruleVerdict g Q = .discardCaptions) :
    isSet g.presentationMode .ShowAnything = false
      ∧ allOrNothingFires g Q = false
      ∧ iconRuleFires g Q = false
      ∧ captionsRuleFires g Q = true := by
  unfold ruleVerdict at h
  split_ifs at h with h1 h2 h3 h4
  exact ⟨by simpa using h1, by simpa using h2, by simpa using h3, h4⟩

/-- The renderables that the pass leaves are not discarded by the rules applied
to what it left, when no symbol is plotted twice, the symbols of a group hold
the same weak reference, and the plotted symbols are among the distinct symbols
of their group. -/
theorem not_discarded_after_pass {B : Type} (stage : Stage B) (P : List RenderableSymbol)
    (honce : (P.map (fun r => r.mapSymbol.id)).Nodup)
    (hgroup : ∀ a ∈ P, ∀ b ∈ P, a.mapSymbol.groupPtr = b.mapSymbol.groupPtr →
      a.mapSymbol.group = b.mapSymbol.group)
    (hmember : ∀ r ∈ P, ∀ g, stage.lock r.mapSymbol.group = some g →
      r.mapSymbol ∈ g.symbols ∧ (g.symbols.map (fun s => s.id)).Nodup)
    (r : RenderableSymbol) (hr : r ∈ P.filter (fun r => !discardedByRules stage P r)) :
    discardedByRules stage (P.filter (fun r => !discardedByRules stage P r)) r = false := by
  obtain ⟨hrP, hkeep⟩ := List.mem_filter.mp hr
  have hkeep2 : discardedByRules stage P r = false := by simpa using hkeep
  have hQ' := ofGroup_filter_discardedByRules stage P r.mapSymbol.groupPtr
  have hrQ' : r ∈ ofGroup (P.filter (fun r => !discardedByRules stage P r)) r.mapSymbol.groupPtr :=
    (mem_ofGroup _ _ _).mpr ⟨hr, rfl⟩
  have hsameQ : ∀ a ∈ ofGroup P r.mapSymbol.groupPtr, ∀ b ∈ ofGroup P r.mapSymbol.groupPtr,
      a.mapSymbol.group = b.mapSymbol.group := by
    intro a ha b hb
    obtain ⟨haP, hak⟩ := (mem_ofGroup _ _ _).mp ha
    obtain ⟨hbP, hbk⟩ := (mem_ofGroup _ _ _).mp hb
    exact hgroup a haP b hbP (hak.trans hbk.symm)
  have hdef : ∀ L : List RenderableSymbol,
      discardedByRules stage L r
        = match resolveGroup stage (ofGroup L r.mapSymbol.groupPtr) with
          | none => true
          | some g =>
            match ruleVerdict g (ofGroup L r.mapSymbol.groupPtr) with
            | .keep => false
            | .discardGroup => true
            | .discardCaptions => isCaption r := fun _ => rfl
  rw [hdef P] at hkeep2
  rw [hdef (P.filter (fun r => !discardedByRules stage P r))]
  cases hres : resolveGroup stage (ofGroup P r.mapSymbol.groupPtr) with
  | none =>
    rw [hres] at hkeep2
    cases hkeep2
  | some g =>
    rw [hres] at hkeep2 hQ'
    dsimp only at hkeep2 hQ'
    have hlockQ := lock_of_resolveGroup stage _ g hres hsameQ
    cases hv : ruleVerdict g (ofGroup P r.mapSymbol.groupPtr) with
    | keep =>
      rw [hv] at hQ'
      dsimp only at hQ'
      rw [hQ', hres]
      dsimp only
      rw [hv]
    | discardGroup =>
      rw [hv] at hkeep2
      cases hkeep2
    | discardCaptions =>
      rw [hv] at hkeep2 hQ'
      dsimp only at hkeep2 hQ'
      rw [hQ'] at hrQ' ⊢
      obtain ⟨hany, hall, hicon, hcap⟩ := ruleVerdict_discardCaptions g _ hv
      have hsubQ : ∀ q ∈ (ofGroup P r.mapSymbol.groupPtr).filter (fun r => !isCaption r),
          q ∈ ofGroup P r.mapSymbol.groupPtr := fun q hq => (List.mem_filter.mp hq).1
      have hres' : resolveGroup stage
          ((ofGroup P r.mapSymbol.groupPtr).filter (fun r => !isCaption r)) = some g :=
        resolveGroup_of_forall stage _ g r hrQ' (fun q hq => hlockQ q (hsubQ q hq))
      rw [hres']
      dsimp only
      have hall' : allOrNothingFires g
          ((ofGroup P r.mapSymbol.groupPtr).filter (fun r => !isCaption r)) = false := by
        unfold allOrNothingFires at hall ⊢
        cases hflag : isSet g.presentationMode .ShowAllOrNothing with
        | false => rfl
        | true =>
          exfalso
          rw [hflag, Bool.true_and] at hall
          have hlen : (ofGroup P r.mapSymbol.groupPtr).length = g.symbols.length := by
            simpa using hall
          have hnodup : ((ofGroup P r.mapSymbol.groupPtr).map (fun r => r.mapSymbol)).Nodup := by
            have hP : (P.map (fun r => r.mapSymbol)).Nodup := by
              apply List.Nodup.of_map (fun s : MapSymbol => s.id)
              rw [List.map_map]
              exact honce
            exact hP.sublist ((List.filter_sublist P).map _)
          have hcount := captions_of_complete_group g _ hnodup
            (fun q hq => (hmember q ((mem_ofGroup _ _ _).mp hq).1 g (hlockQ q hq)).1) hlen
          unfold captionsRuleFires at hcap
          rw [hcount] at hcap
          simp at hcap
      have hicon' : iconRuleFires g
          ((ofGroup P r.mapSymbol.groupPtr).filter (fun r => !isCaption r)) = false := by
        unfold iconRuleFires at hicon ⊢
        cases hflag : isSet g.presentationMode .ShowNoneIfIconIsNotShown with
        | false => rfl
        | true =>
          rw [hflag, Bool.true_and] at hicon
          rw [Bool.true_and]
          cases hfirst : g.getFirstSymbolWithContentClass .Icon with
          | none => rfl
          | some icon =>
            rw [hfirst] at hicon
            dsimp only at hicon ⊢
            have hanyQ : (ofGroup P r.mapSymbol.groupPtr).any
                (fun r => r.mapSymbol.id == icon.id) = true := by simpa using hicon
            obtain ⟨q, hq, hqid⟩ := List.any_eq_true.mp hanyQ
            have hqm := hmember q ((mem_ofGroup _ _ _).mp hq).1 g (hlockQ q hq)
            have hiconMem : icon ∈ g.symbols := List.mem_of_find?_eq_some hfirst
            have hiconClass : icon.contentClass = .Icon := by
              have := List.find?_some hfirst
              simpa using this
            have hqicon : q.mapSymbol = icon :=
              List.inj_on_of_nodup_map hqm.2 hqm.1 hiconMem (by simpa using hqid)
            have hqnc : isCaption q = false := by
              unfold isCaption
              rw [hqicon, hiconClass]
              rfl
            have hq' : q ∈ (ofGroup P r.mapSymbol.groupPtr).filter (fun r => !isCaption r) :=
              List.mem_filter.mpr ⟨hq, by simp [hqnc]⟩
            have : ((ofGroup P r.mapSymbol.groupPtr).filter (fun r => !isCaption r)).any
                (fun r => r.mapSymbol.id == icon.id) = true :=
              List.any_eq_true.mpr ⟨q, hq', hqid⟩
            rw [this]
            rfl
      unfold ruleVerdict
      rw [hany, hall', hicon']
      simp only [Bool.false_eq_true, if_false]
      split_ifs
      · exact hkeep2
      · rfl

/-- The condition that no symbol is plotted twice cannot be dropped. Group 1 has an
icon and two captions, with ShowAllOrNothing and ShowAllCaptionsOrNoCaptions
set; were the icon given two plotted renderables and the first caption one, the
pass would count 3 references for 3 symbols, find 1 caption plotted of 2 and
erase it, leaving the two renderables of the icon; applied to those it would
count 2 references for 3 symbols and erase both. -/
theorem consistencyPassOn_repeated_symbol :
    plottedRenderables (sceneStage (sceneLock [.ShowAllOrNothing, .ShowAllCaptionsOrNoCaptions]))
        repeatedIconLayers
      = [sceneBillboard (sceneSymbol 1 1 .Icon) 0, sceneBillboard (sceneSymbol 1 1 .Icon) 1,
          sceneBillboard (sceneSymbol 2 1 .Caption) 2]
    ∧ obtainRenderableSymbols
        (sceneStage (sceneLock [.ShowAllOrNothing, .ShowAllCaptionsOrNoCaptions]))
        repeatedIconLayers []
      = [sceneBillboard (sceneSymbol 1 1 .Icon) 0, sceneBillboard (sceneSymbol 1 1 .Icon) 1]
    ∧ consistencyPassOn (sceneStage (sceneLock [.ShowAllOrNothing, .ShowAllCaptionsOrNoCaptions]))
        (plottedRenderables
          (sceneStage (sceneLock [.ShowAllOrNothing, .ShowAllCaptionsOrNoCaptions]))
          repeatedIconLayers)
      = [sceneBillboard (sceneSymbol 1 1 .Icon) 0, sceneBillboard (sceneSymbol 1 1 .Icon) 1]
    ∧ consistencyPassOn (sceneStage (sceneLock [.ShowAllOrNothing, .ShowAllCaptionsOrNoCaptions]))
        [sceneBillboard (sceneSymbol 1 1 .Icon) 0, sceneBillboard (sceneSymbol 1 1 .Icon) 1]
      = [] := by
  refine ⟨by decide, by decide, by decide, by decide⟩

/-- C28. The group-consistency pass is idempotent. The plotted sequence is one that
the plotting loop can build: each map symbol has at most one renderable in it
(the producers make one renderable for a published symbol), the symbols of one
group pointer hold the same weak reference to their group, and each plotted
symbol of a live group is one of the symbols of that group, which are distinct
objects. The pass applied to its output then returns that output unchanged;
`obtainRenderableSymbols` returns the pass applied to the renderables it plotted,
so that the pass applied to the output of `obtainRenderableSymbols` returns that
output. -/
theorem C28_pass_idempotent_when_plotted_once {B : Type} (stage : Stage B)
    (plotted : List RenderableSymbol)
    (honce : (plotted.map (fun r => r.mapSymbol.id)).Nodup)
    (hgroup : ∀ a ∈ plotted, ∀ b ∈ plotted, a.mapSymbol.groupPtr = b.mapSymbol.groupPtr →
      a.mapSymbol.group = b.mapSymbol.group)
    (hmember : ∀ r ∈ plotted, ∀ g, stage.lock r.mapSymbol.group = some g →
      r.mapSymbol ∈ g.symbols ∧ (g.symbols.map (fun s => s.id)).Nodup) :
    consistencyPassOn stage (consistencyPassOn stage plotted) = consistencyPassOn stage plotted
    ∧ ∀ (layers : List (List RenderableSymbol)) (out : List RenderableSymbol),
        plottedRenderables stage layers = plotted →
        obtainRenderableSymbols stage layers out = consistencyPassOn stage plotted
        ∧ consistencyPassOn stage (obtainRenderableSymbols stage layers out)
            = obtainRenderableSymbols stage layers out := by
  have hidem : consistencyPassOn stage (consistencyPassOn stage plotted)
      = consistencyPassOn stage plotted := by
    rw [consistencyPassOn_eq_filter stage plotted, consistencyPassOn_eq_filter]
    apply List.filter_eq_self.mpr
    intro r hr
    rw [not_discarded_after_pass stage plotted honce hgroup hmember r hr]
    rfl
  refine ⟨hidem, ?_⟩
  intro layers out hplotted
  have hout : obtainRenderableSymbols stage layers out = consistencyPassOn stage plotted := by
    rw [obtainRenderableSymbols_eq_filter, consistencyPassOn_eq_filter, hplotted]
  rw [hout]
  exact ⟨rfl, hidem⟩

/-- C28 on a scene: the symbol of group 9, the icon and two of the three
captions of group 1 are plotted, each once; the pass erases the two captions, and
applied to the two renderables it left it returns them. -/
theorem C28_witness :
    (plottedRenderables (sceneStage threeCaptionsLock) thirdCaptionBlockedLayers).map
        (fun r => r.mapSymbol.id) = [90, 1, 2, 3]
    ∧ (obtainRenderableSymbols (sceneStage threeCaptionsLock) thirdCaptionBlockedLayers []).map
        (fun r => r.mapSymbol.id) = [90, 1]
    ∧ consistencyPassOn (sceneStage threeCaptionsLock)
        (obtainRenderableSymbols (sceneStage threeCaptionsLock) thirdCaptionBlockedLayers [])
      = obtainRenderableSymbols (sceneStage threeCaptionsLock) thirdCaptionBlockedLayers [] := by
  refine ⟨by decide, by decide, ?_⟩
  have hdec : ∀ r ∈ plottedRenderables (sceneStage threeCaptionsLock) thirdCaptionBlockedLayers,
      ∀ g ∈ (sceneStage threeCaptionsLock).lock r.mapSymbol.group,
        r.mapSymbol ∈ g.symbols ∧ (g.symbols.map (fun s => s.id)).Nodup := by decide
  exact ((C28_pass_idempotent_when_plotted_once (sceneStage threeCaptionsLock)
    (plottedRenderables (sceneStage threeCaptionsLock) thirdCaptionBlockedLayers)
    (by decide) (by decide)
    (fun r hr g hg => hdec r hr g hg)).2 thirdCaptionBlockedLayers [] rfl).2

/-! ## Lemmas: the search in 3D -/

theorem lengthInWorld_succ (internalState : InternalState) (pathInWorld pathOnScreen : List Vec2)
    (startPointIndex t : Nat) (ht : startPointIndex + 1 ≤ t) :
    lengthInWorld internalState pathInWorld startPointIndex t
      = lengthInWorld internalState pathInWorld startPointIndex (t - 1)
        + segmentLength internalState pathInWorld pathOnScreen false t := by
  unfold lengthInWorld segmentLength
  have h1 : t - startPointIndex = (t - 1 - startPointIndex) + 1 := by omega
  have h2 : startPointIndex + 1 + 1 * (t - 1 - startPointIndex) = t := by omega
  rw [h1, List.range'_concat, List.map_append, List.sum_append, h2]
  simp

theorem lengthInWorld_self (internalState : InternalState) (pathInWorld : List Vec2)
    (startPointIndex : Nat) :
    lengthInWorld internalState pathInWorld startPointIndex startPointIndex = 0 := by
  simp [lengthInWorld]

/-- The loop of the search in 3D returns the first vertex at which the length
walked in the world covers the request. -/
theorem walkPath_in3D (internalState : InternalState) (pathInWorld pathOnScreen : List Vec2)
    (startPointIndex : Nat) (req occ : ℚ) :
    ∀ (remaining t : Nat) (ent : ℚ),
      startPointIndex + 1 ≤ t →
      ent = lengthInWorld internalState pathInWorld startPointIndex (t - 1) →
      walkPath internalState pathInWorld pathOnScreen startPointIndex remaining t false req ent occ
        = match (List.range' t remaining).find?
              (fun k => decide
                (lengthInWorld internalState pathInWorld startPointIndex k - occ ≥ req)) with
          | some k =>
            some { outEndPointIndex := k
                   outLastOccupiedLengthIsIn2D := false
                   outLastOccupiedLength :=
                     internalState.distance (pointAt pathInWorld (k - 1)) (pointAt pathInWorld k)
                     - (lengthInWorld internalState pathInWorld startPointIndex k - occ - req) }
          | none => none := by
  intro remaining
  induction remaining with
  | zero =>
    intro t ent _ _
    simp [walkPath]
  | succ remaining ih =>
    intro t ent ht hent
    have hlen := lengthInWorld_succ internalState pathInWorld pathOnScreen startPointIndex t ht
    rw [walkPath_succ, checkSegmentFor2D_in3D]
    dsimp only
    rw [List.range'_succ, List.find?_cons, hent, ← hlen]
    by_cases hc : lengthInWorld internalState pathInWorld startPointIndex t - occ ≥ req
    · rw [if_pos hc]
      have hd : decide (lengthInWorld internalState pathInWorld startPointIndex t - occ ≥ req)
          = true := decide_eq_true hc
      rw [hd]
      rfl
    · rw [if_neg hc]
      have hd : decide (lengthInWorld internalState pathInWorld startPointIndex t - occ ≥ req)
          = false := decide_eq_false hc
      rw [hd]
      dsimp only
      exact ih (t + 1) _ (by omega) (by simp)

theorem tryToFindSpaceOnPath_in3D (internalState : InternalState) (pathSize : Nat)
    (pathInWorld pathOnScreen : List Vec2) (r : ℚ) (startPointIndex : Nat) (a : ℚ) :
    tryToFindSpaceOnPath internalState pathSize pathInWorld pathOnScreen r startPointIndex false a
      = match (List.range' (startPointIndex + 1) (pathSize - (startPointIndex + 1))).find?
            (fun k => decide
              (lengthInWorld internalState pathInWorld startPointIndex k - a
                ≥ r * internalState.pixelInWorldProjectionScale)) with
        | some k =>
          some { outEndPointIndex := k
                 outLastOccupiedLengthIsIn2D := false
                 outLastOccupiedLength :=
                   internalState.distance (pointAt pathInWorld (k - 1)) (pointAt pathInWorld k)
                   - (lengthInWorld internalState pathInWorld startPointIndex k - a
                      - r * internalState.pixelInWorldProjectionScale) }
        | none => none := by
  unfold tryToFindSpaceOnPath
  dsimp only
  rw [if_neg Bool.false_ne_true]
  apply walkPath_in3D
  · exact le_refl _
  · simp [lengthInWorld_self]

/-- A search in 2D whose first segment fails the incline test goes on as the search
in 3D with the occupied length converted to the world. -/
theorem tryToFindSpaceOnPath_first_refused (internalState : InternalState) (pathSize : Nat)
    (pathInWorld pathOnScreen : List Vec2) (r a : ℚ) (startPointIndex : Nat)
    (hfail : isInclineAllowedFor2D (pointAt pathOnScreen startPointIndex)
      (pointAt pathOnScreen (startPointIndex + 1)) = false) :
    tryToFindSpaceOnPath internalState pathSize pathInWorld pathOnScreen r startPointIndex true a
      = tryToFindSpaceOnPath internalState pathSize pathInWorld pathOnScreen r startPointIndex
          false
          (if a > 0 then
            internalState.distance (pointAt pathInWorld startPointIndex)
                (pointAt pathInWorld (startPointIndex + 1))
              * (a / internalState.distance (pointAt pathOnScreen startPointIndex)
                  (pointAt pathOnScreen (startPointIndex + 1)))
          else a) := by
  unfold tryToFindSpaceOnPath
  dsimp only
  rw [if_pos rfl, if_neg Bool.false_ne_true, mul_one]
  cases hn : pathSize - (startPointIndex + 1) with
  | zero => rfl
  | succ n =>
    have hfail2 : isInclineAllowedFor2D (pointAt pathOnScreen (startPointIndex + 1 - 1))
        (pointAt pathOnScreen (startPointIndex + 1)) = false := by
      rw [Nat.add_sub_cancel]
      exact hfail
    rw [walkPath_succ, walkPath_succ, checkSegmentFor2D_in3D,
      checkSegmentFor2D_refused _ _ _ _ _ _ _ _ hfail2]
    have hrec : ∀ occ req : ℚ,
        recalculateEntireLengthAs3D internalState pathInWorld occ req
            (startPointIndex + 1 - (startPointIndex + 1)) (startPointIndex + 1) 0
          = .inr 0 := by
      intro occ req
      rw [Nat.sub_self]
      rfl
    rw [hrec]

/-- C22. Retroactive conversion from 2D to 3D in `tryToFindSpaceOnPath`: when the first
segment [s, s + 1] walked fails the incline test, a call in 2D mode with the
already-occupied screen length a ≥ 0 and the requested pixel length r returns
what the call in 3D mode returns with the already-occupied length
a * worldLength(s, s + 1) / screenLength(s, s + 1) and the same r. That is the
first vertex at which the length walked in the world, less the occupied length,
reaches r * pixelInWorldProjectionScale, with the occupied part of the last
segment measured in the world. -/
theorem C22_retroactive_conversion (internalState : InternalState) (pathSize : Nat)
    (pathInWorld pathOnScreen : List Vec2) (r a : ℚ) (s : Nat)
    (ha : 0 ≤ a)
    (hfail : isInclineAllowedFor2D (pointAt pathOnScreen s) (pointAt pathOnScreen (s + 1))
      = false) :
    tryToFindSpaceOnPath internalState pathSize pathInWorld pathOnScreen r s true a
      = tryToFindSpaceOnPath internalState pathSize pathInWorld pathOnScreen r s false
          (a * internalState.distance (pointAt pathInWorld s) (pointAt pathInWorld (s + 1))
            / internalState.distance (pointAt pathOnScreen s) (pointAt pathOnScreen (s + 1)))
    ∧ tryToFindSpaceOnPath internalState pathSize pathInWorld pathOnScreen r s false
          (a * internalState.distance (pointAt pathInWorld s) (pointAt pathInWorld (s + 1))
            / internalState.distance (pointAt pathOnScreen s) (pointAt pathOnScreen (s + 1)))
      = match (List.range' (s + 1) (pathSize - (s + 1))).find?
            (fun k => decide
              (lengthInWorld internalState pathInWorld s k
                  - a * internalState.distance (pointAt pathInWorld s) (pointAt pathInWorld (s + 1))
                    / internalState.distance (pointAt pathOnScreen s)
                        (pointAt pathOnScreen (s + 1))
                ≥ r * internalState.pixelInWorldProjectionScale)) with
        | some k =>
          some { outEndPointIndex := k
                 outLastOccupiedLengthIsIn2D := false
                 outLastOccupiedLength :=
                   internalState.distance (pointAt pathInWorld (k - 1)) (pointAt pathInWorld k)
                   - (lengthInWorld internalState pathInWorld s k
                      - a * internalState.distance (pointAt pathInWorld s)
                          (pointAt pathInWorld (s + 1))
                        / internalState.distance (pointAt pathOnScreen s)
                            (pointAt pathOnScreen (s + 1))
                      - r * internalState.pixelInWorldProjectionScale) }
        | none => none := by
  refine ⟨?_, tryToFindSpaceOnPath_in3D _ _ _ _ _ _ _⟩
  rw [tryToFindSpaceOnPath_first_refused _ _ _ _ _ _ _ hfail]
  have hocc : (if a > 0 then
        internalState.distance (pointAt pathInWorld s) (pointAt pathInWorld (s + 1))
          * (a / internalState.distance (pointAt pathOnScreen s) (pointAt pathOnScreen (s + 1)))
      else a)
      = a * internalState.distance (pointAt pathInWorld s) (pointAt pathInWorld (s + 1))
          / internalState.distance (pointAt pathOnScreen s) (pointAt pathOnScreen (s + 1)) := by
    by_cases hpos : a > 0
    · rw [if_pos hpos, mul_comm a, mul_div_assoc]
    · rw [if_neg hpos]
      have hz : a = 0 := le_antisymm (not_lt.mp hpos) ha
      rw [hz]
      simp
  rw [hocc]

/-- C22 on a scene: the path runs up the screen, 3 pixels and 6 world units a
segment, a pixel being 2 world units. With 1 pixel occupied and 1 pixel
requested, the call in 2D and the call in 3D with 1 * 6 / 3 = 2 world units
occupied both end at vertex 1 in 3D with 6 - (6 - 2 - 2) = 4 world units of the
segment occupied. -/
theorem C22_witness :
    isInclineAllowedFor2D (pointAt steepPathOnScreen 0) (pointAt steepPathOnScreen (0 + 1)) = false
    ∧ tryToFindSpaceOnPath sceneInternalState 3 steepPathInWorld steepPathOnScreen 1 0 true 1
      = tryToFindSpaceOnPath sceneInternalState 3 steepPathInWorld steepPathOnScreen 1 0 false
          (1 * sceneInternalState.distance (pointAt steepPathInWorld 0)
              (pointAt steepPathInWorld (0 + 1))
            / sceneInternalState.distance (pointAt steepPathOnScreen 0)
                (pointAt steepPathOnScreen (0 + 1)))
    ∧ tryToFindSpaceOnPath sceneInternalState 3 steepPathInWorld steepPathOnScreen 1 0 true 1
      = some { outEndPointIndex := 1, outLastOccupiedLengthIsIn2D := false
               outLastOccupiedLength := 4 }
    ∧ tryToFindSpaceOnPath sceneInternalState 3 steepPathInWorld steepPathOnScreen 1 0 false 2
      = some { outEndPointIndex := 1, outLastOccupiedLengthIsIn2D := false
               outLastOccupiedLength := 4 } :=
  ⟨by decide!,
    (C22_retroactive_conversion sceneInternalState 3 steepPathInWorld steepPathOnScreen 1 1 0
      (by decide!) (by decide!)).1,
    by decide!, by decide!⟩

/-! ## Lemmas: the assertions of the search -/

theorem recalculateEntireLengthAs3D_assertions (internalState : InternalState)
    (pathInWorld : List Vec2) (occ req : ℚ) :
    ∀ (count idx : Nat) (ent : ℚ), ent - occ ≤ req →
      (∀ found, recalculateEntireLengthAs3D internalState pathInWorld occ req count idx ent
          = .inl found →
        0 ≤ found.outLastOccupiedLength
        ∧ found.outLastOccupiedLength
            ≤ internalState.distance (pointAt pathInWorld (found.outEndPointIndex - 1))
                (pointAt pathInWorld found.outEndPointIndex))
      ∧ (∀ ent2, recalculateEntireLengthAs3D internalState pathInWorld occ req count idx ent
          = .inr ent2 → ent2 - occ ≤ req) := by
  intro count
  induction count with
  | zero =>
    intro idx ent hinv
    constructor
    · intro found h
      simp [recalculateEntireLengthAs3D] at h
    · intro ent2 h
      simp only [recalculateEntireLengthAs3D, Sum.inr.injEq] at h
      rw [← h]
      exact hinv
  | succ count ih =>
    intro idx ent hinv
    simp only [recalculateEntireLengthAs3D]
    by_cases hc : ent + internalState.distance (pointAt pathInWorld (idx - 1))
        (pointAt pathInWorld idx) - occ ≥ req
    · rw [if_pos hc]
      constructor
      · intro found h
        cases h
        dsimp only
        constructor <;> linarith
      · intro ent2 h
        cases h
    · rw [if_neg hc]
      exact ih (idx + 1) _ (by linarith)

theorem checkSegmentFor2D_assertions (internalState : InternalState)
    (pathInWorld pathOnScreen : List Vec2) (startPointIndex testPointIndex : Nat)
    (isRenderableAs2D : Bool) (req ent occ : ℚ)
    (hscale : 0 ≤ internalState.pixelInWorldProjectionScale)
    (hworld : 0 ≤ internalState.distance (pointAt pathInWorld startPointIndex)
      (pointAt pathInWorld (startPointIndex + 1)))
    (hscreen : 0 ≤ internalState.distance (pointAt pathOnScreen startPointIndex)
      (pointAt pathOnScreen (startPointIndex + 1)))
    (hinv : ent - occ ≤ req) (h2D : isRenderableAs2D = true → 0 ≤ occ ∧ 0 ≤ req) :
    (∀ found, checkSegmentFor2D internalState pathInWorld pathOnScreen startPointIndex
          testPointIndex isRenderableAs2D req ent occ = .inl found →
        found.outLastOccupiedLengthIsIn2D = false
        ∧ 0 ≤ found.outLastOccupiedLength
        ∧ found.outLastOccupiedLength
            ≤ internalState.distance (pointAt pathInWorld (found.outEndPointIndex - 1))
                (pointAt pathInWorld found.outEndPointIndex))
    ∧ (∀ mode req2 ent2 occ2, checkSegmentFor2D internalState pathInWorld pathOnScreen
          startPointIndex testPointIndex isRenderableAs2D req ent occ
          = .inr (mode, req2, ent2, occ2) →
        ent2 - occ2 ≤ req2 ∧ (mode = true → 0 ≤ occ2 ∧ 0 ≤ req2)) := by
  cases isRenderableAs2D with
  | false =>
    rw [checkSegmentFor2D_in3D]
    constructor
    · intro found h
      cases h
    · intro mode req2 ent2 occ2 h
      simp only [Sum.inr.injEq, Prod.mk.injEq] at h
      obtain ⟨hm, hr, he, ho⟩ := h
      subst hm hr he ho
      exact ⟨hinv, fun hh => absurd hh Bool.false_ne_true⟩
  | true =>
    obtain ⟨hocc, hreq⟩ := h2D rfl
    cases hinc : isInclineAllowedFor2D (pointAt pathOnScreen (testPointIndex - 1))
        (pointAt pathOnScreen testPointIndex) with
    | true =>
      rw [checkSegmentFor2D_allowed _ _ _ _ _ _ _ _ hinc]
      constructor
      · intro found h
        cases h
      · intro mode req2 ent2 occ2 h
        simp only [Sum.inr.injEq, Prod.mk.injEq] at h
        obtain ⟨hm, hr, he, ho⟩ := h
        subst hm hr he ho
        exact ⟨hinv, fun _ => ⟨hocc, hreq⟩⟩
    | false =>
      rw [checkSegmentFor2D_refused _ _ _ _ _ _ _ _ hinc]
      have hocc2 : 0 ≤ (if occ > 0 then
            internalState.distance (pointAt pathInWorld startPointIndex)
                (pointAt pathInWorld (startPointIndex + 1))
              * (occ / internalState.distance (pointAt pathOnScreen startPointIndex)
                  (pointAt pathOnScreen (startPointIndex + 1)))
          else occ) := by
        split_ifs
        · exact mul_nonneg hworld (div_nonneg hocc hscreen)
        · exact hocc
      have hreq2 : 0 ≤ req * internalState.pixelInWorldProjectionScale :=
        mul_nonneg hreq hscale
      generalize (if occ > 0 then
            internalState.distance (pointAt pathInWorld startPointIndex)
                (pointAt pathInWorld (startPointIndex + 1))
              * (occ / internalState.distance (pointAt pathOnScreen startPointIndex)
                  (pointAt pathOnScreen (startPointIndex + 1)))
          else occ) = occ3 at hocc2 ⊢
      obtain ⟨hfound, hrest⟩ := recalculateEntireLengthAs3D_assertions internalState pathInWorld
        occ3 (req * internalState.pixelInWorldProjectionScale)
        (testPointIndex - (startPointIndex + 1)) (startPointIndex + 1) 0 (by linarith)
      cases hrec : recalculateEntireLengthAs3D internalState pathInWorld occ3
          (req * internalState.pixelInWorldProjectionScale)
          (testPointIndex - (startPointIndex + 1)) (startPointIndex + 1) 0 with
      | inl found2 =>
        dsimp only
        constructor
        · intro found h
          cases h
          exact ⟨(recalculateEntireLengthAs3D_found _ _ _ _ _ _ _ _ hrec).1, hfound _ hrec⟩
        · intro mode req2 ent2 occ2 h
          cases h
      | inr ent3 =>
        dsimp only
        constructor
        · intro found h
          cases h
        · intro mode req2 ent2 occ2 h
          simp only [Sum.inr.injEq, Prod.mk.injEq] at h
          obtain ⟨hm, hr, he, ho⟩ := h
          subst hm hr he ho
          exact ⟨hrest _ hrec, fun hh => absurd hh Bool.false_ne_true⟩

theorem walkPath_assertions (internalState : InternalState)
    (pathInWorld pathOnScreen : List Vec2) (startPointIndex : Nat)
    (hscale : 0 ≤ internalState.pixelInWorldProjectionScale)
    (hworld : 0 ≤ internalState.distance (pointAt pathInWorld startPointIndex)
      (pointAt pathInWorld (startPointIndex + 1)))
    (hscreen : 0 ≤ internalState.distance (pointAt pathOnScreen startPointIndex)
      (pointAt pathOnScreen (startPointIndex + 1))) :
    ∀ (remaining testPointIndex : Nat) (isRenderableAs2D : Bool) (req ent occ : ℚ)
      (found : SpaceOnPath),
      ent - occ ≤ req → (isRenderableAs2D = true → 0 ≤ occ ∧ 0 ≤ req) →
      walkPath internalState pathInWorld pathOnScreen startPointIndex remaining testPointIndex
          isRenderableAs2D req ent occ = some found →
      0 ≤ found.outLastOccupiedLength
        ∧ found.outLastOccupiedLength
            ≤ segmentLength internalState pathInWorld pathOnScreen
                found.outLastOccupiedLengthIsIn2D found.outEndPointIndex := by
  intro remaining
  induction remaining with
  | zero =>
    intro t m req ent occ found _ _ h
    simp [walkPath] at h
  | succ remaining ih =>
    intro t m req ent occ found hinv h2D h
    obtain ⟨hfound, hrest⟩ := checkSegmentFor2D_assertions internalState pathInWorld pathOnScreen
      startPointIndex t m req ent occ hscale hworld hscreen hinv h2D
    rw [walkPath_succ] at h
    split at h
    · rename_i found2 hcheck
      cases h
      obtain ⟨h3D, h0, h1⟩ := hfound _ hcheck
      refine ⟨h0, ?_⟩
      rw [h3D]
      exact h1
    · rename_i mode req2 ent2 occ2 hcheck
      obtain ⟨hinv2, h2D2⟩ := hrest _ _ _ _ hcheck
      split_ifs at h with hc
      · cases h
        dsimp only
        constructor <;> linarith
      · exact ih _ _ _ _ _ _ (by linarith) h2D2 h

/-- C27. The two assertions of `tryToFindSpaceOnPath` hold in exact arithmetic: for a
call with a requested length and an already-occupied length that are not
negative, a positive pixel-to-world scale and positive lengths of the segments
behind the start vertex, in the world and on the screen, every successful return
gives 0 ≤ outLastOccupiedLength ≤ the length of the segment
[outEndPointIndex - 1, outEndPointIndex] in the mode returned. This covers the
return from the recalculation in 3D, after a segment failed the incline test,
and the return at the end of a turn of the loop. -/
theorem C27_assertions_hold (internalState : InternalState) (pathSize : Nat)
    (pathInWorld pathOnScreen : List Vec2) (requestedLengthInPixels : ℚ)
    (startPointIndex : Nat) (alreadyOccupiedLengthIsIn2D : Bool) (alreadyOccupiedLength : ℚ)
    (found : SpaceOnPath)
    (hreq : 0 ≤ requestedLengthInPixels) (hocc : 0 ≤ alreadyOccupiedLength)
    (hscale : 0 < internalState.pixelInWorldProjectionScale)
    (hworld : ∀ i, startPointIndex < i → i < pathSize →
      0 < internalState.distance (pointAt pathInWorld (i - 1)) (pointAt pathInWorld i))
    (hscreen : ∀ i, startPointIndex < i → i < pathSize →
      0 < internalState.distance (pointAt pathOnScreen (i - 1)) (pointAt pathOnScreen i))
    (h : tryToFindSpaceOnPath internalState pathSize pathInWorld pathOnScreen
      requestedLengthInPixels startPointIndex alreadyOccupiedLengthIsIn2D alreadyOccupiedLength
      = some found) :
    0 ≤ found.outLastOccupiedLength
    ∧ found.outLastOccupiedLength
        ≤ segmentLength internalState pathInWorld pathOnScreen
            found.outLastOccupiedLengthIsIn2D found.outEndPointIndex
    ∧ (found.outLastOccupiedLengthIsIn2D = false →
        found.outLastOccupiedLength
          ≤ internalState.distance (pointAt pathInWorld (found.outEndPointIndex - 1))
              (pointAt pathInWorld found.outEndPointIndex))
    ∧ (found.outLastOccupiedLengthIsIn2D = true →
        found.outLastOccupiedLength
          ≤ internalState.distance (pointAt pathOnScreen (found.outEndPointIndex - 1))
              (pointAt pathOnScreen found.outEndPointIndex)) := by
  have hb := tryToFindSpaceOnPath_bounds _ _ _ _ _ _ _ _ _ h
  have hw := hworld (startPointIndex + 1) (by omega) (by omega)
  have hs := hscreen (startPointIndex + 1) (by omega) (by omega)
  rw [Nat.add_sub_cancel] at hw hs
  unfold tryToFindSpaceOnPath at h
  dsimp only at h
  have hreq2 : 0 ≤ requestedLengthInPixels
      * (if alreadyOccupiedLengthIsIn2D = true then 1
          else internalState.pixelInWorldProjectionScale) := by
    split_ifs
    · linarith
    · exact mul_nonneg hreq (le_of_lt hscale)
  obtain ⟨h0, h1⟩ := walkPath_assertions internalState pathInWorld pathOnScreen startPointIndex
    (le_of_lt hscale) (le_of_lt hw) (le_of_lt hs) _ _ _ _ _ _ found (by linarith)
    (fun _ => ⟨hocc, hreq2⟩) h
  refine ⟨h0, h1, ?_, ?_⟩
  · intro hm
    rw [hm] at h1
    exact h1
  · intro hm
    rw [hm] at h1
    exact h1

theorem bentPath_positive :
    (∀ i, 0 < i → i < 3 →
      0 < sceneInternalState.distance (pointAt bentPathInWorld (i - 1)) (pointAt bentPathInWorld i))
    ∧ ∀ i, 0 < i → i < 3 →
      0 < sceneInternalState.distance (pointAt bentPathOnScreen (i - 1))
        (pointAt bentPathOnScreen i) := by
  constructor <;> intro i h1 h2 <;> interval_cases i <;> decide!

/-- C27 on a scene with a bend, at the return from the recalculation in 3D: a search
for 4 pixels finds 3 on the first segment of the screen; the second segment
fails the incline test, and the first segment, 10 world units long, covers the
8 world units requested: the search ends at vertex 1 in 3D with 8 units of the
segment occupied, between 0 and 10. -/
theorem C27_witness :
    tryToFindSpaceOnPath sceneInternalState 3 bentPathInWorld bentPathOnScreen 4 0 true 0
      = some { outEndPointIndex := 1, outLastOccupiedLengthIsIn2D := false
               outLastOccupiedLength := 8 }
    ∧ (0 : ℚ) ≤ 8
    ∧ (8 : ℚ) ≤ sceneInternalState.distance (pointAt bentPathInWorld (1 - 1))
        (pointAt bentPathInWorld 1) := by
  have h := C27_assertions_hold sceneInternalState 3 bentPathInWorld bentPathOnScreen 4 0 true 0
    { outEndPointIndex := 1, outLastOccupiedLengthIsIn2D := false, outLastOccupiedLength := 8 }
    (by decide!) (by decide!) (by decide!) bentPath_positive.1 bentPath_positive.2 (by decide!)
  exact ⟨by decide!, h.1, h.2.2.1 rfl⟩

/-! ## Lemmas: one search after another -/

theorem lengthOnScreen_add (internalState : InternalState) (pathOnScreen : List Vec2)
    (s m : Nat) (hsm : s ≤ m) :
    ∀ d : Nat, lengthOnScreen internalState pathOnScreen s (m + d)
      = lengthOnScreen internalState pathOnScreen s m
        + lengthOnScreen internalState pathOnScreen m (m + d) := by
  intro d
  induction d with
  | zero => simp [lengthOnScreen_self]
  | succ d ih =>
    have h1 := lengthOnScreen_succ internalState pathOnScreen pathOnScreen s (m + (d + 1))
      (by omega)
    have h2 := lengthOnScreen_succ internalState pathOnScreen pathOnScreen m (m + (d + 1))
      (by omega)
    have h3 : m + (d + 1) - 1 = m + d := by omega
    rw [h3] at h1 h2
    rw [h1, h2, ih]
    ring

/-- Where a search in 2D ends, on segments that all pass the incline test: the
length of the path on the screen from the start vertex to the vertex before the
end vertex, plus the part of the last segment that is returned as occupied, is
the occupied length given plus the length requested. -/
theorem tryToFindSpaceOnPath_in2D_position (internalState : InternalState) (pathSize : Nat)
    (pathInWorld pathOnScreen : List Vec2) (r : ℚ) (startPointIndex : Nat) (a : ℚ)
    (hall : ∀ i, startPointIndex < i → i < pathSize →
      isInclineAllowedFor2D (pointAt pathOnScreen (i - 1)) (pointAt pathOnScreen i) = true)
    (found : SpaceOnPath)
    (h : tryToFindSpaceOnPath internalState pathSize pathInWorld pathOnScreen r startPointIndex
      true a = some found) :
    startPointIndex < found.outEndPointIndex
      ∧ found.outEndPointIndex < pathSize
      ∧ found.outLastOccupiedLengthIsIn2D = true
      ∧ lengthOnScreen internalState pathOnScreen startPointIndex (found.outEndPointIndex - 1)
          + found.outLastOccupiedLength = a + r := by
  have hb := tryToFindSpaceOnPath_bounds _ _ _ _ _ _ _ _ _ h
  rw [tryToFindSpaceOnPath_in2D internalState pathSize pathInWorld pathOnScreen r
    startPointIndex a hall] at h
  cases hf : (List.range' (startPointIndex + 1) (pathSize - (startPointIndex + 1))).find?
      (fun k => decide
        (lengthOnScreen internalState pathOnScreen startPointIndex k - a ≥ r)) with
  | none =>
    rw [hf] at h
    cases h
  | some k =>
    rw [hf] at h
    cases h
    refine ⟨hb.1, hb.2, rfl, ?_⟩
    have hk : startPointIndex + 1 ≤ k := hb.1
    have hlen := lengthOnScreen_succ internalState pathInWorld pathOnScreen startPointIndex k hk
    have hseg : segmentLength internalState pathInWorld pathOnScreen true k
        = internalState.distance (pointAt pathOnScreen (k - 1)) (pointAt pathOnScreen k) := rfl
    show lengthOnScreen internalState pathOnScreen startPointIndex (k - 1)
        + (internalState.distance (pointAt pathOnScreen (k - 1)) (pointAt pathOnScreen k)
          - (lengthOnScreen internalState pathOnScreen startPointIndex k - a - r)) = a + r
    rw [hlen, hseg]
    ring

/-- C26, what the code does. On a path all of whose segments pass the incline test,
a single search from vertex 0 for the length a + b ends a + b along the path. A
search from vertex 0 for the length a followed by a search for the length b from
the end vertex and the occupied length that the first one returned ends
a + b + the length of the segment [outEndPointIndex - 1, outEndPointIndex] of the
first search along the path: the second search starts at the end vertex of that
segment and takes the occupied length as lying on the next segment. The two end
at different places whenever that segment has a length. -/
theorem C26_composed_search_skips_a_segment (internalState : InternalState) (pathSize : Nat)
    (pathInWorld pathOnScreen : List Vec2) (a b : ℚ) (first second single : SpaceOnPath)
    (hall : ∀ i, 0 < i → i < pathSize →
      isInclineAllowedFor2D (pointAt pathOnScreen (i - 1)) (pointAt pathOnScreen i) = true)
    (hfirst : tryToFindSpaceOnPath internalState pathSize pathInWorld pathOnScreen a 0 true 0
      = some first)
    (hsecond : tryToFindSpaceOnPath internalState pathSize pathInWorld pathOnScreen b
      first.outEndPointIndex first.outLastOccupiedLengthIsIn2D first.outLastOccupiedLength
      = some second)
    (hsingle : tryToFindSpaceOnPath internalState pathSize pathInWorld pathOnScreen (a + b) 0
      true 0 = some single) :
    lengthOnScreen internalState pathOnScreen 0 (single.outEndPointIndex - 1)
        + single.outLastOccupiedLength = a + b
    ∧ lengthOnScreen internalState pathOnScreen 0 (second.outEndPointIndex - 1)
        + second.outLastOccupiedLength
      = a + b + internalState.distance (pointAt pathOnScreen (first.outEndPointIndex - 1))
          (pointAt pathOnScreen first.outEndPointIndex)
    ∧ (internalState.distance (pointAt pathOnScreen (first.outEndPointIndex - 1))
          (pointAt pathOnScreen first.outEndPointIndex) ≠ 0 →
        (second.outEndPointIndex, second.outLastOccupiedLength)
          ≠ (single.outEndPointIndex, single.outLastOccupiedLength)) := by
  obtain ⟨hs1, _, _, hsp⟩ := tryToFindSpaceOnPath_in2D_position internalState pathSize
    pathInWorld pathOnScreen (a + b) 0 0 hall single hsingle
  obtain ⟨hf1, hf2, hf3, hfp⟩ := tryToFindSpaceOnPath_in2D_position internalState pathSize
    pathInWorld pathOnScreen a 0 0 hall first hfirst
  rw [hf3] at hsecond
  obtain ⟨hc1, hc2, _, hcp⟩ := tryToFindSpaceOnPath_in2D_position internalState pathSize
    pathInWorld pathOnScreen b first.outEndPointIndex first.outLastOccupiedLength
    (fun i h1 h2 => hall i (by omega) h2) second hsecond
  have hsplit : second.outEndPointIndex - 1
      = first.outEndPointIndex + (second.outEndPointIndex - 1 - first.outEndPointIndex) := by
    omega
  have hadd := lengthOnScreen_add internalState pathOnScreen 0 first.outEndPointIndex
    (Nat.zero_le _) (second.outEndPointIndex - 1 - first.outEndPointIndex)
  rw [← hsplit] at hadd
  have hlast := lengthOnScreen_succ internalState pathInWorld pathOnScreen 0
    first.outEndPointIndex (by omega)
  have hseg : segmentLength internalState pathInWorld pathOnScreen true first.outEndPointIndex
      = internalState.distance (pointAt pathOnScreen (first.outEndPointIndex - 1))
          (pointAt pathOnScreen first.outEndPointIndex) := rfl
  rw [hseg] at hlast
  have hcomposed : lengthOnScreen internalState pathOnScreen 0 (second.outEndPointIndex - 1)
        + second.outLastOccupiedLength
      = a + b + internalState.distance (pointAt pathOnScreen (first.outEndPointIndex - 1))
          (pointAt pathOnScreen first.outEndPointIndex) := by
    rw [hadd, hlast]
    linarith
  have hsingle2 : lengthOnScreen internalState pathOnScreen 0 (single.outEndPointIndex - 1)
        + single.outLastOccupiedLength = a + b := by
    rw [hsp]
    ring
  refine ⟨hsingle2, hcomposed, ?_⟩
  intro hne heq
  rw [Prod.mk.injEq] at heq
  rw [heq.1, heq.2, hsingle2] at hcomposed
  apply hne
  linarith

/-- C26 on the failing input: on the horizontal path of 3 vertices 10 pixels apart,
the search for 5 pixels from vertex 0 ends at vertex 1 with 5 pixels occupied, the
search for 3 pixels from there ends at vertex 2 with 8 pixels occupied, and the
single search for 8 pixels ends at vertex 1 with 8 pixels occupied: 18 pixels
along the path against 8. -/
theorem C26_witness :
    tryToFindSpaceOnPath sceneInternalState 3
        (convertPoints31ToWorld sceneInternalState straightPath)
        (convertPoints31ToWorld sceneInternalState straightPath) 5 0 true 0
      = some { outEndPointIndex := 1, outLastOccupiedLengthIsIn2D := true
               outLastOccupiedLength := 5 }
    ∧ tryToFindSpaceOnPath sceneInternalState 3
        (convertPoints31ToWorld sceneInternalState straightPath)
        (convertPoints31ToWorld sceneInternalState straightPath) 3 1 true 5
      = some { outEndPointIndex := 2, outLastOccupiedLengthIsIn2D := true
               outLastOccupiedLength := 8 }
    ∧ tryToFindSpaceOnPath sceneInternalState 3
        (convertPoints31ToWorld sceneInternalState straightPath)
        (convertPoints31ToWorld sceneInternalState straightPath) (5 + 3) 0 true 0
      = some { outEndPointIndex := 1, outLastOccupiedLengthIsIn2D := true
               outLastOccupiedLength := 8 }
    ∧ ((2 : Nat), (8 : ℚ)) ≠ ((1 : Nat), (8 : ℚ)) := by
  have hall : ∀ i, 0 < i → i < 3 →
      isInclineAllowedFor2D
        (pointAt (convertPoints31ToWorld sceneInternalState straightPath) (i - 1))
        (pointAt (convertPoints31ToWorld sceneInternalState straightPath) i) = true := by
    intro i h1 h2
    interval_cases i <;> decide!
  have h := C26_composed_search_skips_a_segment sceneInternalState 3
    (convertPoints31ToWorld sceneInternalState straightPath)
    (convertPoints31ToWorld sceneInternalState straightPath) 5 3
    { outEndPointIndex := 1, outLastOccupiedLengthIsIn2D := true, outLastOccupiedLength := 5 }
    { outEndPointIndex := 2, outLastOccupiedLengthIsIn2D := true, outLastOccupiedLength := 8 }
    { outEndPointIndex := 1, outLastOccupiedLengthIsIn2D := true, outLastOccupiedLength := 8 }
    hall (by decide!) (by decide!) (by decide!)
  exact ⟨by decide!, by decide!, by decide!, h.2.2 (by decide!)⟩

end OsmAnd
